import Mathlib

/-!
Shallow embedding of the mesa state-tracker lifetime / coalescing pass:
`src/mesa/state_tracker/st_glsl_to_tgsi_temprename.cpp` and
`src/mesa/state_tracker/st_glsl_to_tgsi_array_merge.cpp`.

Machine `int` values are modelled as `Int`; the 4-bit component masks and
unsigned bitfields are modelled as `Nat` (they are always non-negative in
the source, and the C bitfield assignment truncation `:4` is made explicit
with `&&& 15`).  Pointer dereference of an invalid pointer is undefined
behaviour in the source; the model totalizes such reads with `Array.getD`
and a default value, and every theorem below restricts its statement to
inputs on which the source is defined, so the default is never consulted
there.
-/

/-- Population count of a 32-bit value, as computed by `util_bitcount`. -/
def util_bitcount (n : Nat) : Nat :=
  (List.range 32).foldl (fun acc i => acc + ((n >>> i) &&& 1)) 0

/-- Index of the highest set bit plus one (of a 32-bit value), as computed
by `util_last_bit`. -/
def util_last_bit (n : Nat) : Nat :=
  (List.range 32).foldl (fun acc i => if (n >>> i) &&& 1 = 1 then i + 1 else acc) 0

/-! ### array_live_range (st_glsl_to_tgsi_array_merge.h / .cpp) -/

/-- Live range of an indexed array: id, declared length, first/last access
line, component access mask and its population count. -/
structure array_live_range where
  id : Nat
  length : Nat
  first_access : Int
  last_access : Int
  component_access_mask : Nat
  used_component_count : Nat
deriving DecidableEq

instance : Inhabited array_live_range :=
  ⟨⟨0, 0, 0, 0, 0, 0⟩⟩

/-- Constructor `array_live_range(aid, alength, begin, end, sw)`. -/
def array_live_range.make (aid alength : Nat) (b e : Int) (sw : Nat) :
    array_live_range :=
  ⟨aid, alength, b, e, sw, util_bitcount sw⟩

/-- Method `array_live_range::set_access_mask`. -/
def array_live_range.set_access_mask (r : array_live_range) (mask : Nat) :
    array_live_range :=
  { r with component_access_mask := mask, used_component_count := util_bitcount mask }

/-- Method `array_live_range::merge_live_range`: widen this range by the
range of `other`. -/
def array_live_range.merge_live_range (r other : array_live_range) :
    array_live_range :=
  let r1 := if other.first_access < r.first_access then
    { r with first_access := other.first_access } else r
  if other.last_access > r1.last_access then
    { r1 with last_access := other.last_access } else r1

/-- Method `array_live_range::time_doesnt_overlap`. -/
def array_live_range.time_doesnt_overlap (r other : array_live_range) : Bool :=
  other.last_access < r.first_access || r.last_access < other.first_access

/-! ### array_remapping (st_glsl_to_tgsi_array_merge.cpp) -/

/-- Remapping record for one array: target id (0 = invalid, i.e. the array
is kept), per-component write-mask map `uint16_t[4]` and read-swizzle map
`int16_t[4]`, the combined (summary) access mask and the original source
access mask (both 4-bit fields), and the `reswizzle`/`finalized` flags. -/
structure array_remapping where
  target_id : Nat
  writemask_map : Array Nat
  read_swizzle_map : Array Int
  summary_access_mask : Nat
  original_src_access_mask : Nat
  reswizzle : Bool
  finalized : Bool
deriving DecidableEq

/-- Default constructor `array_remapping()`: invalid mapping.  The map
arrays and masks are left uninitialized in the source; they are modelled as
zeros, and no theorem depends on them while the entry is invalid. -/
def array_remapping.invalid : array_remapping :=
  ⟨0, #[0, 0, 0, 0], #[0, 0, 0, 0], 0, 0, false, true⟩

instance : Inhabited array_remapping :=
  ⟨array_remapping.invalid⟩

/-- Constructor `array_remapping(trgt_array_id, src_access_mask)`: plain
merge without reswizzling.  `summary_access_mask` and the two maps are left
uninitialized in the source (they are only read when `reswizzle` is set);
modelled as zeros. -/
def array_remapping.simple (trgt_array_id : Nat) (src_access_mask : Nat) :
    array_remapping :=
  ⟨trgt_array_id, #[0, 0, 0, 0], #[0, 0, 0, 0], 0, src_access_mask &&& 15,
   false, false⟩

/-- Method `array_remapping::is_valid`. -/
def array_remapping.is_valid (m : array_remapping) : Bool :=
  m.target_id > 0

/-- Method `array_remapping::is_finalized`. -/
def array_remapping.is_finalized (m : array_remapping) : Bool :=
  m.finalized

/-- State of the loop inside the interleaving constructor
`array_remapping(trgt_array_id, trgt_access_mask, src_access_mask)`. -/
structure ilv_state where
  read_swizzle_map : Array Int
  writemask_map : Array Nat
  trgt_access_mask : Nat
  summary_access_mask : Nat
  next_free_swizzle_bit : Nat
  k : Nat
  skip : Bool

/-- Inner `while` of the interleaving constructor: advance
`next_free_swizzle_bit`/`k` to the next component slot that is free in
`trgt_access_mask` (stopping at `k = 4`).  The loop runs at most `4 - k`
times, which the structural `fuel` argument of the helper makes explicit. -/
def find_free_slot_go (trgt_access_mask : Nat) :
    Nat → Nat → Nat → Nat × Nat
  | 0, next_free_swizzle_bit, k => (next_free_swizzle_bit, k)
  | fuel + 1, next_free_swizzle_bit, k =>
    if trgt_access_mask &&& next_free_swizzle_bit ≠ 0 ∧ k < 4 then
      find_free_slot_go trgt_access_mask fuel (next_free_swizzle_bit <<< 1) (k + 1)
    else (next_free_swizzle_bit, k)

/-- Entry point of the inner `while` of the interleaving constructor. -/
def find_free_slot (trgt_access_mask next_free_swizzle_bit k : Nat) :
    Nat × Nat :=
  find_free_slot_go trgt_access_mask (4 - k) next_free_swizzle_bit k

/-- Constructor `array_remapping(trgt_array_id, trgt_access_mask,
src_access_mask)`: component interleaving.  Each relevant source component
is packed into the lowest slot still free in the (locally updated) target
mask; slots past the last used source bit are filled to support swizzle
patterns like `temp[A].xyyy`. -/
def array_remapping.interleave (trgt_array_id : Nat)
    (trgt_access_mask src_access_mask : Nat) : array_remapping :=
  let last_src_bit := util_last_bit src_access_mask
  let s0 : ilv_state :=
    { read_swizzle_map := #[-1, -1, -1, -1]
      writemask_map := #[0, 0, 0, 0]
      trgt_access_mask := trgt_access_mask
      summary_access_mask := trgt_access_mask &&& 15
      next_free_swizzle_bit := 1
      k := 0
      skip := true }
  let sf := (List.range 4).foldl (fun s i =>
    let src_swizzle_bit := 1 <<< i
    if s.skip ∧ src_swizzle_bit &&& src_access_mask = 0 then s
    else
      let fk := find_free_slot s.trgt_access_mask s.next_free_swizzle_bit s.k
      { read_swizzle_map := s.read_swizzle_map.setD i (Int.ofNat fk.2)
        writemask_map := s.writemask_map.setD i fk.1
        trgt_access_mask := s.trgt_access_mask ||| fk.1
        summary_access_mask :=
          if src_swizzle_bit &&& src_access_mask ≠ 0 then
            (s.summary_access_mask ||| fk.1) &&& 15
          else s.summary_access_mask
        next_free_swizzle_bit := fk.1
        k := fk.2
        skip := decide (i < last_src_bit) }) s0
  { target_id := trgt_array_id
    writemask_map := sf.writemask_map
    read_swizzle_map := sf.read_swizzle_map
    summary_access_mask := sf.summary_access_mask
    original_src_access_mask := src_access_mask &&& 15
    reswizzle := true
    finalized := false }

/-- Method `array_remapping::combined_access_mask`. -/
def array_remapping.combined_access_mask (m : array_remapping) : Nat :=
  m.summary_access_mask

/-- Method `array_remapping::map_writemask`. -/
def array_remapping.map_writemask (m : array_remapping)
    (writemask_to_map : Nat) : Nat :=
  if !m.reswizzle then writemask_to_map
  else (List.range 4).foldl (fun result i =>
    if (1 <<< i) &&& writemask_to_map ≠ 0 then
      result ||| m.writemask_map.getD i 0
    else result) 0

/-- Method `array_remapping::map_one_swizzle`.  The source indexes
`read_swizzle_map` with an `int`; a negative index is undefined behaviour
there and is totalized here via `toNat`/`getD`. -/
def array_remapping.map_one_swizzle (m : array_remapping)
    (swizzle_to_map : Int) : Int :=
  if !m.reswizzle then swizzle_to_map
  else m.read_swizzle_map.getD swizzle_to_map.toNat 0

/-- Identity read-swizzle map built by `finalize_mappings` when the entry
does not yet reswizzle. -/
def identity_read_swizzle_map (mask : Nat) : Array Int :=
  (List.range 4).foldl (fun a i =>
    a.setD i (if (1 <<< i) &&& mask ≠ 0 then Int.ofNat i else -1))
    #[-1, -1, -1, -1]

/-- Identity write-mask map built by `finalize_mappings` when the entry
does not yet reswizzle. -/
def identity_writemask_map (mask : Nat) : Array Nat :=
  (List.range 4).foldl (fun a i =>
    a.setD i (if (1 <<< i) &&& mask ≠ 0 then 1 <<< i else 0))
    #[0, 0, 0, 0]

/-- Tail of `array_remapping::finalize_mappings` after the recursive call:
re-read the entry and the (now final) forward map, compose the reswizzle
maps when the forward map reswizzles, and store the entry with the final
target id and the `finalized` flag set. -/
def finalize_write (arr_map1 : Array array_remapping) (idx fwd : Nat) :
    Array array_remapping :=
  let self1 := arr_map1.getD idx default
  let forward1 := arr_map1.getD fwd default
  let self2 :=
    if forward1.reswizzle then
      let selfr :=
        if !self1.reswizzle then
          { self1 with
            read_swizzle_map := identity_read_swizzle_map self1.original_src_access_mask
            writemask_map := identity_writemask_map self1.original_src_access_mask
            reswizzle := true }
        else self1
      (List.range 4).foldl (fun s i =>
        if (1 <<< i) &&& s.original_src_access_mask = 0 then s
        else
          { s with
            read_swizzle_map := s.read_swizzle_map.setD i
              (forward1.map_one_swizzle (s.read_swizzle_map.getD i 0))
            writemask_map := s.writemask_map.setD i
              (forward1.map_writemask (s.writemask_map.getD i 0)) }) selfr
    else self1
  arr_map1.setD idx
    { self2 with target_id := forward1.target_id, finalized := true }

/-- Method `array_remapping::finalize_mappings(arr_map)` acting on the
entry `idx` of the table: if the target entry is invalid the chain is
already final; otherwise first finalize the target entry (unless already
finalized), then rewrite this entry via `finalize_write`.  The recursion
along the target chain is bounded by `fuel`; with `fuel = arr_map.size`
this is faithful to the source on every table whose chains terminate
(which is proved below for the tables the merging pass builds). -/
def finalize_mappings (fuel : Nat) (arr_map : Array array_remapping)
    (idx : Nat) : Array array_remapping :=
  match fuel with
  | 0 => arr_map
  | fu + 1 =>
    let self := arr_map.getD idx default
    let forward_map := arr_map.getD self.target_id default
    if !forward_map.is_valid then arr_map
    else
      let arr_map1 :=
        if !forward_map.is_finalized then
          finalize_mappings fu arr_map self.target_id
        else arr_map
      finalize_write arr_map1 idx self.target_id

/-! ### The three merge strategies (st_glsl_to_tgsi_array_merge.cpp) -/

/-- Static function `merge_live_range(range_1, range_2, remapping)`.  The
result gives the new contents of the two range slots (the source swaps the
slots so that the longer array survives in slot 1), the updated remapping
table, and the number of merges performed (0 or 1). -/
def merge_live_range (range_1 range_2 : array_live_range)
    (remapping : Array array_remapping) :
    array_live_range × array_live_range × Array array_remapping × Nat :=
  if range_2.time_doesnt_overlap range_1 then
    let p := if range_1.length < range_2.length then (range_2, range_1)
             else (range_1, range_2)
    let remapping1 := remapping.setD p.2.id
      (array_remapping.simple p.1.id p.1.component_access_mask)
    (p.1.merge_live_range p.2, p.2, remapping1, 1)
  else (range_1, range_2, remapping, 0)

/-- Static function `merge_live_range_equal_swizzle`. -/
def merge_live_range_equal_swizzle (range_1 range_2 : array_live_range)
    (remapping : Array array_remapping) :
    array_live_range × array_live_range × Array array_remapping × Nat :=
  if range_1.component_access_mask = range_2.component_access_mask then
    merge_live_range range_1 range_2 remapping
  else (range_1, range_2, remapping, 0)

/-- Static function `array_interleave`. -/
def array_interleave (range_1 range_2 : array_live_range)
    (remapping : Array array_remapping) :
    array_live_range × array_live_range × Array array_remapping × Nat :=
  if range_2.used_component_count + range_1.used_component_count > 4 ||
     range_1.time_doesnt_overlap range_2 then
    (range_1, range_2, remapping, 0)
  else
    let p := if range_1.length < range_2.length then (range_2, range_1)
             else (range_1, range_2)
    let remapping1 := remapping.setD p.2.id
      (array_remapping.interleave p.1.id p.1.component_access_mask
        p.2.component_access_mask)
    let r1m := (p.1.merge_live_range p.2).set_access_mask
      (remapping1.getD p.2.id default).combined_access_mask
    (r1m, p.2, remapping1, 1)

/-- Type of the three merge strategies, as passed to
`array_merge_evaluator::run`. -/
abbrev array_merger :=
  array_live_range → array_live_range → Array array_remapping →
    array_live_range × array_live_range × Array array_remapping × Nat

/-- Inner `j` loop of `array_merge_evaluator::run`.  Returns the updated
ranges and table, the accumulated (or, on an early `always_restart`
return, the last) merge count, and whether the early return fired.  The
loop advances `j` until `j = narrays`; the structural `fuel` argument
counts the remaining iterations and is called with `fuel = narrays`, which
always suffices. -/
def array_merge_run_inner (merger : array_merger) (always_restart : Bool)
    (narrays i : Nat) :
    Nat → Nat → Array array_live_range → Array array_remapping → Nat →
      Array array_live_range × Array array_remapping × Nat × Bool
  | 0, _, ranges, remapping, acc => (ranges, remapping, acc, false)
  | fuel + 1, j, ranges, remapping, acc =>
    if j < narrays then
      if !(remapping.getD (ranges.getD j default).id default).is_valid then
        let res := merger (ranges.getD i default) (ranges.getD j default) remapping
        let ranges1 := (ranges.setD i res.1).setD j res.2.1
        let remapping1 := res.2.2.1
        let n := res.2.2.2
        if always_restart ∧ n ≠ 0 then (ranges1, remapping1, n, true)
        else array_merge_run_inner merger always_restart narrays i fuel (j + 1)
          ranges1 remapping1 (acc + n)
      else array_merge_run_inner merger always_restart narrays i fuel (j + 1)
        ranges remapping acc
    else (ranges, remapping, acc, false)

/-- Outer `i` loop of `array_merge_evaluator::run`, again with a structural
iteration counter called with `fuel = narrays`. -/
def array_merge_run_outer (merger : array_merger) (always_restart : Bool)
    (narrays : Nat) :
    Nat → Nat → Array array_live_range → Array array_remapping → Nat →
      Array array_live_range × Array array_remapping × Nat
  | 0, _, ranges, remapping, acc => (ranges, remapping, acc)
  | fuel + 1, i, ranges, remapping, acc =>
    if i < narrays then
      if (remapping.getD (ranges.getD i default).id default).is_valid then
        array_merge_run_outer merger always_restart narrays fuel (i + 1)
          ranges remapping acc
      else
        let res := array_merge_run_inner merger always_restart narrays i
          narrays (i + 1) ranges remapping 0
        if res.2.2.2 then (res.1, res.2.1, res.2.2.1)
        else array_merge_run_outer merger always_restart narrays fuel (i + 1)
          res.1 res.2.1 (acc + res.2.2.1)
    else (ranges, remapping, acc)

/-- Method `array_merge_evaluator::run(merger, always_restart)`. -/
def array_merge_evaluator_run (merger : array_merger) (always_restart : Bool)
    (narrays : Nat) (ranges : Array array_live_range)
    (remapping : Array array_remapping) :
    Array array_live_range × Array array_remapping × Nat :=
  array_merge_run_outer merger always_restart narrays narrays 0 ranges
    remapping 0

/-- Insertion step of the sorting of `get_array_remapping` (comparator
`sort_by_begin`). -/
def insert_by_begin (r : array_live_range) :
    List array_live_range → List array_live_range
  | [] => [r]
  | x :: xs =>
    if x.first_access ≤ r.first_access then x :: insert_by_begin r xs
    else r :: x :: xs

/-- Sorting by `begin` as done by `std::sort(ranges, ranges + narrays,
sort_by_begin)`.  `std::sort` leaves the order of elements with equal
`begin` unspecified; the model fixes one admissible order with a stable
insertion sort, and no theorem below depends on the tie order. -/
def sort_ranges_by_begin : List array_live_range → List array_live_range
  | [] => []
  | x :: xs => insert_by_begin x (sort_ranges_by_begin xs)

/-- The `do { ... } while (n_remapped > 0)` loop of `get_array_remapping`:
one round of equal-swizzle merging followed by at most one interleave.
Every successful round validates at least one previously invalid table
entry, so with `fuel = narrays + 1` the fixed point is always reached on
the inputs considered below (proved in `merge_phase_stable`). -/
def merge_phase (fuel : Nat) (narrays : Nat)
    (ranges : Array array_live_range) (remapping : Array array_remapping) :
    Array array_live_range × Array array_remapping × Nat :=
  match fuel with
  | 0 => (ranges, remapping, 0)
  | fu + 1 =>
    let res1 := array_merge_evaluator_run merge_live_range_equal_swizzle false
      narrays ranges remapping
    let res2 := array_merge_evaluator_run array_interleave true
      narrays res1.1 res1.2.1
    let n := res1.2.2 + res2.2.2
    if n > 0 then
      let res3 := merge_phase fu narrays res2.1 res2.2.1
      (res3.1, res3.2.1, n + res3.2.2)
    else (res2.1, res2.2.1, 0)

/-- Final loop of `get_array_remapping`: finalize every valid entry,
`for (int i = 1; i <= narrays; ++i)`. -/
def finalize_all (narrays : Nat) (remapping : Array array_remapping) :
    Array array_remapping :=
  (List.range narrays).foldl (fun m k =>
    if (m.getD (k + 1) default).is_valid then
      finalize_mappings m.size m (k + 1)
    else m) remapping

/-- Function `get_array_remapping(narrays, ranges, remapping)`: sort the
ranges by begin, iterate equal-swizzle merging and interleaving to a fixed
point, run one final unconditional merge round, then finalize all chains.
Returns the updated (sorted) ranges, the finalized table, and whether any
merge happened. -/
def get_array_remapping (narrays : Nat) (ranges : Array array_live_range)
    (remapping : Array array_remapping) :
    Array array_live_range × Array array_remapping × Bool :=
  let sorted := (sort_ranges_by_begin ranges.toList).toArray
  let resp := merge_phase (narrays + 1) narrays sorted remapping
  let resm := array_merge_evaluator_run merge_live_range false narrays
    resp.1 resp.2.1
  let total := resp.2.2 + resm.2.2
  let final := finalize_all narrays resm.2.1
  (resm.1, final, total > 0)

/-! ### Spec-side packing description (for the refinement claim C8) -/

/-- Modelled from the spec text: the lowest component slot (< 4) that is
free in `claimed`, scanning from the low bit upward. -/
def spec_lowest_free (claimed : Nat) : Nat :=
  if claimed &&& 1 = 0 then 0
  else if claimed &&& 2 = 0 then 1
  else if claimed &&& 4 = 0 then 2
  else 3

/-- Modelled from the spec text: assign every used component of the source
mask, in ascending order, to the lowest slot still free in the claimed
mask (initially the target mask); returns the assignment list and the
final claimed mask. -/
def spec_interleave_slots (trgt src : Nat) : List (Nat × Nat) × Nat :=
  (List.range 4).foldl (fun st i =>
    if (1 <<< i) &&& src ≠ 0 then
      let slot := spec_lowest_free st.2
      (st.1 ++ [(i, slot)], st.2 ||| (1 <<< slot))
    else st) ([], trgt)

/-- Helper: the maps and masks built by the interleave constructor do not
depend on the target array id. -/
theorem interleave_maps_id_independent (a t s : Nat) :
    (array_remapping.interleave a t s).read_swizzle_map =
      (array_remapping.interleave 0 t s).read_swizzle_map ∧
    (array_remapping.interleave a t s).writemask_map =
      (array_remapping.interleave 0 t s).writemask_map ∧
    (array_remapping.interleave a t s).summary_access_mask =
      (array_remapping.interleave 0 t s).summary_access_mask :=
  ⟨rfl, rfl, rfl⟩

/-- Helper (decided over all pairs of 4-bit masks): the summary mask of an
interleave remapping contains the target mask, and the slot assignment of
the constructor agrees with the spec-side description
`spec_interleave_slots` whenever the joint component count is at most 4. -/
theorem interleave_fin_facts :
    ∀ t s : Fin 16,
      (t.val &&& (array_remapping.interleave 0 t.val s.val).summary_access_mask
        = t.val) ∧
      (util_bitcount t.val + util_bitcount s.val ≤ 4 →
        ((∀ p ∈ (spec_interleave_slots t.val s.val).1,
            (array_remapping.interleave 0 t.val s.val).read_swizzle_map.getD p.1 0
              = Int.ofNat p.2 ∧
            (array_remapping.interleave 0 t.val s.val).writemask_map.getD p.1 0
              = 1 <<< p.2) ∧
          (array_remapping.interleave 0 t.val s.val).summary_access_mask
            = (spec_interleave_slots t.val s.val).2)) := by
  decide

/-! ### Claims C5, C8, C9 -/

/-- Helper: reading back the slot just written by `Array.setD`. -/
theorem getD_setD_self (a : Array α) (i : Nat) (v d : α) (h : i < a.size) :
    (a.setD i v).getD i d = v := by
  simp [Array.setD, Array.getD, h]

/-- Helper: `array_live_range::merge_live_range` never shrinks the range
and leaves id, length and mask untouched. -/
theorem merge_live_range_method_widens (r other : array_live_range) :
    (r.merge_live_range other).first_access ≤ r.first_access ∧
    r.last_access ≤ (r.merge_live_range other).last_access ∧
    (r.merge_live_range other).component_access_mask =
      r.component_access_mask ∧
    (r.merge_live_range other).id = r.id ∧
    (r.merge_live_range other).length = r.length := by
  simp only [array_live_range.merge_live_range]
  split_ifs <;> simp_all <;> omega

/-- Surviving slot of a merge/interleave step: the source swaps the two
ranges so that the longer array is the target that survives in slot 1. -/
def longer_survivor (r1 r2 : array_live_range) : array_live_range :=
  if r1.length < r2.length then r2 else r1

/-- Monotonicity property claimed for a single merge or interleave step:
whenever the step reports success, the surviving target's begin has not
increased, its end has not decreased, and its component mask contains the
mask it had before the step. -/
def widens_surviving_target (f : array_merger) : Prop :=
  ∀ (r1 r2 : array_live_range) (remapping : Array array_remapping),
    r1.component_access_mask < 16 → r2.component_access_mask < 16 →
    r1.id < remapping.size → r2.id < remapping.size →
    (f r1 r2 remapping).2.2.2 = 1 →
    (f r1 r2 remapping).1.first_access ≤ (longer_survivor r1 r2).first_access ∧
    (longer_survivor r1 r2).last_access ≤ (f r1 r2 remapping).1.last_access ∧
    (longer_survivor r1 r2).component_access_mask &&&
        (f r1 r2 remapping).1.component_access_mask
      = (longer_survivor r1 r2).component_access_mask

/-- Helper: the plain live-range merge step widens the surviving target. -/
theorem merge_live_range_widens : widens_surviving_target merge_live_range := by
  intro r1 r2 remapping _h1 _h2 _hi1 _hi2 hn
  by_cases ho : r2.time_doesnt_overlap r1 = true
  · by_cases hl : r1.length < r2.length
    · simp only [merge_live_range, longer_survivor, ho, hl, if_true, reduceIte]
      exact ⟨(merge_live_range_method_widens r2 r1).1,
             (merge_live_range_method_widens r2 r1).2.1,
             by rw [(merge_live_range_method_widens r2 r1).2.2.1]
                exact Nat.and_self _⟩
    · simp only [merge_live_range, longer_survivor, ho, hl, if_true, if_false,
        reduceIte]
      exact ⟨(merge_live_range_method_widens r1 r2).1,
             (merge_live_range_method_widens r1 r2).2.1,
             by rw [(merge_live_range_method_widens r1 r2).2.2.1]
                exact Nat.and_self _⟩
  · exfalso
    simp only [merge_live_range, ho, Bool.false_eq_true, if_false, reduceIte] at hn
    exact absurd hn (by simp)

/-- Helper: the equal-swizzle merge step widens the surviving target. -/
theorem merge_live_range_equal_swizzle_widens :
    widens_surviving_target merge_live_range_equal_swizzle := by
  intro r1 r2 remapping h1 h2 hi1 hi2 hn
  unfold merge_live_range_equal_swizzle at hn ⊢
  by_cases hm : r1.component_access_mask = r2.component_access_mask
  · rw [if_pos hm] at hn ⊢
    exact merge_live_range_widens r1 r2 remapping h1 h2 hi1 hi2 hn
  · rw [if_neg hm] at hn
    exact absurd hn (by simp)

/-- Helper: the interleave step widens the surviving target. -/
theorem array_interleave_widens : widens_surviving_target array_interleave := by
  intro r1 r2 remapping h1 h2 hi1 hi2 hn
  have hsum : ∀ (pid : Nat) (t s : Nat), t < 16 → s < 16 →
      t &&& (array_remapping.interleave pid t s).summary_access_mask = t := by
    intro pid t s ht hs
    have hid := (interleave_maps_id_independent pid t s).2.2
    rw [hid]
    exact (interleave_fin_facts ⟨t, ht⟩ ⟨s, hs⟩).1
  by_cases ho : (r2.used_component_count + r1.used_component_count > 4 ||
      r1.time_doesnt_overlap r2) = true
  · exfalso
    simp only [array_interleave, ho, if_true, reduceIte] at hn
    exact absurd hn (by simp)
  · by_cases hl : r1.length < r2.length
    · simp only [array_interleave, longer_survivor, ho, hl, if_true, if_false,
        Bool.false_eq_true, reduceIte, array_live_range.set_access_mask,
        array_remapping.combined_access_mask]
      refine ⟨(merge_live_range_method_widens r2 r1).1,
              (merge_live_range_method_widens r2 r1).2.1, ?_⟩
      rw [getD_setD_self _ _ _ _ hi1]
      exact hsum _ _ _ h2 h1
    · simp only [array_interleave, longer_survivor, ho, hl, if_true, if_false,
        Bool.false_eq_true, reduceIte, array_live_range.set_access_mask,
        array_remapping.combined_access_mask]
      refine ⟨(merge_live_range_method_widens r1 r2).1,
              (merge_live_range_method_widens r1 r2).2.1, ?_⟩
      rw [getD_setD_self _ _ _ _ hi2]
      exact hsum _ _ _ h1 h2

/-- C5: for every pair of array live ranges, any single merge or
interleave step performed by the engine only widens the surviving target:
its begin never increases, its end never decreases, and its component
access mask after the step is a bit superset of its mask before the
step.  This holds for all three strategies: `merge_live_range`,
`merge_live_range_equal_swizzle` and `array_interleave`. -/
theorem merge_and_interleave_widen_target :
    widens_surviving_target merge_live_range ∧
    widens_surviving_target merge_live_range_equal_swizzle ∧
    widens_surviving_target array_interleave :=
  ⟨merge_live_range_widens, merge_live_range_equal_swizzle_widens,
   array_interleave_widens⟩

/-- Witness for C5: a concrete successful interleave step (two overlapping
one-component arrays) on which the hypotheses hold and the target widens. -/
theorem merge_and_interleave_widen_target_witness :
    ((array_live_range.make 1 5 1 5 1).component_access_mask < 16 ∧
     (array_live_range.make 2 4 3 7 1).component_access_mask < 16 ∧
     (array_live_range.make 1 5 1 5 1).id < 3 ∧
     (array_live_range.make 2 4 3 7 1).id < 3 ∧
     (array_interleave (array_live_range.make 1 5 1 5 1)
       (array_live_range.make 2 4 3 7 1)
       (Array.mkArray 3 array_remapping.invalid)).2.2.2 = 1) ∧
    ((array_interleave (array_live_range.make 1 5 1 5 1)
        (array_live_range.make 2 4 3 7 1)
        (Array.mkArray 3 array_remapping.invalid)).1.first_access ≤
      (longer_survivor (array_live_range.make 1 5 1 5 1)
        (array_live_range.make 2 4 3 7 1)).first_access ∧
     (longer_survivor (array_live_range.make 1 5 1 5 1)
        (array_live_range.make 2 4 3 7 1)).last_access ≤
      (array_interleave (array_live_range.make 1 5 1 5 1)
        (array_live_range.make 2 4 3 7 1)
        (Array.mkArray 3 array_remapping.invalid)).1.last_access ∧
     (longer_survivor (array_live_range.make 1 5 1 5 1)
        (array_live_range.make 2 4 3 7 1)).component_access_mask &&&
       (array_interleave (array_live_range.make 1 5 1 5 1)
         (array_live_range.make 2 4 3 7 1)
         (Array.mkArray 3 array_remapping.invalid)).1.component_access_mask
       = (longer_survivor (array_live_range.make 1 5 1 5 1)
           (array_live_range.make 2 4 3 7 1)).component_access_mask) :=
  ⟨⟨by decide, by decide, by decide, by decide, by decide⟩,
   merge_and_interleave_widen_target.2.2 _ _ _ (by decide) (by decide)
     (by decide) (by decide) (by decide)⟩

/-- C8: when two arrays are interleaved, each used component of the
absorbed array is assigned to the lowest component slot of the target that
is still free (scanning the target's mask from the low bit upward, in
ascending order of source components, as described by
`spec_interleave_slots`), the constructor records that assignment in the
read-swizzle and write-mask maps, and the combined access mask is exactly
the target's mask extended by the newly claimed bits. -/
theorem interleave_packs_lowest_free_slots (a t s : Nat)
    (ht : t < 16) (hs : s < 16)
    (hc : util_bitcount t + util_bitcount s ≤ 4) :
    (∀ p ∈ (spec_interleave_slots t s).1,
        (array_remapping.interleave a t s).read_swizzle_map.getD p.1 0
          = Int.ofNat p.2 ∧
        (array_remapping.interleave a t s).writemask_map.getD p.1 0
          = 1 <<< p.2) ∧
    (array_remapping.interleave a t s).summary_access_mask
      = (spec_interleave_slots t s).2 := by
  obtain ⟨hr, hw, hsum⟩ := interleave_maps_id_independent a t s
  rw [hr, hw, hsum]
  exact (interleave_fin_facts ⟨t, ht⟩ ⟨s, hs⟩).2 hc

/-- Witness for C8: the interleave of a `.x` target with a `.x` source
packs the source component into slot `y` and the combined mask is `.xy`. -/
theorem interleave_packs_lowest_free_slots_witness :
    ((1 : Nat) < 16 ∧ (1 : Nat) < 16 ∧
      util_bitcount 1 + util_bitcount 1 ≤ 4) ∧
    ((∀ p ∈ (spec_interleave_slots 1 1).1,
        (array_remapping.interleave 7 1 1).read_swizzle_map.getD p.1 0
          = Int.ofNat p.2 ∧
        (array_remapping.interleave 7 1 1).writemask_map.getD p.1 0
          = 1 <<< p.2) ∧
     (array_remapping.interleave 7 1 1).summary_access_mask
       = (spec_interleave_slots 1 1).2) :=
  ⟨⟨by decide, by decide, by decide⟩,
   interleave_packs_lowest_free_slots 7 1 1 (by decide) (by decide) (by decide)⟩

/-- C9 (counterexample): on arrays A (mask .x, length 5, range [1,5]) and
B (mask .x, length 4, range [6,7]) the engine does NOT interleave B onto
A's .y slot: the ranges are disjoint and the masks equal, so the
equal-mask merge fires first; B's entry carries no reswizzle map and A's
combined mask stays .x (1), not .xy (3). -/
theorem get_array_remapping_disjoint_scenario_no_interleave :
    (((get_array_remapping 2
        #[array_live_range.make 1 5 1 5 1, array_live_range.make 2 4 6 7 1]
        (Array.mkArray 3 array_remapping.invalid)).2.1.getD 2 default).target_id
        = 1 ∧
     ((get_array_remapping 2
        #[array_live_range.make 1 5 1 5 1, array_live_range.make 2 4 6 7 1]
        (Array.mkArray 3 array_remapping.invalid)).2.1.getD 2 default).reswizzle
        = false) ∧
    ((get_array_remapping 2
        #[array_live_range.make 1 5 1 5 1, array_live_range.make 2 4 6 7 1]
        (Array.mkArray 3 array_remapping.invalid)).1.getD 0
          default).component_access_mask = 1 := by
  decide

/-- C9 (amended): with overlapping ranges — A (.x, length 5, [1,5]) and
B (.x, length 4, [3,7]) — the engine interleaves: B's .x component is
remapped onto A's free .y slot (read swizzle 0 ↦ 1, write mask 1 ↦ 2) and
A's combined access mask becomes .xy (3). -/
theorem get_array_remapping_overlap_interleaves_to_y :
    (((get_array_remapping 2
        #[array_live_range.make 1 5 1 5 1, array_live_range.make 2 4 3 7 1]
        (Array.mkArray 3 array_remapping.invalid)).2.1.getD 2 default).target_id
        = 1 ∧
     ((get_array_remapping 2
        #[array_live_range.make 1 5 1 5 1, array_live_range.make 2 4 3 7 1]
        (Array.mkArray 3 array_remapping.invalid)).2.1.getD 2 default).reswizzle
        = true ∧
     ((get_array_remapping 2
        #[array_live_range.make 1 5 1 5 1, array_live_range.make 2 4 3 7 1]
        (Array.mkArray 3 array_remapping.invalid)).2.1.getD 2
          default).read_swizzle_map.getD 0 0 = 1 ∧
     ((get_array_remapping 2
        #[array_live_range.make 1 5 1 5 1, array_live_range.make 2 4 3 7 1]
        (Array.mkArray 3 array_remapping.invalid)).2.1.getD 2
          default).writemask_map.getD 0 0 = 2) ∧
    ((get_array_remapping 2
        #[array_live_range.make 1 5 1 5 1, array_live_range.make 2 4 3 7 1]
        (Array.mkArray 3 array_remapping.invalid)).1.getD 0
          default).component_access_mask = 3 := by
  decide

/-! ### Claim C4: machinery — table validity, chains, counting -/

/-- Validity of the table entry at index `i`; out-of-bounds reads see the
default (invalid) entry. -/
def mvalid (map : Array array_remapping) (i : Nat) : Bool :=
  (map.getD i default).is_valid

/-- Target id of the table entry at index `i`. -/
def mtarget (map : Array array_remapping) (i : Nat) : Nat :=
  (map.getD i default).target_id

/-- Helper: reading any slot other than the one just written. -/
theorem getD_setD_ne (a : Array α) (i j : Nat) (v d : α) (h : j ≠ i) :
    (a.setD i v).getD j d = a.getD j d := by
  simp only [Array.getD_eq_get?]
  congr 1
  simp only [Array.setD]
  split
  · exact Array.getElem?_set_ne _ _ _ (fun hh => h hh.symm)
  · rfl

/-- Helper: out-of-bounds `getD` returns the default. -/
theorem getD_oob (a : Array α) (i : Nat) (d : α) (h : a.size ≤ i) :
    a.getD i d = d := by
  simp [Array.getD, Nat.not_lt.mpr h]

/-- Helper: out-of-bounds `setD` is the identity. -/
theorem setD_oob (a : Array α) (i : Nat) (v : α) (h : a.size ≤ i) :
    a.setD i v = a := by
  simp [Array.setD, Nat.not_lt.mpr h]

/-- Helper: a valid entry lies inside the table. -/
theorem mvalid_lt_size (map : Array array_remapping) (i : Nat)
    (h : mvalid map i = true) : i < map.size := by
  by_contra hc
  rw [mvalid, getD_oob _ _ _ (Nat.not_lt.mp hc)] at h
  exact absurd h (by decide)

/-- Number of valid entries of the table. -/
def countValid (map : Array array_remapping) : Nat :=
  map.toList.countP (fun m => m.is_valid)

/-- Helper: `setD` in bounds acts as `List.set` on `toList`. -/
theorem toList_setD (a : Array α) (i : Nat) (v : α) (h : i < a.size) :
    (a.setD i v).toList = a.toList.set i v := by
  simp [Array.setD, h]

/-- Helper: setting a slot that fails `p` to an element satisfying `p`
increases the `countP` by one. -/
theorem countP_set_succ (p : α → Bool) (d : α) :
    ∀ (l : List α) (n : Nat) (e : α),
      n < l.length → p (l.getD n d) = false → p e = true →
      (l.set n e).countP p = l.countP p + 1
  | [], n, e, h, _, _ => absurd h (by simp)
  | x :: t, 0, e, _, hx, he => by
    simp only [List.getD_cons_zero] at hx
    simp [List.countP_cons, hx, he]
  | x :: t, n + 1, e, h, hx, he => by
    simp only [List.getD_cons_succ] at hx
    have ih := countP_set_succ p d t n e (by simpa using h) hx he
    simp [List.countP_cons, ih]
    omega

/-- Helper: the relation between array `getD` and list `getD`. -/
theorem getD_eq_toList_getD (a : Array α) (i : Nat) (d : α) :
    a.getD i d = a.toList.getD i d := by
  by_cases h : i < a.size
  · have : a.getD i d = a[i] := by simp [Array.getD, h]
    rw [this, List.getD_eq_getElem?_getD]
    rw [← Array.getElem?_eq_getElem?_toList]
    simp [Array.getElem?_eq_getElem h]
  · rw [getD_oob _ _ _ (Nat.not_lt.mp h)]
    rw [List.getD_eq_getElem?_getD, List.getElem?_eq_none]
    · rfl
    · rw [Array.length_toList]; omega

/-- Helper: writing a fresh valid entry over an invalid slot bumps the
valid-entry count by exactly one. -/
theorem countValid_setD (map : Array array_remapping) (b : Nat)
    (e : array_remapping) (hb : b < map.size) (hinv : mvalid map b = false)
    (he : e.is_valid = true) :
    countValid (map.setD b e) = countValid map + 1 := by
  rw [countValid, countValid, toList_setD _ _ _ hb]
  refine countP_set_succ _ default _ _ _ ?_ ?_ he
  · rw [Array.length_toList]; exact hb
  · rw [← getD_eq_toList_getD]; exact hinv

/-- Helper: the valid-entry count never exceeds the table size. -/
theorem countValid_le_size (map : Array array_remapping) :
    countValid map ≤ map.size := by
  rw [countValid, ← Array.length_toList]
  exact List.countP_le_length _

/-- Chain check: starting from index `i` and following target ids, an
invalid (terminal) entry is reached within `n` valid steps. -/
def chain_okb : Nat → Array array_remapping → Nat → Bool
  | 0, map, i => !(mvalid map i)
  | n + 1, map, i => !(mvalid map i) || chain_okb n map (mtarget map i)

/-- Helper: chains at an invalid entry are fine at any depth. -/
theorem chain_okb_of_invalid (n : Nat) (map : Array array_remapping) (i : Nat)
    (h : mvalid map i = false) : chain_okb n map i = true := by
  cases n <;> simp [chain_okb, h]

/-- Helper: the chain check is monotone in the allowed depth. -/
theorem chain_okb_succ_of (n : Nat) (map : Array array_remapping) :
    ∀ i, chain_okb n map i = true → chain_okb (n + 1) map i = true := by
  induction n with
  | zero =>
    intro i h
    simp only [chain_okb] at h ⊢
    rw [h]
    simp
  | succ n ih =>
    intro i h
    have h' : (!(mvalid map i) || chain_okb n map (mtarget map i)) = true := h
    show (!(mvalid map i) || chain_okb (n + 1) map (mtarget map i)) = true
    rcases Bool.or_eq_true_iff.mp h' with h1 | h2
    · exact Bool.or_eq_true_iff.mpr (Or.inl h1)
    · exact Bool.or_eq_true_iff.mpr (Or.inr (ih _ h2))

/-- Helper: chain check monotone for any larger depth. -/
theorem chain_okb_le (n m : Nat) (map : Array array_remapping) (i : Nat)
    (hnm : n ≤ m) (h : chain_okb n map i = true) : chain_okb m map i = true := by
  induction m with
  | zero => cases Nat.le_zero.mp hnm; exact h
  | succ m ih =>
    rcases Nat.lt_or_ge n (m + 1) with hlt | hge
    · exact chain_okb_succ_of m map i (ih (by omega))
    · have : n = m + 1 := by omega
      subst this; exact h

/-- Helper: writing a fresh entry (over an invalid slot) whose target is a
currently invalid, different slot extends every chain by at most one
step. -/
theorem chain_okb_setD_fresh (map : Array array_remapping) (b : Nat)
    (e : array_remapping) (hb : mvalid map b = false)
    (ha : mvalid map e.target_id = false) (hab : e.target_id ≠ b) :
    ∀ n i, chain_okb n map i = true →
      chain_okb (n + 1) (map.setD b e) i = true := by
  by_cases hbs : b < map.size
  case neg =>
    rw [setD_oob _ _ _ (Nat.not_lt.mp hbs)]
    intro n i h
    exact chain_okb_succ_of n map i h
  case pos =>
    have hvb : mvalid (map.setD b e) b = e.is_valid := by
      rw [mvalid, getD_setD_self _ _ _ _ hbs]
    have htb : mtarget (map.setD b e) b = e.target_id := by
      rw [mtarget, getD_setD_self _ _ _ _ hbs]
    have hvne : ∀ j, j ≠ b → mvalid (map.setD b e) j = mvalid map j := by
      intro j hj; rw [mvalid, mvalid, getD_setD_ne _ _ _ _ _ hj]
    have htne : ∀ j, j ≠ b → mtarget (map.setD b e) j = mtarget map j := by
      intro j hj; rw [mtarget, mtarget, getD_setD_ne _ _ _ _ _ hj]
    have hchainb : ∀ m, chain_okb (m + 1) (map.setD b e) b = true := by
      intro m
      simp only [chain_okb, Bool.or_eq_true]
      right
      rw [htb]
      exact chain_okb_of_invalid m _ _ ((hvne _ hab).trans ha)
    intro n
    induction n with
    | zero =>
      intro i h
      simp only [chain_okb, Bool.not_eq_eq_eq_not, Bool.not_true] at h
      by_cases hib : i = b
      · subst hib; exact hchainb 0
      · exact chain_okb_of_invalid 1 _ _ ((hvne _ hib).trans h)
    | succ n ih =>
      intro i h
      by_cases hvi : mvalid map i = true
      · have hib : i ≠ b := by
          intro hh; subst hh; rw [hb] at hvi; exact absurd hvi (by decide)
        have h' : (!(mvalid map i) || chain_okb n map (mtarget map i)) = true := h
        rcases Bool.or_eq_true_iff.mp h' with h1 | h2
        · rw [hvi] at h1; exact absurd h1 (by decide)
        · have hrec := ih _ h2
          show (!(mvalid (map.setD b e) i) ||
            chain_okb (n + 1) (map.setD b e) (mtarget (map.setD b e) i)) = true
          rw [htne _ hib]
          exact Bool.or_eq_true_iff.mpr (Or.inr hrec)
      · have hvi' : mvalid map i = false := by
          cases hq : mvalid map i
          · rfl
          · exact absurd hq hvi
        by_cases hib : i = b
        · subst hib; exact hchainb (n + 1)
        · exact chain_okb_of_invalid _ _ _ ((hvne _ hib).trans hvi')

/-- Helper: overwriting a valid slot with an entry whose target is a
currently invalid, different slot preserves every chain bound. -/
theorem chain_okb_setD_keep (map : Array array_remapping) (b : Nat)
    (e : array_remapping) (hb : mvalid map b = true)
    (ha : mvalid map e.target_id = false) (hab : e.target_id ≠ b) :
    ∀ n i, chain_okb n map i = true → chain_okb n (map.setD b e) i = true := by
  have hbs : b < map.size := mvalid_lt_size map b hb
  have hvb : mvalid (map.setD b e) b = e.is_valid := by
    rw [mvalid, getD_setD_self _ _ _ _ hbs]
  have htb : mtarget (map.setD b e) b = e.target_id := by
    rw [mtarget, getD_setD_self _ _ _ _ hbs]
  have hvne : ∀ j, j ≠ b → mvalid (map.setD b e) j = mvalid map j := by
    intro j hj; rw [mvalid, mvalid, getD_setD_ne _ _ _ _ _ hj]
  have htne : ∀ j, j ≠ b → mtarget (map.setD b e) j = mtarget map j := by
    intro j hj; rw [mtarget, mtarget, getD_setD_ne _ _ _ _ _ hj]
  have hchainb : ∀ m, chain_okb (m + 1) (map.setD b e) b = true := by
    intro m
    simp only [chain_okb, Bool.or_eq_true]
    right
    rw [htb]
    exact chain_okb_of_invalid m _ _ ((hvne _ hab).trans ha)
  intro n
  induction n with
  | zero =>
    intro i h
    simp only [chain_okb, Bool.not_eq_eq_eq_not, Bool.not_true] at h
    have hib : i ≠ b := by
      intro hh; subst hh; rw [h] at hb; exact absurd hb (by decide)
    simp only [chain_okb, Bool.not_eq_eq_eq_not, Bool.not_true]
    rw [hvne _ hib]
    exact h
  | succ n ih =>
    intro i h
    by_cases hib : i = b
    · subst hib; exact hchainb n
    · simp only [chain_okb, Bool.or_eq_true] at h ⊢
      rcases h with h | h
      · left; rw [hvne _ hib]; exact h
      · right; rw [htne _ hib]; exact ih _ h

/-! ### Claim C4: shape of a single merge step -/

/-- Helper: result of a successful plain merge when the swap fires. -/
theorem merge_live_range_eq_swap (r1 r2 : array_live_range)
    (map : Array array_remapping) (ho : r2.time_doesnt_overlap r1 = true)
    (hl : r1.length < r2.length) :
    merge_live_range r1 r2 map =
      (r2.merge_live_range r1, r1,
       map.setD r1.id (array_remapping.simple r2.id r2.component_access_mask),
       1) := by
  simp only [merge_live_range, ho, hl, if_true, reduceIte]

/-- Helper: result of a successful plain merge without swap. -/
theorem merge_live_range_eq_noswap (r1 r2 : array_live_range)
    (map : Array array_remapping) (ho : r2.time_doesnt_overlap r1 = true)
    (hl : ¬ r1.length < r2.length) :
    merge_live_range r1 r2 map =
      (r1.merge_live_range r2, r2,
       map.setD r2.id (array_remapping.simple r1.id r1.component_access_mask),
       1) := by
  simp only [merge_live_range, ho, hl, if_true, if_false, reduceIte]

/-- Helper: result of a failing plain merge. -/
theorem merge_live_range_eq_fail (r1 r2 : array_live_range)
    (map : Array array_remapping) (ho : ¬ r2.time_doesnt_overlap r1 = true) :
    merge_live_range r1 r2 map = (r1, r2, map, 0) := by
  simp only [merge_live_range, ho, Bool.false_eq_true, if_false, reduceIte]

/-- Helper: result of a successful interleave when the swap fires. -/
theorem array_interleave_eq_swap (r1 r2 : array_live_range)
    (map : Array array_remapping)
    (ho : ¬ (r2.used_component_count + r1.used_component_count > 4 ||
      r1.time_doesnt_overlap r2) = true)
    (hl : r1.length < r2.length) :
    array_interleave r1 r2 map =
      ((r2.merge_live_range r1).set_access_mask
         ((map.setD r1.id (array_remapping.interleave r2.id
             r2.component_access_mask r1.component_access_mask)).getD r1.id
           default).combined_access_mask,
       r1,
       map.setD r1.id (array_remapping.interleave r2.id
         r2.component_access_mask r1.component_access_mask),
       1) := by
  simp only [array_interleave, ho, hl, if_true, if_false, Bool.false_eq_true,
    reduceIte]

/-- Helper: result of a successful interleave without swap. -/
theorem array_interleave_eq_noswap (r1 r2 : array_live_range)
    (map : Array array_remapping)
    (ho : ¬ (r2.used_component_count + r1.used_component_count > 4 ||
      r1.time_doesnt_overlap r2) = true)
    (hl : ¬ r1.length < r2.length) :
    array_interleave r1 r2 map =
      ((r1.merge_live_range r2).set_access_mask
         ((map.setD r2.id (array_remapping.interleave r1.id
             r1.component_access_mask r2.component_access_mask)).getD r2.id
           default).combined_access_mask,
       r2,
       map.setD r2.id (array_remapping.interleave r1.id
         r1.component_access_mask r2.component_access_mask),
       1) := by
  simp only [array_interleave, ho, hl, if_true, if_false, Bool.false_eq_true,
    reduceIte]

/-- Helper: result of a failing interleave. -/
theorem array_interleave_eq_fail (r1 r2 : array_live_range)
    (map : Array array_remapping)
    (ho : (r2.used_component_count + r1.used_component_count > 4 ||
      r1.time_doesnt_overlap r2) = true) :
    array_interleave r1 r2 map = (r1, r2, map, 0) := by
  simp only [array_interleave, ho, if_true, reduceIte]

/-- Common shape of a merge-step result, shared by the three strategies:
on failure (count 0) nothing changes; on success (count 1) the two range
slots keep the same pair of array ids (possibly swapped by the
`std::swap`) and exactly one fresh, unfinalized entry is written at the
absorbed array id, targeting the surviving array id. -/
def merger_spec (f : array_merger) : Prop :=
  ∀ (r1 r2 : array_live_range) (map : Array array_remapping),
    ((f r1 r2 map).1.id = r1.id ∧ (f r1 r2 map).2.1.id = r2.id ∨
     (f r1 r2 map).1.id = r2.id ∧ (f r1 r2 map).2.1.id = r1.id) ∧
    ((f r1 r2 map).2.2.2 = 0 ∧ (f r1 r2 map).2.2.1 = map ∧
       (f r1 r2 map).1 = r1 ∧ (f r1 r2 map).2.1 = r2 ∨
     (f r1 r2 map).2.2.2 = 1 ∧ ∃ e : array_remapping,
       (f r1 r2 map).2.2.1 = map.setD (f r1 r2 map).2.1.id e ∧
       e.target_id = (f r1 r2 map).1.id ∧ e.finalized = false)

/-- Helper: the plain merge step has the common shape. -/
theorem merge_live_range_spec : merger_spec merge_live_range := by
  intro r1 r2 map
  by_cases ho : r2.time_doesnt_overlap r1 = true
  · by_cases hl : r1.length < r2.length
    · rw [merge_live_range_eq_swap r1 r2 map ho hl]
      refine ⟨Or.inr ⟨(merge_live_range_method_widens r2 r1).2.2.2.1, rfl⟩,
              Or.inr ⟨rfl, array_remapping.simple r2.id r2.component_access_mask,
                rfl, ?_, rfl⟩⟩
      exact (merge_live_range_method_widens r2 r1).2.2.2.1.symm
    · rw [merge_live_range_eq_noswap r1 r2 map ho hl]
      refine ⟨Or.inl ⟨(merge_live_range_method_widens r1 r2).2.2.2.1, rfl⟩,
              Or.inr ⟨rfl, array_remapping.simple r1.id r1.component_access_mask,
                rfl, ?_, rfl⟩⟩
      exact (merge_live_range_method_widens r1 r2).2.2.2.1.symm
  · rw [merge_live_range_eq_fail r1 r2 map ho]
    exact ⟨Or.inl ⟨rfl, rfl⟩, Or.inl ⟨rfl, rfl, rfl, rfl⟩⟩

/-- Helper: the equal-swizzle merge step has the common shape. -/
theorem merge_live_range_equal_swizzle_spec :
    merger_spec merge_live_range_equal_swizzle := by
  intro r1 r2 map
  unfold merge_live_range_equal_swizzle
  by_cases hm : r1.component_access_mask = r2.component_access_mask
  · rw [if_pos hm]
    exact merge_live_range_spec r1 r2 map
  · rw [if_neg hm]
    exact ⟨Or.inl ⟨rfl, rfl⟩, Or.inl ⟨rfl, rfl, rfl, rfl⟩⟩

/-- Helper: `array_live_range::set_access_mask` leaves the id alone. -/
theorem set_access_mask_id (r : array_live_range) (m : Nat) :
    (r.set_access_mask m).id = r.id := rfl

/-- Helper: the interleave step has the common shape. -/
theorem array_interleave_spec : merger_spec array_interleave := by
  intro r1 r2 map
  by_cases ho : (r2.used_component_count + r1.used_component_count > 4 ||
      r1.time_doesnt_overlap r2) = true
  · rw [array_interleave_eq_fail r1 r2 map ho]
    exact ⟨Or.inl ⟨rfl, rfl⟩, Or.inl ⟨rfl, rfl, rfl, rfl⟩⟩
  · by_cases hl : r1.length < r2.length
    · rw [array_interleave_eq_swap r1 r2 map ho hl]
      refine ⟨Or.inr ⟨?_, rfl⟩, Or.inr ⟨rfl, _, rfl, ?_, rfl⟩⟩
      · rw [set_access_mask_id]
        exact (merge_live_range_method_widens r2 r1).2.2.2.1
      · rw [set_access_mask_id, (merge_live_range_method_widens r2 r1).2.2.2.1]
        rfl
    · rw [array_interleave_eq_noswap r1 r2 map ho hl]
      refine ⟨Or.inl ⟨?_, rfl⟩, Or.inr ⟨rfl, _, rfl, ?_, rfl⟩⟩
      · rw [set_access_mask_id]
        exact (merge_live_range_method_widens r1 r2).2.2.2.1
      · rw [set_access_mask_id, (merge_live_range_method_widens r1 r2).2.2.2.1]
        rfl

/-! ### Claim C4: permutation of the id list under a swapped double set -/

/-- Helper: setting a slot to its current value changes nothing. -/
theorem list_set_getD_self (d : α) :
    ∀ (l : List α) (i : Nat), i < l.length → l.set i (l.getD i d) = l
  | [], i, h => absurd h (by simp)
  | x :: t, 0, _ => by simp
  | x :: t, i + 1, h => by
    simp only [List.getD_cons_succ, List.set_cons_succ, List.cons.injEq, true_and]
    exact list_set_getD_self d t i (by simpa using h)

/-- Helper: `getD` after `set` at a different index. -/
theorem list_getD_set_ne (l : List α) (i j : Nat) (v d : α) (h : i ≠ j) :
    (l.set i v).getD j d = l.getD j d := by
  rw [List.getD_eq_getElem?_getD, List.getD_eq_getElem?_getD,
    List.getElem?_set_ne h]

/-- Helper: moving the element at slot `k` to the head while writing `x`
into its place is a permutation of putting `x` at the head. -/
theorem list_getD_cons_set_perm (d : α) :
    ∀ (t : List α) (k : Nat) (x : α), k < t.length →
      List.Perm (t.getD k d :: t.set k x) (x :: t)
  | [], k, x, h => absurd h (by simp)
  | y :: t2, 0, x, _ => by
    simp only [List.getD_cons_zero, List.set_cons_zero]
    exact List.Perm.swap x y t2
  | y :: t2, k + 1, x, h => by
    simp only [List.getD_cons_succ, List.set_cons_succ]
    exact (List.Perm.swap _ _ _).trans
      (((list_getD_cons_set_perm d t2 k x (by simpa using h)).cons y).trans
        (List.Perm.swap _ _ _))

/-- Helper: swapping the values at slots `i < j` is a permutation. -/
theorem list_set_swap_perm_lt (d : α) :
    ∀ (l : List α) (i j : Nat), i < j → j < l.length →
      List.Perm ((l.set i (l.getD j d)).set j (l.getD i d)) l
  | [], i, j, _, h => absurd h (by simp)
  | x :: t, 0, j + 1, _, h => by
    simp only [List.getD_cons_zero, List.getD_cons_succ, List.set_cons_zero,
      List.set_cons_succ]
    exact list_getD_cons_set_perm d t j x (by simpa using h)
  | x :: t, i + 1, j + 1, hij, h => by
    simp only [List.getD_cons_succ, List.set_cons_succ]
    exact (list_set_swap_perm_lt d t i j (by omega) (by simpa using h)).cons x

/-- Helper: swapping the values at two distinct slots is a permutation. -/
theorem list_set_swap_perm (d : α) (l : List α) (i j : Nat)
    (hi : i < l.length) (hj : j < l.length) (hij : i ≠ j) :
    List.Perm ((l.set i (l.getD j d)).set j (l.getD i d)) l := by
  rcases Nat.lt_or_ge i j with hlt | hge
  · exact list_set_swap_perm_lt d l i j hlt hj
  · have hgt : j < i := by omega
    rw [List.set_comm _ _ _ hij]
    exact list_set_swap_perm_lt d l j i hgt hi

/-- Helper: rewriting two distinct slots with the same pair of values (in
either order) permutes the list. -/
theorem list_set_pair_perm (d : α) (l : List α) (i j : Nat)
    (x y : α) (hi : i < l.length) (hj : j < l.length) (hij : i ≠ j)
    (hp : x = l.getD i d ∧ y = l.getD j d ∨ x = l.getD j d ∧ y = l.getD i d) :
    List.Perm ((l.set i x).set j y) l := by
  rcases hp with ⟨hx, hy⟩ | ⟨hx, hy⟩
  · subst hx; subst hy
    rw [list_set_getD_self d l i hi]
    rw [list_set_getD_self d l j hj]
  · subst hx; subst hy
    exact list_set_swap_perm d l i j hi hj hij

/-! ### Claim C4: the merge-phase invariant -/

/-- Helper: in-bounds `getD` of an array is the list element. -/
theorem getD_eq_getElem_toList (a : Array α) (i : Nat) (d : α)
    (h : i < a.size) :
    a.getD i d = a.toList[i] := by
  have h1 : a.getD i d = a[i] := by simp [Array.getD, h]
  rw [h1]
  exact Array.getElem_eq_getElem_toList h

/-- Helper: the id of the `i`-th range in the id list. -/
theorem ids_getD (ranges : Array array_live_range) (i : Nat)
    (h : i < ranges.size) :
    (ranges.toList.map array_live_range.id).getD i 0
      = (ranges.getD i default).id := by
  have hl : i < ranges.toList.length := by rw [Array.length_toList]; exact h
  rw [List.getD_eq_getElem?_getD, List.getElem?_map,
    List.getElem?_eq_getElem hl, getD_eq_getElem_toList _ _ _ h]
  rfl

/-- Helper: the id of an in-bounds range is a member of the id list. -/
theorem ranges_id_mem (ranges : Array array_live_range) (i : Nat)
    (h : i < ranges.size) :
    (ranges.getD i default).id ∈ ranges.toList.map array_live_range.id := by
  rw [getD_eq_getElem_toList _ _ _ h]
  exact List.mem_map_of_mem _ (List.getElem_mem _)

/-- Helper: distinct slots of a table with nodup ids hold distinct ids. -/
theorem nodup_ids_ne (ranges : Array array_live_range)
    (hnd : (ranges.toList.map array_live_range.id).Nodup) (i j : Nat)
    (hi : i < ranges.size) (hj : j < ranges.size) (hij : i ≠ j) :
    (ranges.getD i default).id ≠ (ranges.getD j default).id := by
  intro heq
  have hli : i < (ranges.toList.map array_live_range.id).length := by
    rw [List.length_map, Array.length_toList]; exact hi
  have hlj : j < (ranges.toList.map array_live_range.id).length := by
    rw [List.length_map, Array.length_toList]; exact hj
  have hgi : (ranges.toList.map array_live_range.id)[i]
      = (ranges.getD i default).id := by
    rw [List.getElem_map, getD_eq_getElem_toList _ _ _ hi]
  have hgj : (ranges.toList.map array_live_range.id)[j]
      = (ranges.getD j default).id := by
    rw [List.getElem_map, getD_eq_getElem_toList _ _ _ hj]
  exact hij ((List.Nodup.getElem_inj_iff hnd).mp (by rw [hgi, hgj, heq]))

/-- Invariant carried through the merging phases of `get_array_remapping`:
the range slots hold pairwise distinct array ids between 1 and `narrays`,
the table is strictly larger than `narrays`, every chain of the table
reaches an invalid entry within `countValid` steps, no valid entry is
finalized yet, and slot 0 of the table is invalid. -/
structure MergeInv (narrays : Nat) (ranges : Array array_live_range)
    (map : Array array_remapping) : Prop where
  hsr : ranges.size = narrays
  hsm : map.size = narrays + 1
  hnd : (ranges.toList.map array_live_range.id).Nodup
  hbd : ∀ x ∈ ranges.toList.map array_live_range.id, 1 ≤ x ∧ x ≤ narrays
  hch : ∀ i, chain_okb (countValid map) map i = true
  hnf : ∀ i, mvalid map i = true → (map.getD i default).finalized = false
  h0 : mvalid map 0 = false

/-- Helper: a single call of a strategy from the evaluator loops, on two
distinct slots whose array ids are both unmapped, preserves the invariant,
and the surviving slot keeps an unmapped id. -/
theorem merger_step_inv (f : array_merger) (hf : merger_spec f)
    (narrays : Nat) (ranges : Array array_live_range)
    (map : Array array_remapping) (inv : MergeInv narrays ranges map)
    (i j : Nat) (hi : i < narrays) (hj : j < narrays) (hij : i ≠ j)
    (hvi : mvalid map (ranges.getD i default).id = false)
    (hvj : mvalid map (ranges.getD j default).id = false) :
    MergeInv narrays
      ((ranges.setD i
          (f (ranges.getD i default) (ranges.getD j default) map).1).setD j
        (f (ranges.getD i default) (ranges.getD j default) map).2.1)
      (f (ranges.getD i default) (ranges.getD j default) map).2.2.1 ∧
    mvalid (f (ranges.getD i default) (ranges.getD j default) map).2.2.1
      (((ranges.setD i
          (f (ranges.getD i default) (ranges.getD j default) map).1).setD j
        (f (ranges.getD i default) (ranges.getD j default) map).2.1).getD i
          default).id = false := by
  obtain ⟨hids, hcase⟩ :=
    hf (ranges.getD i default) (ranges.getD j default) map
  set r1 := ranges.getD i default with hr1
  set r2 := ranges.getD j default with hr2
  set res := f r1 r2 map with hresdef
  have his : i < ranges.size := by rw [inv.hsr]; exact hi
  have hjs : j < ranges.size := by rw [inv.hsr]; exact hj
  have hr12 : r1.id ≠ r2.id := nodup_ids_ne ranges inv.hnd i j his hjs hij
  have hb1 : 1 ≤ r1.id ∧ r1.id ≤ narrays :=
    inv.hbd _ (ranges_id_mem ranges i his)
  have hb2 : 1 ≤ r2.id ∧ r2.id ≤ narrays :=
    inv.hbd _ (ranges_id_mem ranges j hjs)
  -- facts about the updated range slots
  have hsr1 : ((ranges.setD i res.1).setD j res.2.1).size = narrays := by
    rw [Array.size_setD, Array.size_setD]; exact inv.hsr
  have hgi : ((ranges.setD i res.1).setD j res.2.1).getD i default = res.1 := by
    rw [getD_setD_ne _ _ _ _ _ hij, getD_setD_self _ _ _ _ his]
  have hids_list : ((ranges.setD i res.1).setD j res.2.1).toList.map
      array_live_range.id
      = ((ranges.toList.map array_live_range.id).set i res.1.id).set j
          res.2.1.id := by
    rw [toList_setD _ _ _ (by rw [Array.size_setD]; exact hjs),
      toList_setD _ _ _ his]
    simp [List.map_set]
  have hlen : (ranges.toList.map array_live_range.id).length = ranges.size := by
    rw [List.length_map, Array.length_toList]
  have hp' : res.1.id = (ranges.toList.map array_live_range.id).getD i 0 ∧
      res.2.1.id = (ranges.toList.map array_live_range.id).getD j 0 ∨
      res.1.id = (ranges.toList.map array_live_range.id).getD j 0 ∧
      res.2.1.id = (ranges.toList.map array_live_range.id).getD i 0 := by
    rw [ids_getD ranges i his, ids_getD ranges j hjs]
    exact hids
  have hperm : List.Perm
      (((ranges.toList.map array_live_range.id).set i res.1.id).set j
        res.2.1.id)
      (ranges.toList.map array_live_range.id) :=
    list_set_pair_perm 0 _ i j _ _ (by omega) (by omega) hij hp'
  have hnd1 : (((ranges.setD i res.1).setD j res.2.1).toList.map
      array_live_range.id).Nodup := by
    rw [hids_list]
    exact (List.Perm.nodup_iff hperm).mpr inv.hnd
  have hbd1 : ∀ x ∈ ((ranges.setD i res.1).setD j res.2.1).toList.map
      array_live_range.id, 1 ≤ x ∧ x ≤ narrays := by
    rw [hids_list]
    intro x hx
    exact inv.hbd x ((List.Perm.mem_iff hperm).mp hx)
  -- the surviving id was unmapped before the step
  have hav : mvalid map res.1.id = false := by
    rcases hids with ⟨h1, _⟩ | ⟨h1, _⟩
    · rw [h1]; exact hvi
    · rw [h1]; exact hvj
  rcases hcase with ⟨_, hmap, _, _⟩ | ⟨_, e, hmap, htar, hfin⟩
  · -- the step failed: the table is unchanged
    rw [hmap]
    refine ⟨⟨hsr1, inv.hsm, hnd1, hbd1, inv.hch, inv.hnf, inv.h0⟩, ?_⟩
    rw [hgi]
    exact hav
  · -- the step succeeded: one fresh entry was written
    have hba : res.1.id ≠ res.2.1.id := by
      rcases hids with ⟨h1, h2⟩ | ⟨h1, h2⟩
      · rw [h1, h2]; exact hr12
      · rw [h1, h2]; exact hr12.symm
    have hbv : mvalid map res.2.1.id = false := by
      rcases hids with ⟨_, h2⟩ | ⟨_, h2⟩
      · rw [h2]; exact hvj
      · rw [h2]; exact hvi
    have hbbd : 1 ≤ res.2.1.id ∧ res.2.1.id ≤ narrays := by
      rcases hids with ⟨_, h2⟩ | ⟨_, h2⟩
      · rw [h2]; exact hb2
      · rw [h2]; exact hb1
    have habd : 1 ≤ res.1.id ∧ res.1.id ≤ narrays := by
      rcases hids with ⟨h1, _⟩ | ⟨h1, _⟩
      · rw [h1]; exact hb1
      · rw [h1]; exact hb2
    have hbs : res.2.1.id < map.size := by
      have := inv.hsm; omega
    have hev : e.is_valid = true := by
      simp only [array_remapping.is_valid, htar]
      simp only [decide_eq_true_eq]
      omega
    have hcnt : countValid res.2.2.1 = countValid map + 1 := by
      rw [hmap]
      exact countValid_setD map res.2.1.id e hbs hbv hev
    refine ⟨⟨hsr1, ?_, hnd1, hbd1, ?_, ?_, ?_⟩, ?_⟩
    · rw [hmap, Array.size_setD]; exact inv.hsm
    · intro x
      rw [hcnt, hmap]
      exact chain_okb_setD_fresh map res.2.1.id e hbv
        (by rw [htar]; exact hav) (by rw [htar]; exact hba)
        (countValid map) x (inv.hch x)
    · intro x hx
      rw [hmap] at hx ⊢
      by_cases hxb : x = res.2.1.id
      · subst hxb
        rw [getD_setD_self _ _ _ _ hbs]
        exact hfin
      · simp only [mvalid] at hx
        rw [getD_setD_ne _ _ _ _ _ hxb] at hx
        rw [getD_setD_ne _ _ _ _ _ hxb]
        exact inv.hnf x hx
    · rw [hmap]
      simp only [mvalid]
      rw [getD_setD_ne _ _ _ _ _ (by omega : (0 : Nat) ≠ res.2.1.id)]
      exact inv.h0
    · rw [hgi, hmap]
      simp only [mvalid]
      rw [getD_setD_ne _ _ _ _ _ hba]
      exact hav

/-- Helper: the inner evaluator loop preserves the merge invariant,
provided the current outer slot is in range and its id unmapped. -/
theorem run_inner_inv (f : array_merger) (hf : merger_spec f) (ar : Bool)
    (narrays i : Nat) :
    ∀ (fuel j : Nat) (ranges : Array array_live_range)
      (map : Array array_remapping) (acc : Nat),
      MergeInv narrays ranges map → i < narrays → i < j →
      mvalid map (ranges.getD i default).id = false →
      MergeInv narrays
        (array_merge_run_inner f ar narrays i fuel j ranges map acc).1
        (array_merge_run_inner f ar narrays i fuel j ranges map acc).2.1
  | 0, j, ranges, map, acc, inv, _, _, _ => by
    simp only [array_merge_run_inner]
    exact inv
  | fuel + 1, j, ranges, map, acc, inv, hi, hij, hvi => by
    simp only [array_merge_run_inner]
    by_cases hjn : j < narrays
    · rw [if_pos hjn]
      by_cases hv : (map.getD (ranges.getD j default).id default).is_valid = true
      · simp only [hv, Bool.not_true, Bool.false_eq_true, if_false, reduceIte]
        exact run_inner_inv f hf ar narrays i fuel (j + 1) ranges map acc inv
          hi (by omega) hvi
      · simp only [Bool.not_eq_true] at hv
        simp only [hv, Bool.not_false, if_true, reduceIte]
        have hvj : mvalid map (ranges.getD j default).id = false := hv
        have hstep := merger_step_inv f hf narrays ranges map inv i j hi hjn
          (by omega) hvi hvj
        by_cases hearly : ar = true ∧
            (f (ranges.getD i default) (ranges.getD j default) map).2.2.2 ≠ 0
        · rw [if_pos hearly]
          exact hstep.1
        · rw [if_neg hearly]
          exact run_inner_inv f hf ar narrays i fuel (j + 1) _ _ _ hstep.1 hi
            (by omega) hstep.2
    · rw [if_neg hjn]
      exact inv

/-- Helper: the outer evaluator loop preserves the merge invariant. -/
theorem run_outer_inv (f : array_merger) (hf : merger_spec f) (ar : Bool)
    (narrays : Nat) :
    ∀ (fuel i : Nat) (ranges : Array array_live_range)
      (map : Array array_remapping) (acc : Nat),
      MergeInv narrays ranges map →
      MergeInv narrays
        (array_merge_run_outer f ar narrays fuel i ranges map acc).1
        (array_merge_run_outer f ar narrays fuel i ranges map acc).2.1
  | 0, i, ranges, map, acc, inv => by
    simp only [array_merge_run_outer]
    exact inv
  | fuel + 1, i, ranges, map, acc, inv => by
    simp only [array_merge_run_outer]
    by_cases hin : i < narrays
    · rw [if_pos hin]
      by_cases hv : (map.getD (ranges.getD i default).id default).is_valid = true
      · simp only [hv, if_true, reduceIte]
        exact run_outer_inv f hf ar narrays fuel (i + 1) ranges map acc inv
      · simp only [Bool.not_eq_true] at hv
        simp only [hv, Bool.false_eq_true, if_false, reduceIte]
        have hinner := run_inner_inv f hf ar narrays i narrays (i + 1) ranges
          map 0 inv hin (by omega) hv
        by_cases hearly :
            (array_merge_run_inner f ar narrays i narrays (i + 1) ranges map
              0).2.2.2 = true
        · rw [if_pos hearly]
          exact hinner
        · rw [if_neg hearly]
          exact run_outer_inv f hf ar narrays fuel (i + 1) _ _ _ hinner
    · rw [if_neg hin]
      exact inv

/-- Helper: one whole evaluator run preserves the merge invariant. -/
theorem evaluator_run_inv (f : array_merger) (hf : merger_spec f) (ar : Bool)
    (narrays : Nat) (ranges : Array array_live_range)
    (map : Array array_remapping) (inv : MergeInv narrays ranges map) :
    MergeInv narrays (array_merge_evaluator_run f ar narrays ranges map).1
      (array_merge_evaluator_run f ar narrays ranges map).2.1 := by
  simp only [array_merge_evaluator_run]
  exact run_outer_inv f hf ar narrays narrays 0 ranges map 0 inv

/-- Helper: the iterated merge phase preserves the merge invariant. -/
theorem merge_phase_inv (narrays : Nat) :
    ∀ (fuel : Nat) (ranges : Array array_live_range)
      (map : Array array_remapping), MergeInv narrays ranges map →
      MergeInv narrays (merge_phase fuel narrays ranges map).1
        (merge_phase fuel narrays ranges map).2.1
  | 0, ranges, map, inv => by
    simp only [merge_phase]
    exact inv
  | fuel + 1, ranges, map, inv => by
    simp only [merge_phase]
    have h1 := evaluator_run_inv merge_live_range_equal_swizzle
      merge_live_range_equal_swizzle_spec false narrays ranges map inv
    have h2 := evaluator_run_inv array_interleave array_interleave_spec true
      narrays _ _ h1
    by_cases hn :
        (array_merge_evaluator_run merge_live_range_equal_swizzle false
          narrays ranges map).2.2 +
        (array_merge_evaluator_run array_interleave true narrays
          (array_merge_evaluator_run merge_live_range_equal_swizzle false
            narrays ranges map).1
          (array_merge_evaluator_run merge_live_range_equal_swizzle false
            narrays ranges map).2.1).2.2 > 0
    · rw [if_pos hn]
      exact merge_phase_inv narrays fuel _ _ h2
    · rw [if_neg hn]
      exact h2

/-! ### Claim C4: finalization -/

/-- Every finalized valid entry already points at an invalid (terminal)
entry. -/
def Bpro (map : Array array_remapping) : Prop :=
  ∀ j, mvalid map j = true → (map.getD j default).finalized = true →
    mvalid map (mtarget map j) = false

/-- Postcondition of finalizing entry `i`: validity pattern preserved,
entry `i` points at a terminal, `Bpro` holds, chains are preserved, every
mutated entry points at a terminal, and the size is unchanged. -/
def FinPost (map : Array array_remapping) (i : Nat)
    (mo : Array array_remapping) : Prop :=
  (∀ j, mvalid mo j = mvalid map j) ∧
  mvalid mo (mtarget mo i) = false ∧
  Bpro mo ∧
  (∀ j n, chain_okb n map j = true → chain_okb n mo j = true) ∧
  (∀ j, mo.getD j default ≠ map.getD j default →
    mvalid mo (mtarget mo j) = false) ∧
  mo.size = map.size

/-- Helper: chains survive an update of one valid slot whose new target is
terminal. -/
theorem chain_okb_update_keep (m m2 : Array array_remapping) (b : Nat)
    (hvb : mvalid m b = true)
    (hsame : ∀ j, j ≠ b → m2.getD j default = m.getD j default)
    (hterm : mvalid m2 (mtarget m2 b) = false)
    (hne : mtarget m2 b ≠ b) :
    ∀ n i, chain_okb n m i = true → chain_okb n m2 i = true := by
  have hvne : ∀ j, j ≠ b → mvalid m2 j = mvalid m j := by
    intro j hj; rw [mvalid, mvalid, hsame j hj]
  have htne : ∀ j, j ≠ b → mtarget m2 j = mtarget m j := by
    intro j hj; rw [mtarget, mtarget, hsame j hj]
  have hchainb : ∀ k, chain_okb (k + 1) m2 b = true := by
    intro k
    show (!(mvalid m2 b) || chain_okb k m2 (mtarget m2 b)) = true
    exact Bool.or_eq_true_iff.mpr (Or.inr (chain_okb_of_invalid k _ _ hterm))
  intro n
  induction n with
  | zero =>
    intro i h
    simp only [chain_okb, Bool.not_eq_eq_eq_not, Bool.not_true] at h
    have hib : i ≠ b := by
      intro hh; subst hh; rw [h] at hvb; exact absurd hvb (by decide)
    simp only [chain_okb, Bool.not_eq_eq_eq_not, Bool.not_true]
    rw [hvne _ hib]
    exact h
  | succ n ih =>
    intro i h
    by_cases hib : i = b
    · subst hib; exact hchainb n
    · have h' : (!(mvalid m i) || chain_okb n m (mtarget m i)) = true := h
      show (!(mvalid m2 i) || chain_okb n m2 (mtarget m2 i)) = true
      rw [hvne _ hib, htne _ hib]
      rcases Bool.or_eq_true_iff.mp h' with h1 | h2
      · exact Bool.or_eq_true_iff.mpr (Or.inl h1)
      · exact Bool.or_eq_true_iff.mpr (Or.inr (ih _ h2))

/-- Helper: the entry written by `finalize_write` carries the forward
target and the finalized flag, and its validity is that of the forward
entry. -/
theorem finalize_write_entry (m1 : Array array_remapping) (idx fwd : Nat)
    (h : idx < m1.size) :
    mtarget (finalize_write m1 idx fwd) idx = mtarget m1 fwd ∧
    mvalid (finalize_write m1 idx fwd) idx = mvalid m1 fwd ∧
    ((finalize_write m1 idx fwd).getD idx default).finalized = true := by
  simp only [finalize_write]
  refine ⟨?_, ?_, ?_⟩
  · rw [mtarget, getD_setD_self _ _ _ _ h]
    rfl
  · rw [mvalid, getD_setD_self _ _ _ _ h]
    rfl
  · rw [getD_setD_self _ _ _ _ h]

/-- Helper: `finalize_write` only touches the written slot. -/
theorem finalize_write_other (m1 : Array array_remapping) (idx fwd j : Nat)
    (hj : j ≠ idx) :
    (finalize_write m1 idx fwd).getD j default = m1.getD j default := by
  simp only [finalize_write]
  exact getD_setD_ne _ _ _ _ _ hj

/-- Helper: `finalize_write` keeps the table size. -/
theorem finalize_write_size (m1 : Array array_remapping) (idx fwd : Nat) :
    (finalize_write m1 idx fwd).size = m1.size := by
  simp only [finalize_write]
  exact Array.size_setD _ _ _

/-- Helper: assembling the finalize postcondition for entry `i` from the
postcondition of the already-finalized forward entry `f`. -/
theorem finalize_assemble (map M : Array array_remapping) (i f : Nat)
    (hQ : FinPost map f M) (hvi : mvalid map i = true)
    (hvf : mvalid map f = true) :
    FinPost map i (finalize_write M i f) := by
  obtain ⟨q1, q2, q3, q4, q5, q6⟩ := hQ
  have hvMi : mvalid M i = true := by rw [q1]; exact hvi
  have hvMf : mvalid M f = true := by rw [q1]; exact hvf
  have his : i < M.size := mvalid_lt_size M i hvMi
  obtain ⟨w1, w2, w3⟩ := finalize_write_entry M i f his
  have hfi : mtarget M f ≠ i := by
    intro hh
    rw [hh] at q2
    rw [q2] at hvMi
    exact absurd hvMi (by decide)
  have hvother : ∀ j, j ≠ i →
      mvalid (finalize_write M i f) j = mvalid M j := by
    intro j hj; rw [mvalid, mvalid, finalize_write_other M i f j hj]
  have htother : ∀ j, j ≠ i →
      mtarget (finalize_write M i f) j = mtarget M j := by
    intro j hj; rw [mtarget, mtarget, finalize_write_other M i f j hj]
  have hlift : ∀ x, mvalid M x = false →
      mvalid (finalize_write M i f) x = false := by
    intro x hx
    have hxi : x ≠ i := by
      intro hh; subst hh; rw [hx] at hvMi; exact absurd hvMi (by decide)
    rw [hvother x hxi]; exact hx
  have hterm_i : mvalid (finalize_write M i f)
      (mtarget (finalize_write M i f) i) = false := by
    rw [w1]; exact hlift _ q2
  refine ⟨?_, hterm_i, ?_, ?_, ?_, ?_⟩
  · intro j
    by_cases hj : j = i
    · subst hj; rw [w2, hvMf, hvi]
    · rw [hvother j hj, q1]
  · intro j hv hf
    by_cases hj : j = i
    · subst hj; exact hterm_i
    · rw [hvother j hj] at hv
      rw [finalize_write_other M i f j hj] at hf
      rw [htother j hj]
      exact hlift _ (q3 j hv hf)
  · intro j n hc
    exact chain_okb_update_keep M (finalize_write M i f) i hvMi
      (finalize_write_other M i f) hterm_i (by rw [w1]; exact hfi) n j (q4 j n hc)
  · intro j hne
    by_cases hj : j = i
    · subst hj; exact hterm_i
    · rw [finalize_write_other M i f j hj] at hne
      rw [htother j hj]
      exact hlift _ (q5 j hne)
  · rw [finalize_write_size, q6]

/-- Helper: finalizing one valid entry whose chain terminates within `N`
steps satisfies the finalize postcondition. -/
theorem finalize_mappings_good :
    ∀ (N fuel : Nat) (map : Array array_remapping) (i : Nat),
      N ≤ fuel → chain_okb N map i = true → mvalid map i = true →
      Bpro map → FinPost map i (finalize_mappings fuel map i)
  | 0, _, map, i, _, hch, hvi, _ => by
    exfalso
    have hch' : (!(mvalid map i)) = true := hch
    rw [hvi] at hch'
    exact absurd hch' (by decide)
  | N + 1, fuel, map, i, hle, hch, hvi, hB => by
    cases fuel with
    | zero => exact absurd hle (by omega)
    | succ fu =>
      have hch' : (!(mvalid map i) || chain_okb N map (mtarget map i)) = true :=
        hch
      have hchf : chain_okb N map (mtarget map i) = true := by
        rcases Bool.or_eq_true_iff.mp hch' with h1 | h2
        · rw [hvi] at h1; exact absurd h1 (by decide)
        · exact h2
      show FinPost map i (finalize_mappings (fu + 1) map i)
      simp only [finalize_mappings]
      by_cases hval :
          (map.getD (map.getD i default).target_id default).is_valid = true
      case neg =>
        simp only [Bool.not_eq_true] at hval
        have hcond :
            (!(map.getD (map.getD i default).target_id default).is_valid)
              = true := by rw [hval]; rfl
        rw [if_pos hcond]
        have hterm : mvalid map (mtarget map i) = false := hval
        exact ⟨fun j => rfl, hterm, hB, fun j n hc => hc,
               fun j hne => absurd rfl hne, rfl⟩
      case pos =>
        have hcond :
            ¬ ((!(map.getD (map.getD i default).target_id default).is_valid)
              = true) := by rw [hval]; simp
        rw [if_neg hcond]
        have hvf : mvalid map (map.getD i default).target_id = true := hval
        by_cases hfin :
            (map.getD (map.getD i default).target_id default).is_finalized
              = true
        · have hcond2 :
              ¬ ((!(map.getD (map.getD i default).target_id
                  default).is_finalized) = true) := by rw [hfin]; simp
          rw [if_neg hcond2]
          have hQ : FinPost map (map.getD i default).target_id map :=
            ⟨fun j => rfl, hB _ hvf hfin, hB, fun j n hc => hc,
             fun j hne => absurd rfl hne, rfl⟩
          exact finalize_assemble map map i (map.getD i default).target_id hQ
            hvi hvf
        · have hcond2 :
              (!(map.getD (map.getD i default).target_id
                default).is_finalized) = true := by
            simp only [Bool.not_eq_true] at hfin
            rw [hfin]; rfl
          rw [if_pos hcond2]
          have hQ : FinPost map (map.getD i default).target_id
              (finalize_mappings fu map (map.getD i default).target_id) :=
            finalize_mappings_good N fu map (map.getD i default).target_id
              (by omega) hchf hvf hB
          exact finalize_assemble map _ i (map.getD i default).target_id hQ
            hvi hvf

/-- Loop invariant of the finalization loop after the entries `1..k` have
been processed. -/
def FinInvAt (map0 : Array array_remapping) (k : Nat)
    (m : Array array_remapping) : Prop :=
  (∀ j, mvalid m j = mvalid map0 j) ∧ Bpro m ∧
  (∀ j n, chain_okb n map0 j = true → chain_okb n m j = true) ∧
  m.size = map0.size ∧
  (∀ t, 1 ≤ t → t ≤ k → mvalid m t = true → mvalid m (mtarget m t) = false)

/-- Helper: the finalization loop establishes terminal targets for all
processed valid entries. -/
theorem finalize_fold_inv (map0 : Array array_remapping)
    (hch0 : ∀ j, chain_okb map0.size map0 j = true) (hB0 : Bpro map0) :
    ∀ (n : Nat),
      FinInvAt map0 n ((List.range n).foldl (fun m k =>
        if (m.getD (k + 1) default).is_valid then
          finalize_mappings m.size m (k + 1)
        else m) map0) := by
  intro n
  induction n with
  | zero =>
    exact ⟨fun j => rfl, hB0, fun j nn hc => hc, rfl,
           fun t h1 h2 => absurd (h1.trans h2) (by omega)⟩
  | succ n ih =>
    rw [List.range_succ, List.foldl_append, List.foldl_cons, List.foldl_nil]
    set m := (List.range n).foldl (fun m k =>
      if (m.getD (k + 1) default).is_valid then
        finalize_mappings m.size m (k + 1)
      else m) map0 with hm
    obtain ⟨i1, i2, i3, i4, i5⟩ := ih
    by_cases hv : (m.getD (n + 1) default).is_valid = true
    · rw [if_pos hv]
      have hpost : FinPost m (n + 1) (finalize_mappings m.size m (n + 1)) :=
        finalize_mappings_good map0.size m.size m (n + 1) (by omega)
          (i3 _ _ (hch0 (n + 1))) hv i2
      obtain ⟨p1, p2, p3, p4, p5, p6⟩ := hpost
      refine ⟨fun j => (p1 j).trans (i1 j), p3,
              fun j nn hc => p4 j nn (i3 j nn hc), p6.trans i4, ?_⟩
      intro t h1 h2 hvt
      by_cases hteq : t = n + 1
      · subst hteq; exact p2
      · have htn : t ≤ n := by omega
        by_cases hsamet : (finalize_mappings m.size m (n + 1)).getD t default
            = m.getD t default
        · have hvt' : mvalid m t = true := by rw [← p1 t]; exact hvt
          have hold := i5 t h1 htn hvt'
          have htt : mtarget (finalize_mappings m.size m (n + 1)) t
              = mtarget m t := by rw [mtarget, mtarget, hsamet]
          rw [htt, p1 _]
          exact hold
        · exact p5 t hsamet
    · rw [if_neg hv]
      refine ⟨i1, i2, i3, i4, ?_⟩
      intro t h1 h2 hvt
      by_cases hteq : t = n + 1
      · subst hteq; exact absurd hvt hv
      · exact i5 t h1 (by omega) hvt

/-! ### Claim C4: end-to-end assembly -/

/-- Helper: inserting into the sorted list permutes to consing. -/
theorem insert_by_begin_perm (r : array_live_range) :
    ∀ l, List.Perm (insert_by_begin r l) (r :: l)
  | [] => .refl _
  | x :: xs => by
    simp only [insert_by_begin]
    split
    · exact ((insert_by_begin_perm r xs).cons x).trans (List.Perm.swap r x xs)
    · exact .refl _

/-- Helper: the begin-sort is a permutation. -/
theorem sort_ranges_perm : ∀ l, List.Perm (sort_ranges_by_begin l) l
  | [] => .refl _
  | x :: xs =>
    (insert_by_begin_perm x (sort_ranges_by_begin xs)).trans
      ((sort_ranges_perm xs).cons x)

/-- Helper: every slot of the all-invalid initial table is invalid. -/
theorem mvalid_mkArray (n j : Nat) :
    mvalid (Array.mkArray n array_remapping.invalid) j = false := by
  by_cases h : j < (Array.mkArray n array_remapping.invalid).size
  · rw [mvalid]
    have hg : (Array.mkArray n array_remapping.invalid).getD j default
        = (Array.mkArray n array_remapping.invalid)[j] := by
      simp only [Array.getD, h, dif_pos]
      rfl
    rw [hg, Array.getElem_mkArray]
    rfl
  · rw [mvalid, getD_oob _ _ _ (Nat.not_lt.mp h)]
    rfl

/-- Helper: the state fed into the merging loops satisfies the merge
invariant. -/
theorem initial_merge_inv (narrays : Nat) (ranges : Array array_live_range)
    (hsz : ranges.size = narrays)
    (hnd : (ranges.toList.map array_live_range.id).Nodup)
    (hbd : ∀ x ∈ ranges.toList.map array_live_range.id,
      1 ≤ x ∧ x ≤ narrays) :
    MergeInv narrays (sort_ranges_by_begin ranges.toList).toArray
      (Array.mkArray (narrays + 1) array_remapping.invalid) := by
  have hperm : List.Perm (sort_ranges_by_begin ranges.toList) ranges.toList :=
    sort_ranges_perm _
  have hpermids := hperm.map array_live_range.id
  refine ⟨?_, by simp, ?_, ?_, ?_, ?_, ?_⟩
  · rw [Array.size_toArray, hperm.length_eq, Array.length_toList, hsz]
  · rw [Array.toList_toArray]
    exact (List.Perm.nodup_iff hpermids).mpr hnd
  · rw [Array.toList_toArray]
    intro x hx
    exact hbd x (hpermids.mem_iff.mp hx)
  · intro i
    exact chain_okb_of_invalid _ _ _ (mvalid_mkArray _ _)
  · intro i hv
    rw [mvalid_mkArray] at hv
    exact absurd hv (by decide)
  · exact mvalid_mkArray _ _

/-- C4: after `get_array_remapping` returns, every valid entry of the
remapping table points at an array whose own entry is invalid (kept) — no
finalized remapping points at another remapped array — and running
`finalize_mappings` again on any valid entry leaves the table unchanged
(finalization is idempotent, also on diamond-shaped chains, which the
`finalized` marks short-circuit). -/
theorem get_array_remapping_chain_free_and_idempotent
    (narrays : Nat) (ranges : Array array_live_range)
    (hsz : ranges.size = narrays)
    (hbd : ∀ x ∈ ranges.toList.map array_live_range.id,
      1 ≤ x ∧ x ≤ narrays)
    (hnd : (ranges.toList.map array_live_range.id).Nodup) :
    ∀ i, mvalid (get_array_remapping narrays ranges
          (Array.mkArray (narrays + 1) array_remapping.invalid)).2.1 i
        = true →
      mvalid (get_array_remapping narrays ranges
            (Array.mkArray (narrays + 1) array_remapping.invalid)).2.1
          (mtarget (get_array_remapping narrays ranges
            (Array.mkArray (narrays + 1) array_remapping.invalid)).2.1 i)
        = false ∧
      finalize_mappings (get_array_remapping narrays ranges
            (Array.mkArray (narrays + 1) array_remapping.invalid)).2.1.size
          (get_array_remapping narrays ranges
            (Array.mkArray (narrays + 1) array_remapping.invalid)).2.1 i
        = (get_array_remapping narrays ranges
            (Array.mkArray (narrays + 1) array_remapping.invalid)).2.1 := by
  have inv0 := initial_merge_inv narrays ranges hsz hnd hbd
  have invP := merge_phase_inv narrays (narrays + 1) _ _ inv0
  have invM := evaluator_run_inv merge_live_range merge_live_range_spec false
    narrays _ _ invP
  simp only [get_array_remapping, finalize_all]
  set M := (array_merge_evaluator_run merge_live_range false narrays
    (merge_phase (narrays + 1) narrays
      (sort_ranges_by_begin ranges.toList).toArray
      (Array.mkArray (narrays + 1) array_remapping.invalid)).1
    (merge_phase (narrays + 1) narrays
      (sort_ranges_by_begin ranges.toList).toArray
      (Array.mkArray (narrays + 1) array_remapping.invalid)).2.1).2.1
    with hM
  have hch0 : ∀ j, chain_okb M.size M j = true := by
    intro j
    exact chain_okb_le (countValid M) M.size M j (countValid_le_size M)
      (invM.hch j)
  have hB0 : Bpro M := by
    intro j hv hf
    rw [invM.hnf j hv] at hf
    exact absurd hf (by decide)
  have hfold := finalize_fold_inv M hch0 hB0 narrays
  obtain ⟨f1, _, _, f4, f5⟩ := hfold
  set F := (List.range narrays).foldl (fun m k =>
    if (m.getD (k + 1) default).is_valid then
      finalize_mappings m.size m (k + 1)
    else m) M with hF
  intro i hvF
  have hterm : mvalid F (mtarget F i) = false := by
    have hvM : mvalid M i = true := by rw [← f1 i]; exact hvF
    have hlt : i < M.size := mvalid_lt_size M i hvM
    have h1 : 1 ≤ i := by
      rcases Nat.eq_zero_or_pos i with h0 | h1
      · subst h0
        rw [f1 0, invM.h0] at hvF
        exact absurd hvF (by decide)
      · exact h1
    have h2 : i ≤ narrays := by
      rw [invM.hsm] at hlt
      omega
    exact f5 i h1 h2 hvF
  refine ⟨hterm, ?_⟩
  have hFs : F.size = narrays + 1 := by rw [f4, invM.hsm]
  rw [hFs]
  simp only [finalize_mappings]
  have hcond : (!(F.getD (F.getD i default).target_id default).is_valid)
      = true := by
    have : (F.getD (F.getD i default).target_id default).is_valid = false :=
      hterm
    rw [this]
    rfl
  rw [if_pos hcond]

/-- Witness for C4: on two concrete arrays (a chain merge) the hypotheses
hold and the finalized table is chain-free and idempotent. -/
theorem get_array_remapping_chain_free_witness :
    ((#[array_live_range.make 1 3 1 5 15,
        array_live_range.make 2 2 6 7 15] : Array array_live_range).size
        = 2 ∧
     (∀ x ∈ (#[array_live_range.make 1 3 1 5 15,
        array_live_range.make 2 2 6 7 15] :
          Array array_live_range).toList.map array_live_range.id,
        1 ≤ x ∧ x ≤ 2) ∧
     ((#[array_live_range.make 1 3 1 5 15,
        array_live_range.make 2 2 6 7 15] :
          Array array_live_range).toList.map array_live_range.id).Nodup) ∧
    (∀ i, mvalid (get_array_remapping 2
          #[array_live_range.make 1 3 1 5 15,
            array_live_range.make 2 2 6 7 15]
          (Array.mkArray (2 + 1) array_remapping.invalid)).2.1 i = true →
      mvalid (get_array_remapping 2
            #[array_live_range.make 1 3 1 5 15,
              array_live_range.make 2 2 6 7 15]
            (Array.mkArray (2 + 1) array_remapping.invalid)).2.1
          (mtarget (get_array_remapping 2
            #[array_live_range.make 1 3 1 5 15,
              array_live_range.make 2 2 6 7 15]
            (Array.mkArray (2 + 1) array_remapping.invalid)).2.1 i)
        = false ∧
      finalize_mappings (get_array_remapping 2
            #[array_live_range.make 1 3 1 5 15,
              array_live_range.make 2 2 6 7 15]
            (Array.mkArray (2 + 1) array_remapping.invalid)).2.1.size
          (get_array_remapping 2
            #[array_live_range.make 1 3 1 5 15,
              array_live_range.make 2 2 6 7 15]
            (Array.mkArray (2 + 1) array_remapping.invalid)).2.1 i
        = (get_array_remapping 2
            #[array_live_range.make 1 3 1 5 15,
              array_live_range.make 2 2 6 7 15]
            (Array.mkArray (2 + 1) array_remapping.invalid)).2.1) :=
  ⟨⟨by decide, by decide, by decide⟩,
   get_array_remapping_chain_free_and_idempotent 2
     #[array_live_range.make 1 3 1 5 15, array_live_range.make 2 2 6 7 15]
     (by decide) (by decide) (by decide)⟩

/-!
### Register coalescing: `get_temp_registers_remapping`

From st_glsl_to_tgsi_temprename.cpp lines 955-967 (temp_access_record),
1255-1280 (find_next_rename) and 1290-1356 (get_temp_registers_remapping).
`begin` and `end` are Lean keywords, so those fields are named `rbegin` and
`rend` here.
-/

/-- struct register_lifetime: the per-register lifetime interval handed to the
coalescer; begin is -1 for registers that are never written. -/
structure register_lifetime where
  rbegin : Int
  rend : Int
  deriving DecidableEq

instance : Inhabited register_lifetime := ⟨⟨0, 0⟩⟩

/-- struct rename_reg_pair: one entry of the remap table filled in by
get_temp_registers_remapping. -/
structure rename_reg_pair where
  valid : Bool
  new_reg : Nat
  deriving DecidableEq

instance : Inhabited rename_reg_pair := ⟨⟨false, 0⟩⟩

/-- class temp_access_record (temprename.cpp:957-967): a sortable record of one
used register's lifetime; `erase` marks records already merged away. -/
structure temp_access_record where
  rbegin : Int
  rend : Int
  reg : Nat
  erase : Bool
  deriving DecidableEq

instance : Inhabited temp_access_record := ⟨⟨0, 0, 0, false⟩⟩

/-- The binary-search loop of find_next_rename (temprename.cpp:1261-1279).
`delta` is the remaining window width; every iteration strictly shrinks it, so
starting the fuel at `delta` the fuel never runs out (when it would, `delta`
is already 0 and the loop exit coincides with the fuel exit). -/
def find_next_rename_go (arr : Array temp_access_record) (bound : Int) :
    Nat → Nat → Nat → Nat
  | 0, start, _ => start
  | fuel + 1, start, delta =>
    if 0 < delta then
      let half := delta >>> 1
      let middle := start + half
      if bound ≤ (arr.getD middle default).rbegin then
        find_next_rename_go arr bound fuel start half
      else
        find_next_rename_go arr bound fuel (middle + 1) (delta - (half + 1))
    else start

/-- find_next_rename over index range [start, stop): first record (in the
array sorted by begin) whose begin is at or after `bound`; returns `stop`
when there is none. -/
def find_next_rename (arr : Array temp_access_record)
    (start stop : Nat) (bound : Int) : Nat :=
  find_next_rename_go arr bound (stop - start) start (stop - start)

/-- The compaction loop of get_temp_registers_remapping (temprename.cpp:
1340-1350): copy the unerased records of [inp, stop) down onto [outp, ...),
returning the updated array and the final output position (the new end of the
active range). Fuel is `stop - inp` at the call site; it decreases in lock
step with the loop counter, so it is never exhausted. -/
def compact_go : Nat → Array temp_access_record → Nat → Nat → Nat →
    Array temp_access_record × Nat
  | 0, arr, _, outp, _ => (arr, outp)
  | fuel + 1, arr, inp, outp, stop =>
    if inp < stop then
      if (arr.getD inp default).erase then
        compact_go fuel arr (inp + 1) outp stop
      else
        compact_go fuel (arr.setD outp (arr.getD inp default)) (inp + 1)
          (outp + 1) stop
    else (arr, outp)

/-- The main coalescing loop of get_temp_registers_remapping (temprename.cpp:
1320-1355), with pointers replaced by indices into `arr`: `trgt` is the
current target, `stop` the end of the active range, `firstErase` the first
merged-away record (or `stop` when there is none), `searchStart` the start of
the binary-search window. Each iteration strictly decreases the lexicographic
measure (stop - trgt, stop - searchStart), so fuel (stop+1)*(stop+2) at the
top-level call is never exhausted. -/
def remap_loop : Nat → Array temp_access_record → Nat → Nat → Nat → Nat →
    Array rename_reg_pair → Array rename_reg_pair
  | 0, _, _, _, _, _, result => result
  | fuel + 1, arr, trgt, stop, firstErase, searchStart, result =>
    if trgt < stop then
      let src := find_next_rename arr searchStart stop
        (arr.getD trgt default).rend
      if src < stop then
        let result1 := result.setD (arr.getD src default).reg
          { valid := true, new_reg := (arr.getD trgt default).reg }
        let arr1 := arr.setD trgt
          { arr.getD trgt default with rend := (arr.getD src default).rend }
        let arr2 := arr1.setD src
          { arr1.getD src default with erase := true }
        let firstErase1 := if firstErase = stop then src else firstErase
        remap_loop fuel arr2 trgt stop firstErase1 (src + 1) result1
      else
        if firstErase ≠ stop then
          let c := compact_go (stop - (firstErase + 1)) arr (firstErase + 1)
            firstErase stop
          remap_loop fuel c.1 (trgt + 1) c.2 c.2 (trgt + 2) result
        else
          remap_loop fuel arr (trgt + 1) stop firstErase (trgt + 2) result
    else result

/-- The gathering loop of get_temp_registers_remapping (temprename.cpp:
1298-1307): one record per register whose lifetime begin is non-negative. -/
def build_reg_access (ntemps : Nat) (lifetimes : Array register_lifetime) :
    Array temp_access_record :=
  (List.range ntemps).foldl
    (fun acc i =>
      if 0 ≤ (lifetimes.getD i default).rbegin then
        acc.push { rbegin := (lifetimes.getD i default).rbegin,
                   rend := (lifetimes.getD i default).rend,
                   reg := i, erase := false }
      else acc)
    #[]

/-- Stable insertion into a list sorted by begin, consistent with
temp_access_record::operator< (temprename.cpp:965) below std::sort. -/
def insert_record_by_begin (r : temp_access_record) :
    List temp_access_record → List temp_access_record
  | [] => [r]
  | x :: xs =>
    if x.rbegin < r.rbegin then x :: insert_record_by_begin r xs
    else r :: x :: xs

/-- Insertion sort by begin; a total order consistent with the strict weak
order std::sort is given (ties between equal begins are not ordered by the
source comparator, so any stable order refines it). -/
def sort_records_by_begin : List temp_access_record →
    List temp_access_record
  | [] => []
  | x :: xs => insert_record_by_begin x (sort_records_by_begin xs)

/-- get_temp_registers_remapping (temprename.cpp:1290-1356). `result` is the
caller-allocated remap table with one entry per register. -/
def get_temp_registers_remapping (ntemps : Nat)
    (lifetimes : Array register_lifetime)
    (result : Array rename_reg_pair) : Array rename_reg_pair :=
  let reg_access :=
    (sort_records_by_begin (build_reg_access ntemps lifetimes).toList).toArray
  let used_temps := reg_access.size
  remap_loop ((used_temps + 1) * (used_temps + 2)) reg_access
    0 used_temps used_temps 1 result

/-- C7: For the input register lifetimes [(0,1),(1,2),(2,3),(3,4)] the
register coalescer maps all four registers onto one representative register:
the remap table marks registers 1, 2 and 3 valid with new_reg = 0, and
register 0 (the representative) keeps no remap entry. The sweep sorts the
used lifetimes by begin and repeatedly folds into the current target the
first remaining record whose begin is at or past the target's current end,
each time extending the target's end to the absorbed record's end. -/
theorem coalesce_chain_onto_one_register :
    (((get_temp_registers_remapping 4 #[⟨0, 1⟩, ⟨1, 2⟩, ⟨2, 3⟩, ⟨3, 4⟩]
        (Array.mkArray 4 default)).getD 0 default).valid = false) ∧
    (∀ i ∈ [1, 2, 3],
      ((get_temp_registers_remapping 4 #[⟨0, 1⟩, ⟨1, 2⟩, ⟨2, 3⟩, ⟨3, 4⟩]
          (Array.mkArray 4 default)).getD i default).valid = true ∧
      ((get_temp_registers_remapping 4 #[⟨0, 1⟩, ⟨1, 2⟩, ⟨2, 3⟩, ⟨3, 4⟩]
          (Array.mkArray 4 default)).getD i default).new_reg = 0) := by
  decide

/-- The slice [a, b) of the access-record array, as a list; used to state the
invariants of the coalescing sweep. -/
def recseg (arr : Array temp_access_record) (a b : Nat) :
    List temp_access_record :=
  (List.range (b - a)).map (fun k => arr.getD (a + k) default)

theorem segment_length (arr : Array temp_access_record) (a b : Nat) :
    (recseg arr a b).length = b - a := by
  simp [recseg]

theorem segment_getElem (arr : Array temp_access_record) (a b k : Nat)
    (h : k < (recseg arr a b).length) :
    (recseg arr a b)[k] = arr.getD (a + k) default := by
  simp [recseg]

theorem segment_congr (arr1 arr2 : Array temp_access_record) (a b : Nat)
    (h : ∀ k, a ≤ k → k < b → arr1.getD k default = arr2.getD k default) :
    recseg arr1 a b = recseg arr2 a b := by
  unfold recseg
  refine List.map_congr_left (fun k hk => ?_)
  have hk1 := List.mem_range.mp hk
  exact h (a + k) (Nat.le_add_right a k) (by omega)

theorem segment_setD_inside (arr : Array temp_access_record) (a b p : Nat)
    (v : temp_access_record) (hap : a ≤ p) (hpb : p < b) (hsz : p < arr.size) :
    recseg (arr.setD p v) a b = (recseg arr a b).set (p - a) v := by
  apply List.ext_getElem
  · simp [recseg]
  · intro k h1 h2
    rw [segment_getElem _ _ _ _ h1]
    have hk : k < b - a := by
      have := segment_length arr a b
      simp [recseg] at h1; omega
    simp only [List.getElem_set]
    by_cases hke : p - a = k
    · have hak : a + k = p := by omega
      rw [if_pos hke, hak, getD_setD_self _ _ _ _ hsz]
    · rw [if_neg hke]
      rw [segment_getElem _ _ _ _ (by rw [segment_length]; omega)]
      exact getD_setD_ne _ _ _ _ _ (by omega)

theorem segment_append (arr : Array temp_access_record) (a b c : Nat)
    (hab : a ≤ b) (hbc : b ≤ c) :
    recseg arr a c = recseg arr a b ++ recseg arr b c := by
  apply List.ext_getElem
  · simp [recseg]; omega
  · intro k h1 h2
    rw [segment_getElem _ _ _ _ h1]
    by_cases hk : k < b - a
    · rw [List.getElem_append_left (by rw [segment_length]; omega)]
      rw [segment_getElem _ _ _ _ (by rw [segment_length]; omega)]
    · have h1' : k < c - a := by rw [segment_length] at h1; exact h1
      rw [List.getElem_append_right (by rw [segment_length]; omega)]
      rw [segment_getElem _ _ _ _
        (by simp only [segment_length]; omega)]
      congr 1
      simp only [segment_length]
      omega

theorem segment_cons (arr : Array temp_access_record) (a b : Nat)
    (h : a < b) :
    recseg arr a b = arr.getD a default :: recseg arr (a + 1) b := by
  apply List.ext_getElem
  · simp [recseg]; omega
  · intro k h1 h2
    rw [segment_getElem _ _ _ _ h1]
    match k with
    | 0 => simp
    | k + 1 =>
      have h1' : k + 1 < b - a := by rw [segment_length] at h1; exact h1
      simp only [List.getElem_cons_succ]
      rw [segment_getElem _ _ _ _ (by rw [segment_length]; omega)]
      congr 1
      omega

theorem mem_segment (arr : Array temp_access_record) (a b k : Nat)
    (h1 : a ≤ k) (h2 : k < b) :
    arr.getD k default ∈ recseg arr a b := by
  unfold recseg
  refine List.mem_map.mpr ⟨k - a, List.mem_range.mpr (by omega), ?_⟩
  congr 1
  omega

theorem mem_segment_iff {arr : Array temp_access_record} {a b : Nat}
    {rec : temp_access_record} (h : rec ∈ recseg arr a b) :
    ∃ k, a ≤ k ∧ k < b ∧ rec = arr.getD k default := by
  obtain ⟨k, hk, he⟩ := List.mem_map.mp h
  exact ⟨a + k, Nat.le_add_right a k,
    by have := List.mem_range.mp hk; omega, he.symm⟩

theorem segment_zero_size (arr : Array temp_access_record) :
    recseg arr 0 arr.size = arr.toList := by
  apply List.ext_getElem
  · simp [recseg]
  · intro k h1 h2
    rw [segment_getElem _ _ _ _ h1]
    have hk : k < arr.size := by rwa [Array.length_toList] at h2
    rw [Nat.zero_add, getD_eq_getElem_toList _ _ _ hk]

theorem find_next_rename_go_bounds (arr : Array temp_access_record)
    (bound : Int) :
    ∀ fuel start delta,
      start ≤ find_next_rename_go arr bound fuel start delta ∧
        find_next_rename_go arr bound fuel start delta ≤ start + delta
  | 0, start, delta => ⟨Nat.le_refl _, Nat.le_add_right _ _⟩
  | fuel + 1, start, delta => by
    simp only [find_next_rename_go]
    have hhalf : delta >>> 1 = delta / 2 := Nat.shiftRight_one delta
    split_ifs with h1 h2
    · have := find_next_rename_go_bounds arr bound fuel start (delta >>> 1)
      omega
    · have := find_next_rename_go_bounds arr bound fuel
        (start + delta >>> 1 + 1) (delta - (delta >>> 1 + 1))
      omega
    · omega

theorem find_next_rename_bounds (arr : Array temp_access_record)
    (start stop : Nat) (bound : Int) (h : start ≤ stop) :
    start ≤ find_next_rename arr start stop bound ∧
      find_next_rename arr start stop bound ≤ stop := by
  have := find_next_rename_go_bounds arr bound (stop - start) start
    (stop - start)
  unfold find_next_rename
  omega

/-- Full characterisation of one compaction pass: the array keeps its size,
positions below the output start are untouched, the output cursor lands
strictly below `stop`, and the compacted slice is exactly the unerased part
(in order) of the input slice. -/
theorem compact_go_spec :
    ∀ (fuel : Nat) (arr : Array temp_access_record) (inp outp stop : Nat),
      outp < inp → inp ≤ stop → stop ≤ arr.size → stop - inp ≤ fuel →
      (compact_go fuel arr inp outp stop).1.size = arr.size ∧
      (outp ≤ (compact_go fuel arr inp outp stop).2 ∧
        (compact_go fuel arr inp outp stop).2 < stop) ∧
      (∀ k, k < outp →
        (compact_go fuel arr inp outp stop).1.getD k default
          = arr.getD k default) ∧
      recseg (compact_go fuel arr inp outp stop).1 outp
          (compact_go fuel arr inp outp stop).2
        = (recseg arr inp stop).filter (fun r => !r.erase)
  | 0, arr, inp, outp, stop => by
    intro h1 h2 _ h4
    have hi : inp = stop := by omega
    refine ⟨rfl, ⟨Nat.le_refl _, by show outp < stop; omega⟩,
      fun k _ => rfl, ?_⟩
    show recseg arr outp outp
      = List.filter (fun r => !r.erase) (recseg arr inp stop)
    have e1 : recseg arr outp outp = [] := by simp [recseg]
    have e2 : recseg arr inp stop = [] := by simp [recseg, hi]
    rw [e1, e2]
    rfl
  | fuel + 1, arr, inp, outp, stop => by
    intro h1 h2 h3 h4
    simp only [compact_go]
    by_cases hi : inp < stop
    · rw [if_pos hi]
      by_cases he : (arr.getD inp default).erase
      · rw [if_pos he]
        have ih := compact_go_spec fuel arr (inp + 1) outp stop
          (by omega) (by omega) h3 (by omega)
        refine ⟨ih.1, ih.2.1, ih.2.2.1, ?_⟩
        rw [ih.2.2.2, segment_cons arr inp stop hi, List.filter_cons,
          he]
        simp
      · rw [if_neg he]
        have hisz : inp < arr.size := by omega
        have hosz : outp < arr.size := by omega
        have hsz : stop ≤ (arr.setD outp (arr.getD inp default)).size := by
          rw [Array.size_setD]; exact h3
        have ih := compact_go_spec fuel
          (arr.setD outp (arr.getD inp default)) (inp + 1) (outp + 1) stop
          (by omega) (by omega) hsz (by omega)
        have hun : ∀ k, k < outp →
            (compact_go fuel (arr.setD outp (arr.getD inp default))
                (inp + 1) (outp + 1) stop).1.getD k default
              = arr.getD k default := by
          intro k hk
          rw [ih.2.2.1 k (by omega), getD_setD_ne _ _ _ _ _ (by omega)]
        refine ⟨by rw [ih.1, Array.size_setD], ⟨by omega, ih.2.1.2⟩, hun, ?_⟩
        have hout : (compact_go fuel (arr.setD outp (arr.getD inp default))
            (inp + 1) (outp + 1) stop).1.getD outp default
              = arr.getD inp default := by
          rw [ih.2.2.1 outp (by omega), getD_setD_self _ _ _ _ hosz]
        have hcons : recseg (compact_go fuel
              (arr.setD outp (arr.getD inp default)) (inp + 1) (outp + 1)
              stop).1 outp
            (compact_go fuel (arr.setD outp (arr.getD inp default)) (inp + 1)
              (outp + 1) stop).2
            = arr.getD inp default ::
              recseg (compact_go fuel (arr.setD outp (arr.getD inp default))
                  (inp + 1) (outp + 1) stop).1 (outp + 1)
                (compact_go fuel (arr.setD outp (arr.getD inp default))
                  (inp + 1) (outp + 1) stop).2 := by
          rw [segment_cons _ _ _ (by omega), hout]
        have hseg : recseg (arr.setD outp (arr.getD inp default)) (inp + 1)
              stop = recseg arr (inp + 1) stop :=
          segment_congr _ _ _ _ (fun k hk1 _ =>
            getD_setD_ne _ _ _ _ _ (by omega))
        have he' : (arr.getD inp default).erase = false := by
          revert he
          cases (arr.getD inp default).erase <;> simp
        rw [hcons, ih.2.2.2, hseg, segment_cons arr inp stop hi,
          List.filter_cons, he']
        simp
    · rw [if_neg hi]
      have hi2 : inp = stop := by omega
      refine ⟨rfl, ⟨Nat.le_refl _, by show outp < stop; omega⟩,
        fun k _ => rfl, ?_⟩
      show recseg arr outp outp
        = List.filter (fun r => !r.erase) (recseg arr inp stop)
      have e1 : recseg arr outp outp = [] := by simp [recseg]
      have e2 : recseg arr inp stop = [] := by simp [recseg, hi2]
      rw [e1, e2]
      rfl

theorem segment_map_reg_congr (arr1 arr2 : Array temp_access_record)
    (a b : Nat)
    (h : ∀ k, a ≤ k → k < b →
      (arr1.getD k default).reg = (arr2.getD k default).reg) :
    (recseg arr1 a b).map temp_access_record.reg
      = (recseg arr2 a b).map temp_access_record.reg := by
  unfold recseg
  rw [List.map_map, List.map_map]
  refine List.map_congr_left (fun k hk => ?_)
  have hk1 := List.mem_range.mp hk
  exact h (a + k) (Nat.le_add_right a k) (by omega)

theorem segment_reg_ne (arr : Array temp_access_record) (a b k l : Nat)
    (hnd : ((recseg arr a b).map temp_access_record.reg).Nodup)
    (hak : a ≤ k) (hkl : k < l) (hlb : l < b) :
    (arr.getD k default).reg ≠ (arr.getD l default).reg := by
  intro he
  have hlen : ((recseg arr a b).map temp_access_record.reg).length = b - a := by
    rw [List.length_map, segment_length]
  have h1 : k - a < ((recseg arr a b).map temp_access_record.reg).length := by
    omega
  have h2 : l - a < ((recseg arr a b).map temp_access_record.reg).length := by
    omega
  have e1 : ((recseg arr a b).map temp_access_record.reg)[k - a]
      = (arr.getD k default).reg := by
    rw [List.getElem_map, segment_getElem _ _ _ _ (by rw [segment_length]; omega)]
    congr 2
    omega
  have e2 : ((recseg arr a b).map temp_access_record.reg)[l - a]
      = (arr.getD l default).reg := by
    rw [List.getElem_map, segment_getElem _ _ _ _ (by rw [segment_length]; omega)]
    congr 2
    omega
  have : k - a = l - a :=
    (List.Nodup.getElem_inj_iff hnd).mp (e1.trans (he.trans e2.symm))
  omega

/-- Loop invariant for the coalescing sweep: j1 is the chain-free goal, the
remaining components describe the active record range [trgt, stop): valid
remap targets are never records still in the search range (j2), a record's
remap entry is valid exactly when the record is marked erased (j3), the live
registers are pairwise distinct (j4) and in table range (j9), erased records
only live between firstErase and searchStart (j5, j8) and strictly after the
target (j6, j7), and the cursors stay in range (j10-j13). -/
structure RemapInv (ntemps : Nat) (arr : Array temp_access_record)
    (trgt stop firstErase searchStart : Nat)
    (result : Array rename_reg_pair) : Prop where
  j1 : ∀ r, ((result.getD r default).valid = true) →
    ((result.getD (result.getD r default).new_reg default).valid = false)
  j2 : ∀ r, ((result.getD r default).valid = true) →
    (result.getD r default).new_reg ∉
      (recseg arr (trgt + 1) stop).map temp_access_record.reg
  j3 : ∀ k, trgt ≤ k → k < stop →
    ((result.getD (arr.getD k default).reg default).valid
      = (arr.getD k default).erase)
  j4 : ((recseg arr trgt stop).map temp_access_record.reg).Nodup
  j5 : ∀ k, trgt ≤ k → k < stop → (arr.getD k default).erase = true →
    firstErase ≤ k ∧ k < searchStart
  j6 : trgt < stop → trgt < searchStart
  j7 : trgt < stop → trgt < firstErase
  j8 : firstErase ≠ stop → firstErase < searchStart
  j9 : ∀ k, trgt ≤ k → k < stop → (arr.getD k default).reg < ntemps
  j10 : result.size = ntemps
  j11 : stop ≤ arr.size
  j12 : firstErase ≤ stop
  j13 : trgt < stop → searchStart ≤ stop

/-- Preservation of the sweep invariant by one absorb step (the then-branch
of the main loop): the record at `src` is folded into the target, its
register's remap entry becomes valid, and the search window moves past it.
Stated with the updated array given pointwise. -/
theorem remap_step_absorb_abstract (ntemps : Nat)
    (arr arr2 : Array temp_access_record) (trgt stop fE ss src : Nat)
    (result result1 : Array rename_reg_pair) (fE1 : Nat)
    (inv : RemapInv ntemps arr trgt stop fE ss result)
    (ht : trgt < stop) (hs1 : ss ≤ src) (hs2 : src < stop)
    (ha2T : arr2.getD trgt default
      = { arr.getD trgt default with rend := (arr.getD src default).rend })
    (ha2S : arr2.getD src default
      = { arr.getD src default with erase := true })
    (ha2O : ∀ k, k ≠ trgt → k ≠ src →
      arr2.getD k default = arr.getD k default)
    (hsz2 : arr2.size = arr.size)
    (hres : result1 = result.setD (arr.getD src default).reg
      { valid := true, new_reg := (arr.getD trgt default).reg })
    (hfe1 : fE1 = if fE = stop then src else fE) :
    RemapInv ntemps arr2 trgt stop fE1 (src + 1) result1 := by
  have htsrc : trgt < src := by have := inv.j6 ht; omega
  have hTer : (arr.getD trgt default).erase = false := by
    cases he : (arr.getD trgt default).erase
    · rfl
    · have h5 := (inv.j5 trgt (Nat.le_refl _) ht he).1
      have h7 := inv.j7 ht
      omega
  have hSer : (arr.getD src default).erase = false := by
    cases he : (arr.getD src default).erase
    · rfl
    · have h5 := (inv.j5 src (by omega) hs2 he).2
      omega
  have hTinv : (result.getD (arr.getD trgt default).reg default).valid
      = false := by
    have h := inv.j3 trgt (Nat.le_refl _) ht
    rw [hTer] at h
    exact h
  have hregne : (arr.getD trgt default).reg ≠ (arr.getD src default).reg :=
    segment_reg_ne arr trgt stop trgt src inv.j4 (Nat.le_refl _) htsrc hs2
  have hressz : (arr.getD src default).reg < result.size := by
    rw [inv.j10]
    exact inv.j9 src (by omega) hs2
  have hr1S : result1.getD (arr.getD src default).reg default
      = { valid := true, new_reg := (arr.getD trgt default).reg } := by
    rw [hres, getD_setD_self _ _ _ _ hressz]
  have hr1O : ∀ x, x ≠ (arr.getD src default).reg →
      result1.getD x default = result.getD x default := by
    intro x hx
    rw [hres, getD_setD_ne _ _ _ _ _ hx]
  have hreg : ∀ k, (arr2.getD k default).reg = (arr.getD k default).reg := by
    intro k
    by_cases e1 : k = trgt
    · subst e1; rw [ha2T]
    · by_cases e2 : k = src
      · subst e2; rw [ha2S]
      · rw [ha2O k e1 e2]
  have her : ∀ k, k ≠ src →
      (arr2.getD k default).erase = (arr.getD k default).erase := by
    intro k hk
    by_cases e1 : k = trgt
    · subst e1; rw [ha2T]
    · rw [ha2O k e1 hk]
  have hmemS : (arr.getD src default).reg ∈
      (recseg arr (trgt + 1) stop).map temp_access_record.reg :=
    List.mem_map.mpr ⟨arr.getD src default,
      mem_segment arr (trgt + 1) stop src (by omega) hs2, rfl⟩
  have hTnot : (arr.getD trgt default).reg ∉
      (recseg arr (trgt + 1) stop).map temp_access_record.reg := by
    have hd := inv.j4
    rw [segment_cons arr trgt stop ht, List.map_cons] at hd
    exact (List.nodup_cons.mp hd).1
  have hregs_eq : ∀ a b, (recseg arr2 a b).map temp_access_record.reg
      = (recseg arr a b).map temp_access_record.reg :=
    fun a b => segment_map_reg_congr _ _ _ _ (fun k _ _ => hreg k)
  refine ⟨?_, ?_, ?_, ?_, ?_, ?_, ?_, ?_, ?_, ?_, ?_, ?_, ?_⟩
  · intro r hr
    by_cases hrs : r = (arr.getD src default).reg
    · subst hrs
      rw [hr1S]
      show (result1.getD (arr.getD trgt default).reg default).valid = false
      rw [hr1O _ hregne]
      exact hTinv
    · have hv : (result.getD r default).valid = true := by
        rw [← hr1O r hrs]; exact hr
      have hold := inv.j1 r hv
      have hnr : (result.getD r default).new_reg
          ≠ (arr.getD src default).reg := by
        intro he
        exact (inv.j2 r hv) (he ▸ hmemS)
      rw [hr1O r hrs, hr1O _ hnr]
      exact hold
  · intro r hr
    rw [hregs_eq]
    by_cases hrs : r = (arr.getD src default).reg
    · subst hrs
      rw [hr1S]
      show (arr.getD trgt default).reg ∉
        (recseg arr (trgt + 1) stop).map temp_access_record.reg
      exact hTnot
    · rw [hr1O r hrs]
      exact inv.j2 r (by rw [← hr1O r hrs]; exact hr)
  · intro k hk1 hk2
    by_cases e2 : k = src
    · rw [e2, ha2S]
      show (result1.getD (arr.getD src default).reg default).valid = true
      rw [hr1S]
    · by_cases e1 : k = trgt
      · rw [e1, ha2T]
        show (result1.getD (arr.getD trgt default).reg default).valid
          = (arr.getD trgt default).erase
        rw [hr1O _ hregne, hTer]
        exact hTinv
      · rw [ha2O k e1 e2]
        have hrne : (arr.getD k default).reg
            ≠ (arr.getD src default).reg := by
          rcases Nat.lt_or_ge k src with h | h
          · exact segment_reg_ne arr trgt stop k src inv.j4 hk1 h hs2
          · have hks : src < k := by omega
            exact (segment_reg_ne arr trgt stop src k inv.j4 (by omega)
              hks hk2).symm
        rw [hr1O _ hrne]
        exact inv.j3 k hk1 hk2
  · rw [show (recseg arr2 trgt stop).map temp_access_record.reg
        = (recseg arr trgt stop).map temp_access_record.reg
        from hregs_eq trgt stop]
    exact inv.j4
  · intro k hk1 hk2 hke
    by_cases e2 : k = src
    · subst e2
      refine ⟨?_, by omega⟩
      rw [hfe1]
      split_ifs with h
      · exact Nat.le_refl _
      · have := inv.j8 h
        omega
    · rw [her k e2] at hke
      have hold := inv.j5 k hk1 hk2 hke
      refine ⟨?_, by omega⟩
      rw [hfe1]
      split_ifs with h
      · rw [h] at hold
        omega
      · exact hold.1
  · intro _
    have := inv.j6 ht
    omega
  · intro _
    rw [hfe1]
    split_ifs with h
    · omega
    · exact inv.j7 ht
  · intro hne
    by_cases h : fE = stop
    · rw [hfe1, if_pos h]
      omega
    · rw [hfe1, if_neg h]
      have := inv.j8 h
      omega
  · intro k hk1 hk2
    rw [hreg k]
    exact inv.j9 k hk1 hk2
  · rw [hres, Array.size_setD, inv.j10]
  · rw [hsz2]
    exact inv.j11
  · rw [hfe1]
    split_ifs with h
    · omega
    · exact inv.j12
  · intro _
    omega

/-- The absorb step as it appears literally in `remap_loop`. -/
theorem remap_step_absorb (ntemps : Nat) (arr : Array temp_access_record)
    (trgt stop fE ss src : Nat) (result : Array rename_reg_pair)
    (inv : RemapInv ntemps arr trgt stop fE ss result)
    (ht : trgt < stop) (hs1 : ss ≤ src) (hs2 : src < stop) :
    RemapInv ntemps
      ((arr.setD trgt { arr.getD trgt default with
          rend := (arr.getD src default).rend }).setD src
        { (arr.setD trgt { arr.getD trgt default with
            rend := (arr.getD src default).rend }).getD src default with
          erase := true })
      trgt stop (if fE = stop then src else fE) (src + 1)
      (result.setD (arr.getD src default).reg
        { valid := true, new_reg := (arr.getD trgt default).reg }) := by
  have htsrc : trgt < src := by have := inv.j6 ht; omega
  have htsz : trgt < arr.size := by have := inv.j11; omega
  have hssz : src < arr.size := by have := inv.j11; omega
  refine remap_step_absorb_abstract ntemps arr _ trgt stop fE ss src result
    _ _ inv ht hs1 hs2 ?_ ?_ ?_ ?_ rfl rfl
  · rw [getD_setD_ne _ _ _ _ _ (by omega), getD_setD_self _ _ _ _ htsz]
  · rw [getD_setD_self _ _ _ _ (by rw [Array.size_setD]; omega),
      getD_setD_ne _ _ _ _ _ (by omega)]
  · intro k hk1 hk2
    rw [getD_setD_ne _ _ _ _ _ hk2, getD_setD_ne _ _ _ _ _ hk1]
  · rw [Array.size_setD, Array.size_setD]

/-- Preservation of the sweep invariant when no merge candidate was found and
nothing is marked for erasure: move to the next target. -/
theorem remap_step_advance (ntemps : Nat) (arr : Array temp_access_record)
    (trgt stop fE ss : Nat) (result : Array rename_reg_pair)
    (inv : RemapInv ntemps arr trgt stop fE ss result)
    (ht : trgt < stop) (hfe : fE = stop) :
    RemapInv ntemps arr (trgt + 1) stop fE (trgt + 2) result := by
  refine ⟨inv.j1, ?_, ?_, ?_, ?_, ?_, ?_, ?_, ?_, inv.j10, inv.j11,
    inv.j12, ?_⟩
  · intro r hr hmem
    refine inv.j2 r hr ?_
    obtain ⟨rec, hrec, hre⟩ := List.mem_map.mp hmem
    obtain ⟨k, hk1, hk2, hkv⟩ := mem_segment_iff hrec
    exact List.mem_map.mpr ⟨rec,
      by rw [hkv]; exact mem_segment arr _ _ k (by omega) hk2, hre⟩
  · intro k hk1 hk2
    exact inv.j3 k (by omega) hk2
  · have hd := inv.j4
    rw [segment_cons arr trgt stop ht, List.map_cons] at hd
    exact (List.nodup_cons.mp hd).2
  · intro k hk1 hk2 hke
    have hold := inv.j5 k (by omega) hk2 hke
    omega
  · intro _
    omega
  · intro h2
    omega
  · intro h
    exact absurd hfe h
  · intro k hk1 hk2
    exact inv.j9 k (by omega) hk2
  · intro _
    omega

/-- Preservation of the sweep invariant across the compaction branch: the
merged-away records are squeezed out of the active range and the sweep moves
to the next target. -/
theorem remap_step_compact (ntemps : Nat) (arr : Array temp_access_record)
    (trgt stop fE ss : Nat) (result : Array rename_reg_pair)
    (inv : RemapInv ntemps arr trgt stop fE ss result)
    (ht : trgt < stop) (hfe : fE ≠ stop) :
    RemapInv ntemps
      (compact_go (stop - (fE + 1)) arr (fE + 1) fE stop).1
      (trgt + 1)
      (compact_go (stop - (fE + 1)) arr (fE + 1) fE stop).2
      (compact_go (stop - (fE + 1)) arr (fE + 1) fE stop).2
      (trgt + 2) result := by
  have hfelt : fE < stop := by have := inv.j12; omega
  have htfe : trgt < fE := inv.j7 ht
  have hspec := compact_go_spec (stop - (fE + 1)) arr (fE + 1) fE stop
    (by omega) (by omega) inv.j11 (by omega)
  obtain ⟨hq1, ⟨hq2a, hq2b⟩, hq3, hq4⟩ := hspec
  set arr2 := (compact_go (stop - (fE + 1)) arr (fE + 1) fE stop).1 with ha2
  set stop2 := (compact_go (stop - (fE + 1)) arr (fE + 1) fE stop).2 with hst2
  have hmemold : ∀ k, fE ≤ k → k < stop2 →
      ∃ k0, fE + 1 ≤ k0 ∧ k0 < stop ∧
        arr2.getD k default = arr.getD k0 default ∧
        (arr2.getD k default).erase = false := by
    intro k hk1 hk2
    have hm : arr2.getD k default
        ∈ (recseg arr (fE + 1) stop).filter (fun r => !r.erase) := by
      rw [← hq4]
      exact mem_segment arr2 fE stop2 k hk1 hk2
    have hm2 := List.mem_filter.mp hm
    obtain ⟨k0, h1, h2, h3⟩ := mem_segment_iff hm2.1
    refine ⟨k0, h1, h2, h3, ?_⟩
    have hb := hm2.2
    revert hb
    cases (arr2.getD k default).erase <;> simp
  refine ⟨inv.j1, ?_, ?_, ?_, ?_, ?_, ?_, ?_, ?_, inv.j10, ?_, Nat.le_refl _,
    ?_⟩
  · intro r hr hmem
    refine inv.j2 r hr ?_
    obtain ⟨rec, hrec, hre⟩ := List.mem_map.mp hmem
    obtain ⟨k, hk1, hk2, hkv⟩ := mem_segment_iff hrec
    by_cases hkf : k < fE
    · have he : rec = arr.getD k default := by rw [hkv, hq3 k hkf]
      exact List.mem_map.mpr ⟨rec,
        by rw [he]; exact mem_segment arr _ _ k (by omega) (by omega), hre⟩
    · obtain ⟨k0, h1, h2, h3, _⟩ := hmemold k (by omega) hk2
      exact List.mem_map.mpr ⟨rec,
        by rw [hkv, h3]; exact mem_segment arr _ _ k0 (by omega) h2, hre⟩
  · intro k hk1 hk2
    by_cases hkf : k < fE
    · rw [hq3 k hkf]
      exact inv.j3 k (by omega) (by omega)
    · obtain ⟨k0, h1, h2, h3, _⟩ := hmemold k (by omega) hk2
      rw [h3]
      exact inv.j3 k0 (by omega) h2
  · have hdecomp : recseg arr2 (trgt + 1) stop2
        = recseg arr (trgt + 1) fE
          ++ (recseg arr (fE + 1) stop).filter (fun r => !r.erase) := by
      rw [segment_append arr2 (trgt + 1) fE stop2 (by omega) (by omega),
        segment_congr arr2 arr (trgt + 1) fE (fun k _ hk2 => hq3 k hk2), hq4]
    have hsub : (recseg arr2 (trgt + 1) stop2).Sublist
        (recseg arr (trgt + 1) stop) := by
      rw [hdecomp, segment_append arr (trgt + 1) fE stop (by omega)
        (by omega), segment_cons arr fE stop hfelt]
      exact List.Sublist.append_left
        ((List.filter_sublist _).trans (List.sublist_cons_self _ _)) _
    have hd := inv.j4
    rw [segment_cons arr trgt stop ht, List.map_cons] at hd
    have hnd := (List.nodup_cons.mp hd).2
    exact List.Nodup.sublist (hsub.map temp_access_record.reg) hnd
  · intro k hk1 hk2 hke
    by_cases hkf : k < fE
    · rw [hq3 k hkf] at hke
      have := inv.j5 k (by omega) (by omega) hke
      omega
    · obtain ⟨k0, h1, h2, h3, h4⟩ := hmemold k (by omega) hk2
      rw [hke] at h4
      exact absurd h4 (by simp)
  · intro _
    omega
  · intro h
    exact h
  · intro h
    exact absurd rfl h
  · intro k hk1 hk2
    by_cases hkf : k < fE
    · rw [hq3 k hkf]
      exact inv.j9 k (by omega) (by omega)
    · obtain ⟨k0, h1, h2, h3, _⟩ := hmemold k (by omega) hk2
      rw [h3]
      exact inv.j9 k0 (by omega) h2
  · have h11 := inv.j11
    omega
  · intro h
    omega

/-- Folding pushes over a list accumulates, as a list, the filtered images. -/
theorem foldl_push_filterMap (p : Nat → Prop) [DecidablePred p]
    (f : Nat → temp_access_record) :
    ∀ (l : List Nat) (acc : Array temp_access_record),
      (l.foldl (fun a i => if p i then a.push (f i) else a) acc).toList
        = acc.toList
          ++ l.filterMap (fun i => if p i then some (f i) else none)
  | [], acc => by simp
  | x :: t, acc => by
    simp only [List.foldl_cons, List.filterMap_cons]
    by_cases hx : p x
    · rw [if_pos hx, if_pos hx, foldl_push_filterMap p f t (acc.push (f x)),
        Array.push_toList]
      simp
    · rw [if_neg hx, if_neg hx, foldl_push_filterMap p f t acc]

theorem build_reg_access_toList (ntemps : Nat)
    (lifetimes : Array register_lifetime) :
    (build_reg_access ntemps lifetimes).toList
      = (List.range ntemps).filterMap (fun i =>
          if 0 ≤ (lifetimes.getD i default).rbegin then
            some { rbegin := (lifetimes.getD i default).rbegin,
                   rend := (lifetimes.getD i default).rend,
                   reg := i, erase := false }
          else none) := by
  have h := foldl_push_filterMap
    (fun i => 0 ≤ (lifetimes.getD i default).rbegin)
    (fun i => { rbegin := (lifetimes.getD i default).rbegin,
                rend := (lifetimes.getD i default).rend,
                reg := i, erase := false })
    (List.range ntemps) #[]
  unfold build_reg_access
  simpa using h

theorem map_reg_filterMap (fn : Nat → Option temp_access_record)
    (hfn : ∀ i rec, fn i = some rec → rec.reg = i) :
    ∀ l : List Nat,
      ((l.filterMap fn).map temp_access_record.reg)
        = l.filter (fun i => (fn i).isSome)
  | [] => by simp
  | x :: t => by
    simp only [List.filterMap_cons, List.filter_cons]
    cases hx : fn x with
    | none => simp [hx, map_reg_filterMap fn hfn t]
    | some rec => simp [hx, map_reg_filterMap fn hfn t, hfn x rec hx]

theorem build_reg_access_facts (ntemps : Nat)
    (lifetimes : Array register_lifetime) :
    (∀ rec ∈ (build_reg_access ntemps lifetimes).toList,
      rec.erase = false ∧ rec.reg < ntemps) ∧
    (((build_reg_access ntemps lifetimes).toList.map
      temp_access_record.reg).Nodup) := by
  rw [build_reg_access_toList]
  constructor
  · intro rec hrec
    obtain ⟨i, hi, he⟩ := List.mem_filterMap.mp hrec
    by_cases hc : 0 ≤ (lifetimes.getD i default).rbegin
    · rw [if_pos hc] at he
      cases Option.some.inj he
      exact ⟨rfl, List.mem_range.mp hi⟩
    · rw [if_neg hc] at he
      exact absurd he (by simp)
  · have hfn : ∀ i rec,
        (if 0 ≤ (lifetimes.getD i default).rbegin then
          some ({ rbegin := (lifetimes.getD i default).rbegin,
                  rend := (lifetimes.getD i default).rend,
                  reg := i, erase := false } : temp_access_record)
        else none) = some rec → rec.reg = i := by
      intro i rec h
      by_cases hc : 0 ≤ (lifetimes.getD i default).rbegin
      · rw [if_pos hc] at h
        cases Option.some.inj h
        rfl
      · rw [if_neg hc] at h
        exact absurd h (by simp)
    rw [map_reg_filterMap _ hfn]
    exact List.Nodup.filter _ (List.nodup_range ntemps)

theorem insert_record_by_begin_perm (r : temp_access_record) :
    ∀ l, List.Perm (insert_record_by_begin r l) (r :: l)
  | [] => List.Perm.refl _
  | x :: xs => by
    simp only [insert_record_by_begin]
    split_ifs with h
    · exact ((insert_record_by_begin_perm r xs).cons x).trans
        (List.Perm.swap r x xs)
    · exact List.Perm.refl _

theorem sort_records_perm : ∀ l, List.Perm (sort_records_by_begin l) l
  | [] => List.Perm.refl _
  | x :: xs =>
    (insert_record_by_begin_perm x (sort_records_by_begin xs)).trans
      ((sort_records_perm xs).cons x)

/-- The sweep invariant carries the chain-free property through the whole
main loop, for any fuel. -/
theorem remap_loop_inv (ntemps : Nat) :
    ∀ (fuel : Nat) (arr : Array temp_access_record)
      (trgt stop fE ss : Nat) (result : Array rename_reg_pair),
      RemapInv ntemps arr trgt stop fE ss result →
      ∀ r, ((remap_loop fuel arr trgt stop fE ss result).getD r
          default).valid = true →
        ((remap_loop fuel arr trgt stop fE ss result).getD
            ((remap_loop fuel arr trgt stop fE ss result).getD r
              default).new_reg default).valid = false
  | 0, arr, trgt, stop, fE, ss, result => fun inv r hr => inv.j1 r hr
  | fuel + 1, arr, trgt, stop, fE, ss, result => fun inv r => by
    by_cases ht : trgt < stop
    · simp only [remap_loop]
      rw [if_pos ht]
      by_cases hs : find_next_rename arr ss stop
          (arr.getD trgt default).rend < stop
      · rw [if_pos hs]
        have hbounds := find_next_rename_bounds arr ss stop
          (arr.getD trgt default).rend (inv.j13 ht)
        exact remap_loop_inv ntemps fuel _ _ _ _ _ _
          (remap_step_absorb ntemps arr trgt stop fE ss _ result inv ht
            hbounds.1 hs) r
      · rw [if_neg hs]
        by_cases hfe : fE ≠ stop
        · rw [if_pos hfe]
          exact remap_loop_inv ntemps fuel _ _ _ _ _ _
            (remap_step_compact ntemps arr trgt stop fE ss result inv ht
              hfe) r
        · rw [if_neg hfe]
          have hfe2 : fE = stop := not_not.mp hfe
          exact remap_loop_inv ntemps fuel _ _ _ _ _ _
            (remap_step_advance ntemps arr trgt stop fE ss result inv ht
              hfe2) r
    · simp only [remap_loop]
      rw [if_neg ht]
      exact inv.j1 r

theorem mkArray_getD_pair_default (n r : Nat) :
    (Array.mkArray n (default : rename_reg_pair)).getD r default
      = default := by
  by_cases h : r < n
  · simp [Array.getD, h]
  · simp [Array.getD, h]

/-- C10: The register remap table produced by get_temp_registers_remapping
is chain-free: for every register whose entry is marked valid, the
representative register it maps to has no valid entry of its own, so
applying the table once (without transitive resolution) fully resolves every
rename. Stated for any lifetimes and any caller-allocated table of the right
size whose entries start out invalid. -/
theorem get_temp_registers_remapping_chain_free (ntemps : Nat)
    (lifetimes : Array register_lifetime) (result : Array rename_reg_pair)
    (hsz : result.size = ntemps)
    (hinv : ∀ r, (result.getD r default).valid = false) :
    ∀ r, ((get_temp_registers_remapping ntemps lifetimes result).getD r
        default).valid = true →
      ((get_temp_registers_remapping ntemps lifetimes result).getD
          ((get_temp_registers_remapping ntemps lifetimes result).getD r
            default).new_reg default).valid = false := by
  have hperm : List.Perm
      (sort_records_by_begin (build_reg_access ntemps lifetimes).toList)
      (build_reg_access ntemps lifetimes).toList :=
    sort_records_perm _
  have hfacts := build_reg_access_facts ntemps lifetimes
  set arrS := (sort_records_by_begin
    (build_reg_access ntemps lifetimes).toList).toArray with hA
  have hpos : ∀ k, k < arrS.size →
      (arrS.getD k default).erase = false
        ∧ (arrS.getD k default).reg < ntemps := by
    intro k hk
    refine hfacts.1 _ (hperm.mem_iff.mp ?_)
    rw [← Array.toList_toArray (sort_records_by_begin
      (build_reg_access ntemps lifetimes).toList), ← hA]
    rw [getD_eq_getElem_toList _ _ _ hk]
    exact List.getElem_mem _
  have hnd : ((recseg arrS 0 arrS.size).map temp_access_record.reg).Nodup := by
    rw [segment_zero_size, hA, Array.toList_toArray]
    exact ((hperm.map temp_access_record.reg).nodup_iff).mpr hfacts.2
  show ∀ r, ((remap_loop ((arrS.size + 1) * (arrS.size + 2)) arrS 0
      arrS.size arrS.size 1 result).getD r default).valid = true → _
  refine remap_loop_inv ntemps ((arrS.size + 1) * (arrS.size + 2)) arrS 0
    arrS.size arrS.size 1 result ?_
  refine ⟨fun r _ => hinv _, ?_, ?_, hnd, ?_, ?_, ?_, ?_, ?_, hsz,
    Nat.le_refl _, Nat.le_refl _, ?_⟩
  · intro r hr
    rw [hinv r] at hr
    exact absurd hr (by simp)
  · intro k _ hk2
    rw [hinv _, (hpos k hk2).1]
  · intro k _ hk2 hke
    rw [(hpos k hk2).1] at hke
    exact absurd hke (by simp)
  · intro _
    omega
  · intro h
    exact h
  · intro h
    exact absurd rfl h
  · intro k _ hk2
    exact (hpos k hk2).2
  · intro h
    omega

theorem get_temp_registers_remapping_chain_free_witness :
    ((Array.mkArray 3 (default : rename_reg_pair)).size = 3 ∧
      (∀ r, ((Array.mkArray 3 (default : rename_reg_pair)).getD r
        default).valid = false)) ∧
    (∀ r, ((get_temp_registers_remapping 3 #[⟨0, 2⟩, ⟨1, 3⟩, ⟨2, 4⟩]
          (Array.mkArray 3 (default : rename_reg_pair))).getD r
        default).valid = true →
      ((get_temp_registers_remapping 3 #[⟨0, 2⟩, ⟨1, 3⟩, ⟨2, 4⟩]
          (Array.mkArray 3 (default : rename_reg_pair))).getD
          ((get_temp_registers_remapping 3 #[⟨0, 2⟩, ⟨1, 3⟩, ⟨2, 4⟩]
            (Array.mkArray 3 (default : rename_reg_pair))).getD r
            default).new_reg default).valid = false) :=
  ⟨⟨by simp, fun r => by rw [mkArray_getD_pair_default]; rfl⟩,
   get_temp_registers_remapping_chain_free 3 #[⟨0, 2⟩, ⟨1, 3⟩, ⟨2, 4⟩]
     (Array.mkArray 3 (default : rename_reg_pair)) (by simp)
     (fun r => by rw [mkArray_getD_pair_default]; rfl)⟩

/-!
### Lifetime scan: prog_scope, temp/array access tracking and the program scan

From st_glsl_to_tgsi_temprename.cpp lines 60-1253. Scopes live in an arena
(prog_scope_storage); a scope pointer is an index into the arena, the null
pointer is `none`. A parent index is always smaller than the child's index,
and parent-climbing loops get the arena size as fuel, which therefore never
runs out on arenas built by the scan. Machine ints are Int; INT_MAX is
2147483647.
-/

def INT_MAX : Int := 2147483647

inductive prog_scope_type where
  | outer_scope
  | loop_body
  | switch_body
  | switch_case_branch
  | switch_default_branch
  | if_branch
  | else_branch
  deriving DecidableEq, Repr

structure prog_scope where
  scope_type : prog_scope_type
  scope_id : Int
  scope_nesting_depth : Int
  scope_begin : Int
  scope_end : Int
  break_loop_line : Int
  parent_scope : Option Nat
  deriving DecidableEq, Repr

instance : Inhabited prog_scope :=
  ⟨⟨prog_scope_type.outer_scope, 0, 0, 0, -1, INT_MAX, none⟩⟩

/-- prog_scope constructor (temprename.cpp:270-280): scope_end starts at -1,
break_loop_line at INT_MAX. -/
def prog_scope.make (parent : Option Nat) (t : prog_scope_type)
    (id depth s_begin : Int) : prog_scope :=
  ⟨t, id, depth, s_begin, -1, INT_MAX, parent⟩

/-- prog_scope_storage::create: append the new scope, returning its index. -/
def scopes_create (arena : Array prog_scope) (parent : Option Nat)
    (t : prog_scope_type) (id depth s_begin : Int) :
    Array prog_scope × Nat :=
  (arena.push (prog_scope.make parent t id depth s_begin), arena.size)

def scope_at (arena : Array prog_scope) (i : Nat) : prog_scope :=
  arena.getD i default

def prog_scope.is_loop (s : prog_scope) : Bool :=
  s.scope_type = prog_scope_type.loop_body

def prog_scope.is_conditional (s : prog_scope) : Bool :=
  s.scope_type = prog_scope_type.if_branch ||
  s.scope_type = prog_scope_type.else_branch ||
  s.scope_type = prog_scope_type.switch_case_branch ||
  s.scope_type = prog_scope_type.switch_default_branch

/-- prog_scope::is_in_loop (climbs parents). -/
def is_in_loop (arena : Array prog_scope) : Nat → Nat → Bool
  | 0, _ => false
  | fuel + 1, i =>
    if (scope_at arena i).is_loop then true
    else match (scope_at arena i).parent_scope with
      | some p => is_in_loop arena fuel p
      | none => false

/-- prog_scope::innermost_loop. -/
def innermost_loop (arena : Array prog_scope) : Nat → Nat → Option Nat
  | 0, _ => none
  | fuel + 1, i =>
    if (scope_at arena i).is_loop then some i
    else match (scope_at arena i).parent_scope with
      | some p => innermost_loop arena fuel p
      | none => none

/-- prog_scope::outermost_loop (do-while climb keeping the last loop seen). -/
def outermost_loop_go (arena : Array prog_scope) :
    Nat → Nat → Option Nat → Option Nat
  | 0, _, loop => loop
  | fuel + 1, i, loop =>
    let loop1 := if (scope_at arena i).is_loop then some i else loop
    match (scope_at arena i).parent_scope with
    | some p => outermost_loop_go arena fuel p loop1
    | none => loop1

def outermost_loop (arena : Array prog_scope) (fuel i : Nat) : Option Nat :=
  outermost_loop_go arena fuel i none

/-- prog_scope::is_child_of (pointer comparison along the parent chain). -/
def is_child_of (arena : Array prog_scope) : Nat → Nat → Nat → Bool
  | 0, _, _ => false
  | fuel + 1, i, scope =>
    match (scope_at arena i).parent_scope with
    | some p => if p = scope then true else is_child_of arena fuel p scope
    | none => false

/-- prog_scope::enclosing_conditional. -/
def enclosing_conditional (arena : Array prog_scope) :
    Nat → Nat → Option Nat
  | 0, _ => none
  | fuel + 1, i =>
    if (scope_at arena i).is_conditional then some i
    else match (scope_at arena i).parent_scope with
      | some p => enclosing_conditional arena fuel p
      | none => none

/-- prog_scope::in_ifelse_scope. -/
def in_ifelse_scope (arena : Array prog_scope) : Nat → Nat → Option Nat
  | 0, _ => none
  | fuel + 1, i =>
    if (scope_at arena i).scope_type = prog_scope_type.if_branch ||
       (scope_at arena i).scope_type = prog_scope_type.else_branch then
      some i
    else match (scope_at arena i).parent_scope with
      | some p => in_ifelse_scope arena fuel p
      | none => none

/-- prog_scope::in_parent_ifelse_scope. -/
def in_parent_ifelse_scope (arena : Array prog_scope) (fuel i : Nat) :
    Option Nat :=
  match (scope_at arena i).parent_scope with
  | some p => in_ifelse_scope arena fuel p
  | none => none

/-- prog_scope::is_child_of_ifelse_id_sibling. -/
def is_child_of_ifelse_id_sibling_go (arena : Array prog_scope)
    (scope : Nat) : Nat → Option Nat → Bool
  | 0, _ => false
  | _, none => false
  | fuel + 1, some my_parent =>
    if my_parent = scope then false
    else if (scope_at arena my_parent).scope_id
        = (scope_at arena scope).scope_id then true
    else is_child_of_ifelse_id_sibling_go arena scope fuel
      (in_parent_ifelse_scope arena arena.size my_parent)

def is_child_of_ifelse_id_sibling (arena : Array prog_scope)
    (i scope : Nat) : Bool :=
  is_child_of_ifelse_id_sibling_go arena scope arena.size
    (in_parent_ifelse_scope arena arena.size i)

/-- prog_scope::is_switchcase_scope_in_loop. -/
def is_switchcase_scope_in_loop (arena : Array prog_scope) (i : Nat) : Bool :=
  ((scope_at arena i).scope_type = prog_scope_type.switch_case_branch ||
   (scope_at arena i).scope_type = prog_scope_type.switch_default_branch) &&
  is_in_loop arena arena.size i

/-- prog_scope::break_is_for_switchcase. -/
def break_is_for_switchcase (arena : Array prog_scope) :
    Nat → Nat → Bool
  | 0, _ => false
  | fuel + 1, i =>
    if (scope_at arena i).scope_type = prog_scope_type.loop_body then false
    else if (scope_at arena i).scope_type
          = prog_scope_type.switch_case_branch ||
        (scope_at arena i).scope_type
          = prog_scope_type.switch_default_branch ||
        (scope_at arena i).scope_type = prog_scope_type.switch_body then
      true
    else match (scope_at arena i).parent_scope with
      | some p => break_is_for_switchcase arena fuel p
      | none => false

/-- prog_scope::contains_range_of. -/
def contains_range_of (arena : Array prog_scope) (i other : Nat) : Bool :=
  (scope_at arena i).scope_begin ≤ (scope_at arena other).scope_begin &&
  (scope_at arena other).scope_end ≤ (scope_at arena i).scope_end

/-- prog_scope::set_end: only sets the end if it is still open. -/
def scope_set_end (arena : Array prog_scope) (i : Nat) (e : Int) :
    Array prog_scope :=
  if (scope_at arena i).scope_end = -1 then
    arena.setD i { scope_at arena i with scope_end := e }
  else arena

/-- prog_scope::set_loop_break_line: records the smallest break line in the
nearest enclosing loop body. -/
def set_loop_break_line (arena : Array prog_scope) :
    Nat → Nat → Int → Array prog_scope
  | 0, _, _ => arena
  | fuel + 1, i, line =>
    if (scope_at arena i).scope_type = prog_scope_type.loop_body then
      arena.setD i { scope_at arena i with
        break_loop_line := min (scope_at arena i).break_loop_line line }
    else match (scope_at arena i).parent_scope with
      | some p => set_loop_break_line arena fuel p line
      | none => arena

def write_is_conditional : Int := -1

def conditionality_unresolved : Int := 0

def conditionality_untouched : Int := INT_MAX

def supported_ifelse_nesting_depth : Int := 32

/-- Per-component access tracking state (temprename.cpp:120-215). Scope
pointers are arena indices; the null pointer is none. -/
structure temp_comp_access where
  last_read_scope : Option Nat
  first_read_scope : Option Nat
  first_write_scope : Option Nat
  first_write : Int
  last_read : Int
  last_write : Int
  first_read : Int
  conditionality_in_loop_id : Int
  if_scope_write_flags : Nat
  next_ifelse_nesting_depth : Int
  current_unpaired_if_write_scope : Option Nat
  was_written_in_current_else_scope : Bool
  deriving DecidableEq, Repr

instance : Inhabited temp_comp_access :=
  ⟨⟨none, none, none, -1, -1, -1, INT_MAX, conditionality_untouched, 0, 0,
    none, false⟩⟩

def temp_comp_access.conditional_ifelse_write_in_loop
    (t : temp_comp_access) : Bool :=
  t.conditionality_in_loop_id ≤ conditionality_unresolved

/-- temp_comp_access::record_read (temprename.cpp:566-613). -/
def temp_comp_access.record_read (arena : Array prog_scope) (line : Int)
    (scope : Nat) (t : temp_comp_access) : temp_comp_access :=
  let t1 := { t with last_read_scope := some scope, last_read := line }
  let t2 := if line < t1.first_read then
      { t1 with first_read := line, first_read_scope := some scope }
    else t1
  match in_ifelse_scope arena arena.size scope with
  | none => t2
  | some ifelse_scope =>
    match innermost_loop arena arena.size ifelse_scope with
    | none => t2
    | some enclosing_loop =>
      if t2.conditionality_in_loop_id ≠ write_is_conditional ∧
          t2.conditionality_in_loop_id
            ≠ (scope_at arena enclosing_loop).scope_id then
        match t2.current_unpaired_if_write_scope with
        | some cuiws =>
          if is_child_of arena arena.size scope cuiws then t2
          else if (scope_at arena ifelse_scope).scope_type
              = prog_scope_type.if_branch then
            if (scope_at arena cuiws).scope_id
                = (scope_at arena scope).scope_id then t2
            else { t2 with
              conditionality_in_loop_id := write_is_conditional }
          else if t2.was_written_in_current_else_scope then t2
          else { t2 with conditionality_in_loop_id := write_is_conditional }
        | none => { t2 with conditionality_in_loop_id := write_is_conditional }
      else t2

/-- temp_comp_access::record_if_write (temprename.cpp:659-682). The shift
count next_ifelse_nesting_depth is non-negative here (guarded against the
supported depth in record_write). -/
def temp_comp_access.record_if_write (arena : Array prog_scope)
    (scope : Nat) (t : temp_comp_access) : temp_comp_access :=
  let cond := match t.current_unpaired_if_write_scope with
    | none => true
    | some c => (scope_at arena c).scope_id
        ≠ (scope_at arena scope).scope_id &&
      is_child_of_ifelse_id_sibling arena scope c
  if cond then
    { t with
      if_scope_write_flags := t.if_scope_write_flags
        ||| (1 <<< t.next_ifelse_nesting_depth.toNat),
      current_unpaired_if_write_scope := some scope,
      next_ifelse_nesting_depth := t.next_ifelse_nesting_depth + 1 }
  else t

/-- temp_comp_access::record_ifelse_write, record_else_write (temprename.cpp:
643-751), with the else-branch handling inlined so that the propagation to
parent IF/ELSE scopes is a single fuel recursion. In record_else_write the
source computes 1 << (next_ifelse_nesting_depth - 1), undefined for depth 0;
the mask is taken as 0 then (the flag word has no bits below bit 0 anyway).
Clearing a bit (flags &= ~mask) is written (flags ||| mask) ^^^ mask. The
source expression scope.innermost_loop()->id() dereferences null when the
scope is not inside a loop (unreachable: callers check for the loop);
conditionality is kept unchanged then. -/
def temp_comp_access.record_ifelse_write (arena : Array prog_scope) :
    Nat → Nat → temp_comp_access → temp_comp_access
  | 0, _, t => t
  | fuel + 1, scope, t0 =>
    if (scope_at arena scope).scope_type = prog_scope_type.if_branch then
      temp_comp_access.record_if_write arena scope
        { t0 with conditionality_in_loop_id := conditionality_unresolved,
                  was_written_in_current_else_scope := false }
    else
      let t := { t0 with was_written_in_current_else_scope := true }
      let mask : Nat := if (1 : Int) ≤ t.next_ifelse_nesting_depth then
          1 <<< Int.toNat (t.next_ifelse_nesting_depth - 1) else 0
      let idok : Bool := match t.current_unpaired_if_write_scope with
        | some c => (scope_at arena scope).scope_id
            = (scope_at arena c).scope_id
        | none => false
      if t.if_scope_write_flags &&& mask ≠ 0 ∧ idok = true then
        let depth1 : Int := t.next_ifelse_nesting_depth - 1
        let flags1 := (t.if_scope_write_flags ||| mask) ^^^ mask
        let parent_ifelse := match (scope_at arena scope).parent_scope with
          | some p => in_ifelse_scope arena arena.size p
          | none => none
        let mask1 : Nat := if (1 : Int) ≤ depth1 then
            1 <<< Int.toNat (depth1 - 1) else 0
        let cuiws1 := if mask1 &&& flags1 ≠ 0 then parent_ifelse else none
        let t1 := { t with next_ifelse_nesting_depth := depth1,
                           if_scope_write_flags := flags1,
                           current_unpaired_if_write_scope := cuiws1 }
        match parent_ifelse with
        | some pi =>
          if is_in_loop arena arena.size pi then
            temp_comp_access.record_ifelse_write arena fuel pi t1
          else
            { t1 with conditionality_in_loop_id :=
                match innermost_loop arena arena.size scope with
                | some l => (scope_at arena l).scope_id
                | none => t1.conditionality_in_loop_id }
        | none =>
          { t1 with conditionality_in_loop_id :=
              match innermost_loop arena arena.size scope with
              | some l => (scope_at arena l).scope_id
              | none => t1.conditionality_in_loop_id }
      else
        { t with conditionality_in_loop_id := write_is_conditional }

/-- temp_comp_access::record_write (temprename.cpp:615-641). -/
def temp_comp_access.record_write (arena : Array prog_scope) (line : Int)
    (scope : Nat) (t : temp_comp_access) : temp_comp_access :=
  let t1 := { t with last_write := line }
  let t2 := if t1.first_write < 0 then
      { t1 with first_write := line, first_write_scope := some scope }
    else t1
  if t2.conditionality_in_loop_id = write_is_conditional then t2
  else if supported_ifelse_nesting_depth ≤ t2.next_ifelse_nesting_depth then
    { t2 with conditionality_in_loop_id := write_is_conditional }
  else
    match in_ifelse_scope arena arena.size scope with
    | none => t2
    | some ifelse_scope =>
      match innermost_loop arena arena.size ifelse_scope with
      | none => t2
      | some l =>
        if (scope_at arena l).scope_id ≠ t2.conditionality_in_loop_id then
          temp_comp_access.record_ifelse_write arena (2 * arena.size + 2)
            ifelse_scope t2
        else t2

/-- temp_comp_access::propagate_lifetime_to_dominant_write_scope
(temprename.cpp:755-761). -/
def temp_comp_access.propagate_lifetime_to_dominant_write_scope
    (arena : Array prog_scope) (t : temp_comp_access) : temp_comp_access :=
  match t.first_write_scope with
  | none => t
  | some fws =>
    { t with first_write := (scope_at arena fws).scope_begin,
             last_read := if t.last_read < (scope_at arena fws).scope_end
               then (scope_at arena fws).scope_end else t.last_read }

/-- The enclosing-scope search loop of get_required_lifetime (temprename.cpp:
816-821): climb until the scope covers both the required write scope and the
last read scope. -/
def climb_enclosing (arena : Array prog_scope) (esfw lrs : Nat) :
    Nat → Nat → Nat
  | 0, e => e
  | fuel + 1, e =>
    if !(contains_range_of arena e esfw)
        || !(contains_range_of arena e lrs) then
      match (scope_at arena e).parent_scope with
      | some p => climb_enclosing arena esfw lrs fuel p
      | none => e
    else e

/-- The last-read propagation loop of get_required_lifetime (temprename.cpp:
823-834): climb the last read scope to the enclosing scope's depth, widening
the last read to each traversed loop's end. -/
def propagate_last_read (arena : Array prog_scope) (encl_depth : Int) :
    Nat → Nat → Int → Nat × Int
  | 0, lrs, lr => (lrs, lr)
  | fuel + 1, lrs, lr =>
    if encl_depth < (scope_at arena lrs).scope_nesting_depth then
      let lr1 := if (scope_at arena lrs).is_loop
        then (scope_at arena lrs).scope_end else lr
      match (scope_at arena lrs).parent_scope with
      | some p => propagate_last_read arena encl_depth fuel p lr1
      | none => (lrs, lr1)
    else (lrs, lr)

/-- The first-write propagation loop of get_required_lifetime (temprename.cpp:
841-857): climb the first write scope to the enclosing scope's depth; a break
line before the first write promotes the lifetime to the write scope, and so
does every loop entered while keep_for_full_loop is set. Returns
(first_write_scope, first_write, last_read, keep_for_full_loop). -/
def propagate_first_write (arena : Array prog_scope) (encl_depth : Int) :
    Nat → Nat → Int → Int → Bool → Nat × Int × Int × Bool
  | 0, fws, fw, lr, keep => (fws, fw, lr, keep)
  | fuel + 1, fws, fw, lr, keep =>
    if encl_depth < (scope_at arena fws).scope_nesting_depth then
      let brk := (scope_at arena fws).break_loop_line < fw
      let fw1 := if brk then (scope_at arena fws).scope_begin else fw
      let lr1 := if brk ∧ lr < (scope_at arena fws).scope_end
        then (scope_at arena fws).scope_end else lr
      let keep1 := if brk then true else keep
      match (scope_at arena fws).parent_scope with
      | some p =>
        let inloop := keep1 ∧ (scope_at arena p).is_loop
        let fw2 := if inloop then (scope_at arena p).scope_begin else fw1
        let lr2 := if inloop ∧ lr1 < (scope_at arena p).scope_end
          then (scope_at arena p).scope_end else lr1
        propagate_first_write arena encl_depth fuel p fw2 lr2 keep1
      | none => (fws, fw1, lr1, keep1)
    else (fws, fw, lr, keep)

/-- temp_comp_access::get_required_lifetime (temprename.cpp:763-868).
The source asserts first_write_scope when written; the unreachable
null cases fall back to scope 0 (the outer scope). The expression
conditional->outermost_loop() may be null in the source only when the
conditional write guard fails (unreachable); the conditional itself is used
then. -/
def temp_comp_access.get_required_lifetime (arena : Array prog_scope)
    (t : temp_comp_access) : register_lifetime :=
  if t.last_write < 0 then ⟨-1, -1⟩
  else
    match t.last_read_scope with
    | none => ⟨t.first_write, t.last_write + 1⟩
    | some lrs0 =>
      let fws0 := t.first_write_scope.getD 0
      let frs0 := t.first_read_scope.getD 0
      let rd_in_loop := t.first_read ≤ t.first_write
        ∧ is_in_loop arena arena.size frs0
      let keep1 := if rd_in_loop then true else false
      let esfr := if rd_in_loop
        then (outermost_loop arena arena.size frs0).getD frs0 else frs0
      let condw := match enclosing_conditional arena arena.size fws0 with
        | some c =>
          if !(contains_range_of arena c lrs0) ∧
              (is_switchcase_scope_in_loop arena c = true ∨
               t.conditional_ifelse_write_in_loop = true) then
            (true, (outermost_loop arena arena.size c).getD c)
          else (keep1, fws0)
        | none => (keep1, fws0)
      let keep2 := condw.1
      let esfw := condw.2
      let e1 := if contains_range_of arena esfw esfr then esfw else esfr
      let e2 := if contains_range_of arena lrs0 e1 then lrs0 else e1
      let encl := climb_enclosing arena esfw lrs0 arena.size e2
      let pr := propagate_last_read arena
        (scope_at arena encl).scope_nesting_depth arena.size lrs0 t.last_read
      let lr1 := pr.2
      let prop0 := keep2 ∧ (scope_at arena fws0).is_loop
      let fw2 := if prop0 then (scope_at arena fws0).scope_begin
        else t.first_write
      let lr2 := if prop0 ∧ lr1 < (scope_at arena fws0).scope_end
        then (scope_at arena fws0).scope_end else lr1
      let pf := propagate_first_write arena
        (scope_at arena encl).scope_nesting_depth arena.size fws0 fw2 lr2
        keep2
      let fw3 := pf.2.1
      let lr3 := pf.2.2.1
      let lr4 := if lr3 ≤ t.last_write then t.last_write + 1 else lr3
      ⟨fw3, lr4⟩

/-- Tracks all four components of one temporary (temprename.cpp:220-233). -/
structure temp_access where
  comp : Array temp_comp_access
  access_mask : Nat
  needs_component_tracking : Bool
  deriving DecidableEq, Repr

instance : Inhabited temp_access :=
  ⟨⟨Array.mkArray 4 default, 0, false⟩⟩

/-- temp_access::update_access_mask (temprename.cpp:483-488). -/
def temp_access.update_access_mask (ta : temp_access) (mask : Nat) :
    temp_access :=
  { ta with
    needs_component_tracking := if ta.access_mask ≠ 0
        ∧ ta.access_mask ≠ mask then true
      else ta.needs_component_tracking,
    access_mask := ta.access_mask ||| mask }

/-- temp_access::record_write (temprename.cpp:490-503). -/
def temp_access.record_write (arena : Array prog_scope) (line : Int)
    (scope : Nat) (writemask : Nat) (ta0 : temp_access) : temp_access :=
  let ta := ta0.update_access_mask writemask
  let ta := if writemask &&& 1 ≠ 0 then
    { ta with comp :=
        ta.comp.setD 0 ((ta.comp.getD 0 default).record_write arena line scope) }
    else ta
  let ta := if writemask &&& 2 ≠ 0 then
    { ta with comp :=
        ta.comp.setD 1 ((ta.comp.getD 1 default).record_write arena line scope) }
    else ta
  let ta := if writemask &&& 4 ≠ 0 then
    { ta with comp :=
        ta.comp.setD 2 ((ta.comp.getD 2 default).record_write arena line scope) }
    else ta
  if writemask &&& 8 ≠ 0 then
    { ta with comp :=
        ta.comp.setD 3 ((ta.comp.getD 3 default).record_write arena line scope) }
    else ta

/-- temp_access::record_read (temprename.cpp:505-518). -/
def temp_access.record_read (arena : Array prog_scope) (line : Int)
    (scope : Nat) (readmask : Nat) (ta0 : temp_access) : temp_access :=
  let ta := ta0.update_access_mask readmask
  let ta := if readmask &&& 1 ≠ 0 then
    { ta with comp :=
        ta.comp.setD 0 ((ta.comp.getD 0 default).record_read arena line scope) }
    else ta
  let ta := if readmask &&& 2 ≠ 0 then
    { ta with comp :=
        ta.comp.setD 1 ((ta.comp.getD 1 default).record_read arena line scope) }
    else ta
  let ta := if readmask &&& 4 ≠ 0 then
    { ta with comp :=
        ta.comp.setD 2 ((ta.comp.getD 2 default).record_read arena line scope) }
    else ta
  if readmask &&& 8 ≠ 0 then
    { ta with comp :=
        ta.comp.setD 3 ((ta.comp.getD 3 default).record_read arena line scope) }
    else ta

/-- The component loop of temp_access::get_required_lifetime (temprename.cpp:
527-549): u_bit_scan yields the set bits of access_mask in ascending order;
without component tracking the loop breaks after the first one. -/
def temp_access.get_required_lifetime_go (arena : Array prog_scope)
    (ta : temp_access) : List Nat → register_lifetime → register_lifetime
  | [], result => result
  | chan :: rest, result =>
    let lt := (ta.comp.getD chan default).get_required_lifetime arena
    let rbegin := if 0 ≤ lt.rbegin
        ∧ (result.rbegin < 0 ∨ lt.rbegin < result.rbegin)
      then lt.rbegin else result.rbegin
    let rend := if result.rend < lt.rend then lt.rend else result.rend
    if ta.needs_component_tracking then
      temp_access.get_required_lifetime_go arena ta rest ⟨rbegin, rend⟩
    else ⟨rbegin, rend⟩

def temp_access.get_required_lifetime (arena : Array prog_scope)
    (ta : temp_access) : register_lifetime :=
  temp_access.get_required_lifetime_go arena ta
    ((List.range 4).filter (fun i => ta.access_mask.testBit i)) ⟨-1, -1⟩

/-- The array lifetime record filled in by array_access (the interface of
array_lifetime from the scan's point of view: set_lifetime and
set_access_mask). -/
structure array_lifetime where
  rbegin : Int
  rend : Int
  access_swizzle : Nat
  deriving DecidableEq, Repr

instance : Inhabited array_lifetime := ⟨⟨-1, -1, 0⟩⟩

/-- Per-array access tracking (temprename.cpp:235-249, 870-902). -/
structure array_access where
  first_access : Int
  last_access : Int
  first_access_scope : Option Nat
  last_access_scope : Option Nat
  conditional_write_in_loop : Bool
  accumulated_swizzle : Nat
  deriving DecidableEq, Repr

instance : Inhabited array_access := ⟨⟨-1, -1, none, none, false, 0⟩⟩

/-- array_access::record_read (temprename.cpp:880-889). -/
def array_access.record_read (line : Int) (scope : Nat) (swizzle : Nat)
    (a : array_access) : array_access :=
  let a1 := if a.first_access_scope = none then
      { a with first_access := line, first_access_scope := some scope }
    else a
  { a1 with last_access_scope := some scope, last_access := line,
             accumulated_swizzle := a1.accumulated_swizzle ||| swizzle }

/-- array_access::record_write (temprename.cpp:891-902). -/
def array_access.record_write (arena : Array prog_scope) (line : Int)
    (scope : Nat) (writemask : Nat) (a : array_access) : array_access :=
  let a1 := if a.first_access_scope = none then
      { a with first_access := line, first_access_scope := some scope }
    else a
  let a2 := { a1 with last_access_scope := some scope,
                      last_access := line,
                      accumulated_swizzle :=
                        a1.accumulated_swizzle ||| writemask }
  if (in_ifelse_scope arena arena.size scope).isSome
      ∧ (innermost_loop arena arena.size scope).isSome then
    { a2 with conditional_write_in_loop := true }
  else a2

/-- The shared-scope climb of array_access::get_required_lifetime
(temprename.cpp:929-937), widening the last access over traversed loops. -/
def array_shared_climb (arena : Array prog_scope) :
    Nat → Nat → Nat → Int → Nat × Int
  | 0, shared, _, la => (shared, la)
  | fuel + 1, shared, other, la =>
    if !(contains_range_of arena shared other) then
      let la1 := if (scope_at arena shared).scope_type
            = prog_scope_type.loop_body
           ∧ la < (scope_at arena shared).scope_end
        then (scope_at arena shared).scope_end else la
      match (scope_at arena shared).parent_scope with
      | some p => array_shared_climb arena fuel p other la1
      | none => (shared, la1)
    else (shared, la)

/-- The other-scope climb of array_access::get_required_lifetime
(temprename.cpp:939-945). -/
def array_other_climb (arena : Array prog_scope) :
    Nat → Nat → Nat → Int → Int
  | 0, _, _, la => la
  | fuel + 1, shared, other, la =>
    if shared ≠ other then
      let la1 := if (scope_at arena other).scope_type
            = prog_scope_type.loop_body
           ∧ la < (scope_at arena other).scope_end
        then (scope_at arena other).scope_end else la
      match (scope_at arena other).parent_scope with
      | some p => array_other_climb arena fuel shared p la1
      | none => la1
    else la

/-- array_access::get_required_lifetime (temprename.cpp:904-954). When the
array was never accessed both scopes are null and the source dereferences
null (after a failed assert); the lifetime record is left unchanged here. -/
def array_access.get_required_lifetime (arena : Array prog_scope)
    (a : array_access) (lt : array_lifetime) : array_lifetime :=
  match a.first_access_scope, a.last_access_scope with
  | some fas, some las =>
    let st0 :=
      if a.conditional_write_in_loop then
        match outermost_loop arena arena.size fas with
        | some h => (h, las, a.first_access, a.last_access)
        | none =>
          match outermost_loop arena arena.size las with
          | some h2 => (fas, h2, a.first_access, a.last_access)
          | none => (fas, las, a.first_access, a.last_access)
      else (fas, las, a.first_access, a.last_access)
    let shared0 := st0.1
    let other0 := st0.2.1
    let fa1 := if a.conditional_write_in_loop
        ∧ (scope_at arena shared0).scope_begin < st0.2.2.1
      then (scope_at arena shared0).scope_begin else st0.2.2.1
    let la1 := if a.conditional_write_in_loop
        ∧ st0.2.2.2 < (scope_at arena shared0).scope_end
      then (scope_at arena shared0).scope_end else st0.2.2.2
    let climbed :=
      if contains_range_of arena other0 shared0 then (other0, la1)
      else array_shared_climb arena arena.size shared0 other0 la1
    let la2 := array_other_climb arena arena.size climbed.1 other0 climbed.2
    { lt with rbegin := fa1, rend := la2,
              access_swizzle := a.accumulated_swizzle }
  | _, _ => lt

inductive register_file where
  | PROGRAM_TEMPORARY
  | PROGRAM_ARRAY
  | PROGRAM_INPUT
  | PROGRAM_OUTPUT
  | PROGRAM_IMMEDIATE
  | PROGRAM_UNDEFINED
  deriving DecidableEq, Repr

/-- st_src_reg, with the fields the scan uses; reladdr/reladdr2 are nested
source registers as in the source. -/
inductive st_src_reg where
  | mk (file : register_file) (index : Nat) (swizzle : Nat) (array_id : Nat)
      (reladdr reladdr2 : Option st_src_reg)

/-- st_dst_reg, with the fields the scan uses. -/
structure st_dst_reg where
  file : register_file
  index : Nat
  writemask : Nat
  array_id : Nat
  reladdr : Option st_src_reg
  reladdr2 : Option st_src_reg

/-- The recorder holding one temp_access per temporary and one array_access
per array (temprename.cpp:969-1034). -/
structure access_recorder where
  acc : Array temp_access
  arr : Array array_access
  deriving Repr

/-- access_recorder::record_read (temprename.cpp:990-1013): the read mask
collects, per swizzle position, bit (1 << GET_SWZ(swizzle, idx)) & 0xF, and
the recursion follows reladdr and reladdr2. -/
def access_recorder.record_read (arena : Array prog_scope) (line : Int)
    (scope : Nat) : st_src_reg → access_recorder → access_recorder
  | .mk file index swizzle array_id reladdr reladdr2, a =>
    let readmask := (List.range 4).foldl
      (fun m idx => m ||| ((1 <<< ((swizzle >>> (3 * idx)) &&& 7)) &&& 15)) 0
    let a1 := if file = register_file.PROGRAM_TEMPORARY then
        let upd := (a.acc.getD index default).record_read arena line scope
          readmask
        { a with acc := a.acc.setD index upd }
      else a
    let a2 := if file = register_file.PROGRAM_ARRAY then
        let upd := (a1.arr.getD (array_id - 1) default).record_read line
          scope readmask
        { a1 with arr := a1.arr.setD (array_id - 1) upd }
      else a1
    let a3 := match reladdr with
      | some r => access_recorder.record_read arena line scope r a2
      | none => a2
    match reladdr2 with
    | some r => access_recorder.record_read arena line scope r a3
    | none => a3

/-- access_recorder::record_write (temprename.cpp:1015-1034). -/
def access_recorder.record_write (arena : Array prog_scope) (line : Int)
    (scope : Nat) (dst : st_dst_reg) (a : access_recorder) :
    access_recorder :=
  let a1 := if dst.file = register_file.PROGRAM_TEMPORARY then
      let upd := (a.acc.getD dst.index default).record_write arena line
        scope dst.writemask
      { a with acc := a.acc.setD dst.index upd }
    else a
  let a2 := if dst.file = register_file.PROGRAM_ARRAY then
      let upd := (a1.arr.getD (dst.array_id - 1) default).record_write arena
        line scope dst.writemask
      { a1 with arr := a1.arr.setD (dst.array_id - 1) upd }
    else a1
  let a3 := match dst.reladdr with
    | some r => access_recorder.record_read arena line scope r a2
    | none => a2
  match dst.reladdr2 with
  | some r => access_recorder.record_read arena line scope r a3
  | none => a3

inductive tgsi_opcode where
  | BGNLOOP
  | ENDLOOP
  | IF
  | UIF
  | ELSE
  | END
  | ENDIF
  | SWITCH
  | ENDSWITCH
  | CASE
  | DEFAULT
  | BRK
  | CAL
  | RET
  | MOV
  | ADD
  | UADD
  | USEQ
  | UCMP
  | FSLT
  | ARITH
  deriving DecidableEq, Repr

/-- One instruction as the scan sees it: the opcode and exactly the operand
lists that num_inst_dst_regs/num_inst_src_regs/tex_offset_num_offset expose
in the source. -/
structure glsl_to_tgsi_instruction where
  op : tgsi_opcode
  dst : List st_dst_reg
  src : List st_src_reg
  tex_offsets : List st_src_reg

/-- The running state of the scan loop (temprename.cpp:1087-1100). -/
structure scan_state where
  line : Int
  loop_id : Int
  if_id : Int
  switch_id : Int
  is_at_end : Bool
  arena : Array prog_scope
  cur_scope : Nat
  access : access_recorder
  deriving Repr

/-- The instruction loop of get_temp_registers_required_lifetimes
(temprename.cpp:1114-1240); `none` models the `return false` on CAL/RET.
Past the end marker the source loop only breaks, so the remaining
instructions are ignored. -/
def scan_go : List glsl_to_tgsi_instruction → scan_state → Option scan_state
  | [], st => some st
  | inst :: rest, st =>
    if st.is_at_end then some st
    else
      match inst.op with
      | .BGNLOOP =>
        let c := scopes_create st.arena (some st.cur_scope)
          prog_scope_type.loop_body st.loop_id
          ((scope_at st.arena st.cur_scope).scope_nesting_depth + 1) st.line
        scan_go rest { st with
          arena := c.1,
          cur_scope := c.2,
          loop_id := st.loop_id + 1,
          line := st.line + 1 }
      | .ENDLOOP =>
        let arena1 := scope_set_end st.arena st.cur_scope st.line
        let parent := (scope_at arena1 st.cur_scope).parent_scope.getD
          st.cur_scope
        scan_go rest { st with
          arena := arena1,
          cur_scope := parent,
          line := st.line + 1 }
      | .IF | .UIF =>
        let acc1 := match inst.src with
          | s :: _ => access_recorder.record_read st.arena st.line
              st.cur_scope s st.access
          | [] => st.access
        let c := scopes_create st.arena (some st.cur_scope)
          prog_scope_type.if_branch st.if_id
          ((scope_at st.arena st.cur_scope).scope_nesting_depth + 1)
          (st.line + 1)
        scan_go rest { st with
          access := acc1,
          arena := c.1,
          cur_scope := c.2,
          if_id := st.if_id + 1,
          line := st.line + 1 }
      | .ELSE =>
        let arena1 := scope_set_end st.arena st.cur_scope (st.line - 1)
        let c := scopes_create arena1
          (scope_at arena1 st.cur_scope).parent_scope
          prog_scope_type.else_branch
          (scope_at arena1 st.cur_scope).scope_id
          (scope_at arena1 st.cur_scope).scope_nesting_depth (st.line + 1)
        scan_go rest { st with
          arena := c.1,
          cur_scope := c.2,
          line := st.line + 1 }
      | .END =>
        let arena1 := scope_set_end st.arena st.cur_scope st.line
        scan_go rest { st with
          arena := arena1,
          is_at_end := true,
          line := st.line + 1 }
      | .ENDIF =>
        let arena1 := scope_set_end st.arena st.cur_scope (st.line - 1)
        let parent := (scope_at arena1 st.cur_scope).parent_scope.getD
          st.cur_scope
        scan_go rest { st with
          arena := arena1,
          cur_scope := parent,
          line := st.line + 1 }
      | .SWITCH =>
        let c := scopes_create st.arena (some st.cur_scope)
          prog_scope_type.switch_body st.switch_id
          ((scope_at st.arena st.cur_scope).scope_nesting_depth + 1) st.line
        let acc1 := match inst.src with
          | s :: _ => access_recorder.record_read c.1 st.line st.cur_scope
              s st.access
          | [] => st.access
        scan_go rest { st with
          access := acc1,
          arena := c.1,
          cur_scope := c.2,
          switch_id := st.switch_id + 1,
          line := st.line + 1 }
      | .ENDSWITCH =>
        let arena1 := scope_set_end st.arena st.cur_scope (st.line - 1)
        let cur1 := if (scope_at arena1 st.cur_scope).scope_type
              ≠ prog_scope_type.switch_body then
            (scope_at arena1 st.cur_scope).parent_scope.getD st.cur_scope
          else st.cur_scope
        let cur2 := (scope_at arena1 cur1).parent_scope.getD cur1
        scan_go rest { st with
          arena := arena1,
          cur_scope := cur2,
          line := st.line + 1 }
      | .CASE =>
        let switch_scope := if (scope_at st.arena st.cur_scope).scope_type
              = prog_scope_type.switch_body then st.cur_scope
          else (scope_at st.arena st.cur_scope).parent_scope.getD
            st.cur_scope
        let acc1 := match inst.src with
          | s :: _ => access_recorder.record_read st.arena st.line
              switch_scope s st.access
          | [] => st.access
        let c := scopes_create st.arena (some switch_scope)
          prog_scope_type.switch_case_branch
          (scope_at st.arena switch_scope).scope_id
          ((scope_at st.arena switch_scope).scope_nesting_depth + 1) st.line
        let arena2 := if st.cur_scope ≠ switch_scope ∧
            (scope_at c.1 st.cur_scope).scope_end = -1 then
            scope_set_end c.1 st.cur_scope (st.line - 1)
          else c.1
        scan_go rest { st with
          access := acc1,
          arena := arena2,
          cur_scope := c.2,
          line := st.line + 1 }
      | .DEFAULT =>
        let switch_scope := if (scope_at st.arena st.cur_scope).scope_type
              = prog_scope_type.switch_body then st.cur_scope
          else (scope_at st.arena st.cur_scope).parent_scope.getD
            st.cur_scope
        let c := scopes_create st.arena (some switch_scope)
          prog_scope_type.switch_default_branch
          (scope_at st.arena switch_scope).scope_id
          ((scope_at st.arena switch_scope).scope_nesting_depth + 1) st.line
        let arena2 := if st.cur_scope ≠ switch_scope ∧
            (scope_at c.1 st.cur_scope).scope_end = -1 then
            scope_set_end c.1 st.cur_scope (st.line - 1)
          else c.1
        scan_go rest { st with
          arena := arena2,
          cur_scope := c.2,
          line := st.line + 1 }
      | .BRK =>
        let arena1 := if break_is_for_switchcase st.arena st.arena.size
            st.cur_scope then
            scope_set_end st.arena st.cur_scope (st.line - 1)
          else
            set_loop_break_line st.arena st.arena.size st.cur_scope st.line
        scan_go rest { st with
          arena := arena1,
          line := st.line + 1 }
      | .CAL => none
      | .RET => none
      | _ =>
        let acc1 := inst.src.foldl (fun a s =>
          access_recorder.record_read st.arena st.line st.cur_scope s a)
          st.access
        let acc2 := inst.tex_offsets.foldl (fun a s =>
          access_recorder.record_read st.arena st.line st.cur_scope s a)
          acc1
        let acc3 := inst.dst.foldl (fun a d =>
          access_recorder.record_write st.arena st.line st.cur_scope d a)
          acc2
        scan_go rest { st with
          access := acc3,
          line := st.line + 1 }

/-- get_temp_registers_required_lifetimes (temprename.cpp:1080-1252): `none`
models the `return false` taken on CAL/RET; otherwise the scan closes the
last scope and evaluates all lifetimes. The array lifetime records start out
as the degenerate (-1, -1, 0); the source leaves the caller-allocated records
untouched only for never-accessed arrays (where it dereferences a null scope
pointer). -/
def get_temp_registers_required_lifetimes
    (instructions : List glsl_to_tgsi_instruction) (ntemps narrays : Nat) :
    Option (Array register_lifetime × Array array_lifetime) :=
  let st0 : scan_state :=
    { line := 0, loop_id := 1, if_id := 1, switch_id := 0, is_at_end := false,
      arena := #[prog_scope.make none prog_scope_type.outer_scope 0 0 0],
      cur_scope := 0,
      access := { acc := Array.mkArray ntemps default,
                  arr := Array.mkArray narrays default } }
  match scan_go instructions st0 with
  | none => none
  | some st =>
    let arena1 := if (scope_at st.arena st.cur_scope).scope_end < 0 then
        scope_set_end st.arena st.cur_scope (st.line - 1)
      else st.arena
    some (st.access.acc.map (fun ta => ta.get_required_lifetime arena1),
      st.access.arr.map (fun aa => aa.get_required_lifetime arena1 default))

/-- An instruction list contains a CAL or RET opcode before the first END
marker. -/
def contains_call_before_end : List glsl_to_tgsi_instruction → Bool
  | [] => false
  | inst :: rest =>
    match inst.op with
    | .CAL => true
    | .RET => true
    | .END => false
    | _ => contains_call_before_end rest

theorem scan_go_at_end :
    ∀ (l : List glsl_to_tgsi_instruction) (st : scan_state),
      st.is_at_end = true → scan_go l st = some st
  | [], _ => fun _ => rfl
  | _ :: _, st => fun h => by simp [scan_go, h]

theorem scan_go_none_iff :
    ∀ (l : List glsl_to_tgsi_instruction) (st : scan_state),
      st.is_at_end = false →
      (scan_go l st = none ↔ contains_call_before_end l = true)
  | [], st => fun h => by simp [scan_go, contains_call_before_end]
  | inst :: rest, st => fun h => by
    obtain ⟨op, dst, src, tex⟩ := inst
    cases op <;>
      simp only [scan_go, contains_call_before_end, h, Bool.false_eq_true,
        if_false] <;>
      first
        | exact scan_go_none_iff rest _ rfl
        | (rw [scan_go_at_end rest _ rfl]; simp)

/-- C1: For every instruction list, the lifetime computation
(get_temp_registers_required_lifetimes) returns failure (none, the `return
false` of the source) if and only if the list contains a CAL or RET opcode
before the end marker; on any list without call/return before END it
completes the scan and returns the register and array lifetimes. -/
theorem get_temp_registers_required_lifetimes_fails_iff_call
    (instructions : List glsl_to_tgsi_instruction) (ntemps narrays : Nat) :
    get_temp_registers_required_lifetimes instructions ntemps narrays = none
      ↔ contains_call_before_end instructions = true := by
  simp only [get_temp_registers_required_lifetimes]
  rcases hs : scan_go instructions
    { line := 0, loop_id := 1, if_id := 1, switch_id := 0, is_at_end := false,
      arena := #[prog_scope.make none prog_scope_type.outer_scope 0 0 0],
      cur_scope := 0,
      access := { acc := Array.mkArray ntemps default,
                  arr := Array.mkArray narrays default } } with _ | st
  · simp only []
    constructor
    · intro _
      exact (scan_go_none_iff instructions
        { line := 0, loop_id := 1, if_id := 1, switch_id := 0,
          is_at_end := false,
          arena := #[prog_scope.make none prog_scope_type.outer_scope 0 0 0],
          cur_scope := 0,
          access := { acc := Array.mkArray ntemps default,
                      arr := Array.mkArray narrays default } } rfl).mp hs
    · intro _
      trivial
  · simp only []
    constructor
    · intro hx
      exact absurd hx (by simp)
    · intro hc
      have h2 := (scan_go_none_iff instructions
        { line := 0, loop_id := 1, if_id := 1, switch_id := 0,
          is_at_end := false,
          arena := #[prog_scope.make none prog_scope_type.outer_scope 0 0 0],
          cur_scope := 0,
          access := { acc := Array.mkArray ntemps default,
                      arr := Array.mkArray narrays default } } rfl).mpr hc
      rw [hs] at h2
      exact absurd h2 (by simp)

theorem record_if_write_last_read_scope (arena : Array prog_scope)
    (scope : Nat) (t : temp_comp_access) :
    (t.record_if_write arena scope).last_read_scope = t.last_read_scope := by
  simp only [temp_comp_access.record_if_write]
  split <;> rfl

theorem record_ifelse_write_last_read_scope (arena : Array prog_scope) :
    ∀ (fuel : Nat) (scope : Nat) (t : temp_comp_access),
      (temp_comp_access.record_ifelse_write arena fuel scope t).last_read_scope
        = t.last_read_scope
  | 0, _, _ => rfl
  | fuel + 1, scope, t => by
    simp only [temp_comp_access.record_ifelse_write]
    repeat' split
    all_goals
      first
        | rw [record_if_write_last_read_scope]
        | rw [record_ifelse_write_last_read_scope arena fuel]
        | rfl

theorem record_write_last_read_scope (arena : Array prog_scope) (line : Int)
    (scope : Nat) (t : temp_comp_access) :
    (t.record_write arena line scope).last_read_scope
      = t.last_read_scope := by
  simp only [temp_comp_access.record_write]
  repeat' split
  all_goals
    first
      | rw [record_ifelse_write_last_read_scope]
      | rfl

theorem record_if_write_last_write (arena : Array prog_scope)
    (scope : Nat) (t : temp_comp_access) :
    (t.record_if_write arena scope).last_write = t.last_write := by
  simp only [temp_comp_access.record_if_write]
  split <;> rfl

theorem record_ifelse_write_last_write (arena : Array prog_scope) :
    ∀ (fuel : Nat) (scope : Nat) (t : temp_comp_access),
      (temp_comp_access.record_ifelse_write arena fuel scope t).last_write
        = t.last_write
  | 0, _, _ => rfl
  | fuel + 1, scope, t => by
    simp only [temp_comp_access.record_ifelse_write]
    repeat' split
    all_goals
      first
        | rw [record_if_write_last_write]
        | rw [record_ifelse_write_last_write arena fuel]
        | rfl

theorem record_write_last_write (arena : Array prog_scope) (line : Int)
    (scope : Nat) (t : temp_comp_access) :
    (t.record_write arena line scope).last_write = line := by
  simp only [temp_comp_access.record_write]
  repeat' split
  all_goals
    first
      | rw [record_ifelse_write_last_write]
      | rfl

theorem foldl_record_write_no_read :
    ∀ (events : List (Array prog_scope × Int × Nat)) (t : temp_comp_access),
      t.last_read_scope = none →
      (events.foldl (fun a e =>
        temp_comp_access.record_write e.1 e.2.1 e.2.2 a) t).last_read_scope
        = none
  | [], _ => fun h => h
  | e :: es, t => fun h =>
    foldl_record_write_no_read es _
      ((record_write_last_read_scope e.1 e.2.1 e.2.2 t).trans h)

theorem foldl_record_write_last_write :
    ∀ (events : List (Array prog_scope × Int × Nat)) (t : temp_comp_access),
      (∀ e ∈ events, 0 ≤ e.2.1) → (0 ≤ t.last_write ∨ events ≠ []) →
      0 ≤ (events.foldl (fun a e =>
        temp_comp_access.record_write e.1 e.2.1 e.2.2 a) t).last_write
  | [], t => fun _ h => by
    rcases h with h | h
    · exact h
    · exact absurd rfl h
  | e :: es, t => fun hl _ => by
    refine foldl_record_write_last_write es _ (fun x hx => hl x (by simp [hx]))
      (Or.inl ?_)
    rw [record_write_last_write]
    exact hl e (by simp)

theorem get_required_lifetime_write_only (arena : Array prog_scope)
    (t : temp_comp_access) (hw : 0 ≤ t.last_write)
    (hr : t.last_read_scope = none) :
    t.get_required_lifetime arena = ⟨t.first_write, t.last_write + 1⟩ := by
  unfold temp_comp_access.get_required_lifetime
  rw [if_neg (by omega), hr]

/-- C2: For every register component that is written at least once but never
read, the computed lifetime is exactly (first_write, last_write + 1). Stated
over every nonempty sequence of record_write events with non-negative lines
(each possibly against a different arena snapshot), starting from the
freshly-constructed tracking state. -/
theorem written_never_read_lifetime (arena : Array prog_scope)
    (e0 : Array prog_scope × Int × Nat)
    (events : List (Array prog_scope × Int × Nat))
    (hlines : ∀ e ∈ e0 :: events, 0 ≤ e.2.1) :
    ((e0 :: events).foldl (fun a e =>
        temp_comp_access.record_write e.1 e.2.1 e.2.2 a)
      default).get_required_lifetime arena
    = ⟨((e0 :: events).foldl (fun a e =>
          temp_comp_access.record_write e.1 e.2.1 e.2.2 a)
        default).first_write,
       ((e0 :: events).foldl (fun a e =>
          temp_comp_access.record_write e.1 e.2.1 e.2.2 a)
        default).last_write + 1⟩ := by
  refine get_required_lifetime_write_only arena _ ?_ ?_
  · exact foldl_record_write_last_write (e0 :: events) default hlines
      (Or.inr (by simp))
  · exact foldl_record_write_no_read (e0 :: events) default rfl

theorem written_never_read_lifetime_witness :
    (∀ e ∈ ([(#[prog_scope.make none prog_scope_type.outer_scope 0 0 0],
          2, 0)] :
        List (Array prog_scope × Int × Nat)), 0 ≤ e.2.1) ∧
    (([(#[prog_scope.make none prog_scope_type.outer_scope 0 0 0], (2 : Int),
        (0 : Nat))].foldl (fun a e =>
        temp_comp_access.record_write e.1 e.2.1 e.2.2 a)
      default).get_required_lifetime
        #[prog_scope.make none prog_scope_type.outer_scope 0 0 0]
    = ⟨(([(#[prog_scope.make none prog_scope_type.outer_scope 0 0 0],
            (2 : Int), (0 : Nat))].foldl (fun a e =>
          temp_comp_access.record_write e.1 e.2.1 e.2.2 a)
        default)).first_write,
       (([(#[prog_scope.make none prog_scope_type.outer_scope 0 0 0],
            (2 : Int), (0 : Nat))].foldl (fun a e =>
          temp_comp_access.record_write e.1 e.2.1 e.2.2 a)
        default)).last_write + 1⟩) :=
  ⟨fun e he => by cases List.mem_singleton.mp he; decide,
   written_never_read_lifetime
     #[prog_scope.make none prog_scope_type.outer_scope 0 0 0]
     (#[prog_scope.make none prog_scope_type.outer_scope 0 0 0], 2, 0) []
     (fun e he => by cases List.mem_singleton.mp he; decide)⟩

theorem record_read_last_write (arena : Array prog_scope) (line : Int)
    (scope : Nat) (t : temp_comp_access) :
    (t.record_read arena line scope).last_write = t.last_write := by
  simp only [temp_comp_access.record_read]
  repeat' split
  all_goals rfl

theorem foldl_record_read_last_write :
    ∀ (events : List (Array prog_scope × Int × Nat)) (t : temp_comp_access),
      (events.foldl (fun a e =>
        temp_comp_access.record_read e.1 e.2.1 e.2.2 a) t).last_write
        = t.last_write
  | [], _ => rfl
  | e :: es, t =>
    (foldl_record_read_last_write es _).trans
      (record_read_last_write e.1 e.2.1 e.2.2 t)

/-- C3 (amended to registers): a register component that is never written,
whatever reads it sees (over any sequence of record_read events, each
possibly against a different arena snapshot), keeps last_write = -1 and its
computed lifetime is the valid degenerate range (-1, -1); no failure is
involved. The array half of the original claim is refuted separately: a
read-only array gets its access range, not (-1, -1). -/
theorem never_written_register_lifetime (arena : Array prog_scope)
    (events : List (Array prog_scope × Int × Nat)) :
    (events.foldl (fun a e =>
        temp_comp_access.record_read e.1 e.2.1 e.2.2 a)
      default).get_required_lifetime arena = ⟨-1, -1⟩ := by
  unfold temp_comp_access.get_required_lifetime
  rw [if_pos]
  rw [foldl_record_read_last_write]
  decide

def swizzle_xyzw : Nat := 1672

def src_temp (i : Nat) : st_src_reg :=
  .mk register_file.PROGRAM_TEMPORARY i swizzle_xyzw 0 none none

def src_input (i : Nat) : st_src_reg :=
  .mk register_file.PROGRAM_INPUT i swizzle_xyzw 0 none none

def src_array (aid : Nat) : st_src_reg :=
  .mk register_file.PROGRAM_ARRAY 0 swizzle_xyzw aid none none

def dst_temp (i : Nat) : st_dst_reg :=
  ⟨register_file.PROGRAM_TEMPORARY, i, 15, 0, none, none⟩

def dst_out (i : Nat) : st_dst_reg :=
  ⟨register_file.PROGRAM_OUTPUT, i, 15, 0, none, none⟩

/-- The scan of MOV out0, arr1; END with one temporary and one array that is
only read. -/
def read_only_array_scenario :
    Option (Array register_lifetime × Array array_lifetime) :=
  get_temp_registers_required_lifetimes
    [⟨tgsi_opcode.MOV, [dst_out 0], [src_array 1], []⟩,
     ⟨tgsi_opcode.END, [], [], []⟩] 1 1

set_option maxHeartbeats 1000000 in
/-- C3 counterexample: an array that is read but never written does not get
the degenerate (-1, -1) range; array_access::get_required_lifetime has no
early return for write-free arrays and yields the access range (0, 0). -/
theorem read_only_array_lifetime_not_degenerate :
    (read_only_array_scenario.map (fun r => (r.2.getD 0 default).rbegin)
        = some 0 ∧
     read_only_array_scenario.map (fun r => (r.2.getD 0 default).rend)
        = some 0) ∧
    ¬ read_only_array_scenario.map (fun r => (r.2.getD 0 default).rbegin)
        = some (-1) := by
  have h : read_only_array_scenario.map
      (fun r => ((r.2.getD 0 default).rbegin, (r.2.getD 0 default).rend))
      = some (0, 0) := rfl
  have h1 : read_only_array_scenario.map
      (fun r => (r.2.getD 0 default).rbegin) = some 0 := by
    rcases hx : read_only_array_scenario with _ | r
    · rw [hx] at h
      exact absurd h (by simp)
    · rw [hx] at h
      simp only [Option.map_some'] at h ⊢
      have h' := Option.some.inj h
      rw [Prod.mk.injEq] at h'
      rw [h'.1]
  have h2 : read_only_array_scenario.map
      (fun r => (r.2.getD 0 default).rend) = some 0 := by
    rcases hx : read_only_array_scenario with _ | r
    · rw [hx] at h
      exact absurd h (by simp)
    · rw [hx] at h
      simp only [Option.map_some'] at h ⊢
      have h' := Option.some.inj h
      rw [Prod.mk.injEq] at h'
      rw [h'.2]
  refine ⟨⟨h1, h2⟩, ?_⟩
  rw [h1]
  simp


/-- The C6 scenario program: MOV t1,in0; BGNLOOP; IF in0; BRK; ENDIF;
MOV t1,in0; ENDLOOP; MOV out0,t1; END (lines 0-8). -/
def lbs_prog : List glsl_to_tgsi_instruction :=
  [⟨tgsi_opcode.MOV, [dst_temp 1], [src_input 0], []⟩,
   ⟨tgsi_opcode.BGNLOOP, [], [], []⟩,
   ⟨tgsi_opcode.IF, [], [src_input 0], []⟩,
   ⟨tgsi_opcode.BRK, [], [], []⟩,
   ⟨tgsi_opcode.ENDIF, [], [], []⟩,
   ⟨tgsi_opcode.MOV, [dst_temp 1], [src_input 0], []⟩,
   ⟨tgsi_opcode.ENDLOOP, [], [], []⟩,
   ⟨tgsi_opcode.MOV, [dst_out 0], [src_temp 1], []⟩,
   ⟨tgsi_opcode.END, [], [], []⟩]

def lbs_st0 : scan_state :=
  { line := 0, loop_id := 1, if_id := 1, switch_id := 0, is_at_end := false,
    arena := #[prog_scope.make none prog_scope_type.outer_scope 0 0 0],
    cur_scope := 0,
    access := { acc := Array.mkArray 2 default,
                arr := Array.mkArray 0 default } }

/-! The scan states after each instruction of lbs_prog, spelled out so that
the scan can be replayed one cheap definitional step at a time. -/

def lbs_st1 : scan_state :=
  { line := 1,
    loop_id := 1,
    if_id := 1,
    switch_id := 0,
    is_at_end := false,
    arena := #[{ scope_type := prog_scope_type.outer_scope,
                 scope_id := 0,
                 scope_nesting_depth := 0,
                 scope_begin := 0,
                 scope_end := -1,
                 break_loop_line := 2147483647,
                 parent_scope := none }],
    cur_scope := 0,
    access := { acc := #[{ comp := #[{ last_read_scope := none,
                                       first_read_scope := none,
                                       first_write_scope := none,
                                       first_write := -1,
                                       last_read := -1,
                                       last_write := -1,
                                       first_read := 2147483647,
                                       conditionality_in_loop_id := 2147483647,
                                       if_scope_write_flags := 0,
                                       next_ifelse_nesting_depth := 0,
                                       current_unpaired_if_write_scope := none,
                                       was_written_in_current_else_scope := false },
                                     { last_read_scope := none,
                                       first_read_scope := none,
                                       first_write_scope := none,
                                       first_write := -1,
                                       last_read := -1,
                                       last_write := -1,
                                       first_read := 2147483647,
                                       conditionality_in_loop_id := 2147483647,
                                       if_scope_write_flags := 0,
                                       next_ifelse_nesting_depth := 0,
                                       current_unpaired_if_write_scope := none,
                                       was_written_in_current_else_scope := false },
                                     { last_read_scope := none,
                                       first_read_scope := none,
                                       first_write_scope := none,
                                       first_write := -1,
                                       last_read := -1,
                                       last_write := -1,
                                       first_read := 2147483647,
                                       conditionality_in_loop_id := 2147483647,
                                       if_scope_write_flags := 0,
                                       next_ifelse_nesting_depth := 0,
                                       current_unpaired_if_write_scope := none,
                                       was_written_in_current_else_scope := false },
                                     { last_read_scope := none,
                                       first_read_scope := none,
                                       first_write_scope := none,
                                       first_write := -1,
                                       last_read := -1,
                                       last_write := -1,
                                       first_read := 2147483647,
                                       conditionality_in_loop_id := 2147483647,
                                       if_scope_write_flags := 0,
                                       next_ifelse_nesting_depth := 0,
                                       current_unpaired_if_write_scope := none,
                                       was_written_in_current_else_scope := false }],
                           access_mask := 0,
                           needs_component_tracking := false },
                         { comp := #[{ last_read_scope := none,
                                       first_read_scope := none,
                                       first_write_scope := some 0,
                                       first_write := 0,
                                       last_read := -1,
                                       last_write := 0,
                                       first_read := 2147483647,
                                       conditionality_in_loop_id := 2147483647,
                                       if_scope_write_flags := 0,
                                       next_ifelse_nesting_depth := 0,
                                       current_unpaired_if_write_scope := none,
                                       was_written_in_current_else_scope := false },
                                     { last_read_scope := none,
                                       first_read_scope := none,
                                       first_write_scope := some 0,
                                       first_write := 0,
                                       last_read := -1,
                                       last_write := 0,
                                       first_read := 2147483647,
                                       conditionality_in_loop_id := 2147483647,
                                       if_scope_write_flags := 0,
                                       next_ifelse_nesting_depth := 0,
                                       current_unpaired_if_write_scope := none,
                                       was_written_in_current_else_scope := false },
                                     { last_read_scope := none,
                                       first_read_scope := none,
                                       first_write_scope := some 0,
                                       first_write := 0,
                                       last_read := -1,
                                       last_write := 0,
                                       first_read := 2147483647,
                                       conditionality_in_loop_id := 2147483647,
                                       if_scope_write_flags := 0,
                                       next_ifelse_nesting_depth := 0,
                                       current_unpaired_if_write_scope := none,
                                       was_written_in_current_else_scope := false },
                                     { last_read_scope := none,
                                       first_read_scope := none,
                                       first_write_scope := some 0,
                                       first_write := 0,
                                       last_read := -1,
                                       last_write := 0,
                                       first_read := 2147483647,
                                       conditionality_in_loop_id := 2147483647,
                                       if_scope_write_flags := 0,
                                       next_ifelse_nesting_depth := 0,
                                       current_unpaired_if_write_scope := none,
                                       was_written_in_current_else_scope := false }],
                           access_mask := 15,
                           needs_component_tracking := false }],
                arr := #[] } }

def lbs_st2 : scan_state :=
  { line := 2,
    loop_id := 2,
    if_id := 1,
    switch_id := 0,
    is_at_end := false,
    arena := #[{ scope_type := prog_scope_type.outer_scope,
                 scope_id := 0,
                 scope_nesting_depth := 0,
                 scope_begin := 0,
                 scope_end := -1,
                 break_loop_line := 2147483647,
                 parent_scope := none },
               { scope_type := prog_scope_type.loop_body,
                 scope_id := 1,
                 scope_nesting_depth := 1,
                 scope_begin := 1,
                 scope_end := -1,
                 break_loop_line := 2147483647,
                 parent_scope := some 0 }],
    cur_scope := 1,
    access := { acc := #[{ comp := #[{ last_read_scope := none,
                                       first_read_scope := none,
                                       first_write_scope := none,
                                       first_write := -1,
                                       last_read := -1,
                                       last_write := -1,
                                       first_read := 2147483647,
                                       conditionality_in_loop_id := 2147483647,
                                       if_scope_write_flags := 0,
                                       next_ifelse_nesting_depth := 0,
                                       current_unpaired_if_write_scope := none,
                                       was_written_in_current_else_scope := false },
                                     { last_read_scope := none,
                                       first_read_scope := none,
                                       first_write_scope := none,
                                       first_write := -1,
                                       last_read := -1,
                                       last_write := -1,
                                       first_read := 2147483647,
                                       conditionality_in_loop_id := 2147483647,
                                       if_scope_write_flags := 0,
                                       next_ifelse_nesting_depth := 0,
                                       current_unpaired_if_write_scope := none,
                                       was_written_in_current_else_scope := false },
                                     { last_read_scope := none,
                                       first_read_scope := none,
                                       first_write_scope := none,
                                       first_write := -1,
                                       last_read := -1,
                                       last_write := -1,
                                       first_read := 2147483647,
                                       conditionality_in_loop_id := 2147483647,
                                       if_scope_write_flags := 0,
                                       next_ifelse_nesting_depth := 0,
                                       current_unpaired_if_write_scope := none,
                                       was_written_in_current_else_scope := false },
                                     { last_read_scope := none,
                                       first_read_scope := none,
                                       first_write_scope := none,
                                       first_write := -1,
                                       last_read := -1,
                                       last_write := -1,
                                       first_read := 2147483647,
                                       conditionality_in_loop_id := 2147483647,
                                       if_scope_write_flags := 0,
                                       next_ifelse_nesting_depth := 0,
                                       current_unpaired_if_write_scope := none,
                                       was_written_in_current_else_scope := false }],
                           access_mask := 0,
                           needs_component_tracking := false },
                         { comp := #[{ last_read_scope := none,
                                       first_read_scope := none,
                                       first_write_scope := some 0,
                                       first_write := 0,
                                       last_read := -1,
                                       last_write := 0,
                                       first_read := 2147483647,
                                       conditionality_in_loop_id := 2147483647,
                                       if_scope_write_flags := 0,
                                       next_ifelse_nesting_depth := 0,
                                       current_unpaired_if_write_scope := none,
                                       was_written_in_current_else_scope := false },
                                     { last_read_scope := none,
                                       first_read_scope := none,
                                       first_write_scope := some 0,
                                       first_write := 0,
                                       last_read := -1,
                                       last_write := 0,
                                       first_read := 2147483647,
                                       conditionality_in_loop_id := 2147483647,
                                       if_scope_write_flags := 0,
                                       next_ifelse_nesting_depth := 0,
                                       current_unpaired_if_write_scope := none,
                                       was_written_in_current_else_scope := false },
                                     { last_read_scope := none,
                                       first_read_scope := none,
                                       first_write_scope := some 0,
                                       first_write := 0,
                                       last_read := -1,
                                       last_write := 0,
                                       first_read := 2147483647,
                                       conditionality_in_loop_id := 2147483647,
                                       if_scope_write_flags := 0,
                                       next_ifelse_nesting_depth := 0,
                                       current_unpaired_if_write_scope := none,
                                       was_written_in_current_else_scope := false },
                                     { last_read_scope := none,
                                       first_read_scope := none,
                                       first_write_scope := some 0,
                                       first_write := 0,
                                       last_read := -1,
                                       last_write := 0,
                                       first_read := 2147483647,
                                       conditionality_in_loop_id := 2147483647,
                                       if_scope_write_flags := 0,
                                       next_ifelse_nesting_depth := 0,
                                       current_unpaired_if_write_scope := none,
                                       was_written_in_current_else_scope := false }],
                           access_mask := 15,
                           needs_component_tracking := false }],
                arr := #[] } }

def lbs_st3 : scan_state :=
  { line := 3,
    loop_id := 2,
    if_id := 2,
    switch_id := 0,
    is_at_end := false,
    arena := #[{ scope_type := prog_scope_type.outer_scope,
                 scope_id := 0,
                 scope_nesting_depth := 0,
                 scope_begin := 0,
                 scope_end := -1,
                 break_loop_line := 2147483647,
                 parent_scope := none },
               { scope_type := prog_scope_type.loop_body,
                 scope_id := 1,
                 scope_nesting_depth := 1,
                 scope_begin := 1,
                 scope_end := -1,
                 break_loop_line := 2147483647,
                 parent_scope := some 0 },
               { scope_type := prog_scope_type.if_branch,
                 scope_id := 1,
                 scope_nesting_depth := 2,
                 scope_begin := 3,
                 scope_end := -1,
                 break_loop_line := 2147483647,
                 parent_scope := some 1 }],
    cur_scope := 2,
    access := { acc := #[{ comp := #[{ last_read_scope := none,
                                       first_read_scope := none,
                                       first_write_scope := none,
                                       first_write := -1,
                                       last_read := -1,
                                       last_write := -1,
                                       first_read := 2147483647,
                                       conditionality_in_loop_id := 2147483647,
                                       if_scope_write_flags := 0,
                                       next_ifelse_nesting_depth := 0,
                                       current_unpaired_if_write_scope := none,
                                       was_written_in_current_else_scope := false },
                                     { last_read_scope := none,
                                       first_read_scope := none,
                                       first_write_scope := none,
                                       first_write := -1,
                                       last_read := -1,
                                       last_write := -1,
                                       first_read := 2147483647,
                                       conditionality_in_loop_id := 2147483647,
                                       if_scope_write_flags := 0,
                                       next_ifelse_nesting_depth := 0,
                                       current_unpaired_if_write_scope := none,
                                       was_written_in_current_else_scope := false },
                                     { last_read_scope := none,
                                       first_read_scope := none,
                                       first_write_scope := none,
                                       first_write := -1,
                                       last_read := -1,
                                       last_write := -1,
                                       first_read := 2147483647,
                                       conditionality_in_loop_id := 2147483647,
                                       if_scope_write_flags := 0,
                                       next_ifelse_nesting_depth := 0,
                                       current_unpaired_if_write_scope := none,
                                       was_written_in_current_else_scope := false },
                                     { last_read_scope := none,
                                       first_read_scope := none,
                                       first_write_scope := none,
                                       first_write := -1,
                                       last_read := -1,
                                       last_write := -1,
                                       first_read := 2147483647,
                                       conditionality_in_loop_id := 2147483647,
                                       if_scope_write_flags := 0,
                                       next_ifelse_nesting_depth := 0,
                                       current_unpaired_if_write_scope := none,
                                       was_written_in_current_else_scope := false }],
                           access_mask := 0,
                           needs_component_tracking := false },
                         { comp := #[{ last_read_scope := none,
                                       first_read_scope := none,
                                       first_write_scope := some 0,
                                       first_write := 0,
                                       last_read := -1,
                                       last_write := 0,
                                       first_read := 2147483647,
                                       conditionality_in_loop_id := 2147483647,
                                       if_scope_write_flags := 0,
                                       next_ifelse_nesting_depth := 0,
                                       current_unpaired_if_write_scope := none,
                                       was_written_in_current_else_scope := false },
                                     { last_read_scope := none,
                                       first_read_scope := none,
                                       first_write_scope := some 0,
                                       first_write := 0,
                                       last_read := -1,
                                       last_write := 0,
                                       first_read := 2147483647,
                                       conditionality_in_loop_id := 2147483647,
                                       if_scope_write_flags := 0,
                                       next_ifelse_nesting_depth := 0,
                                       current_unpaired_if_write_scope := none,
                                       was_written_in_current_else_scope := false },
                                     { last_read_scope := none,
                                       first_read_scope := none,
                                       first_write_scope := some 0,
                                       first_write := 0,
                                       last_read := -1,
                                       last_write := 0,
                                       first_read := 2147483647,
                                       conditionality_in_loop_id := 2147483647,
                                       if_scope_write_flags := 0,
                                       next_ifelse_nesting_depth := 0,
                                       current_unpaired_if_write_scope := none,
                                       was_written_in_current_else_scope := false },
                                     { last_read_scope := none,
                                       first_read_scope := none,
                                       first_write_scope := some 0,
                                       first_write := 0,
                                       last_read := -1,
                                       last_write := 0,
                                       first_read := 2147483647,
                                       conditionality_in_loop_id := 2147483647,
                                       if_scope_write_flags := 0,
                                       next_ifelse_nesting_depth := 0,
                                       current_unpaired_if_write_scope := none,
                                       was_written_in_current_else_scope := false }],
                           access_mask := 15,
                           needs_component_tracking := false }],
                arr := #[] } }

def lbs_st4 : scan_state :=
  { line := 4,
    loop_id := 2,
    if_id := 2,
    switch_id := 0,
    is_at_end := false,
    arena := #[{ scope_type := prog_scope_type.outer_scope,
                 scope_id := 0,
                 scope_nesting_depth := 0,
                 scope_begin := 0,
                 scope_end := -1,
                 break_loop_line := 2147483647,
                 parent_scope := none },
               { scope_type := prog_scope_type.loop_body,
                 scope_id := 1,
                 scope_nesting_depth := 1,
                 scope_begin := 1,
                 scope_end := -1,
                 break_loop_line := 3,
                 parent_scope := some 0 },
               { scope_type := prog_scope_type.if_branch,
                 scope_id := 1,
                 scope_nesting_depth := 2,
                 scope_begin := 3,
                 scope_end := -1,
                 break_loop_line := 2147483647,
                 parent_scope := some 1 }],
    cur_scope := 2,
    access := { acc := #[{ comp := #[{ last_read_scope := none,
                                       first_read_scope := none,
                                       first_write_scope := none,
                                       first_write := -1,
                                       last_read := -1,
                                       last_write := -1,
                                       first_read := 2147483647,
                                       conditionality_in_loop_id := 2147483647,
                                       if_scope_write_flags := 0,
                                       next_ifelse_nesting_depth := 0,
                                       current_unpaired_if_write_scope := none,
                                       was_written_in_current_else_scope := false },
                                     { last_read_scope := none,
                                       first_read_scope := none,
                                       first_write_scope := none,
                                       first_write := -1,
                                       last_read := -1,
                                       last_write := -1,
                                       first_read := 2147483647,
                                       conditionality_in_loop_id := 2147483647,
                                       if_scope_write_flags := 0,
                                       next_ifelse_nesting_depth := 0,
                                       current_unpaired_if_write_scope := none,
                                       was_written_in_current_else_scope := false },
                                     { last_read_scope := none,
                                       first_read_scope := none,
                                       first_write_scope := none,
                                       first_write := -1,
                                       last_read := -1,
                                       last_write := -1,
                                       first_read := 2147483647,
                                       conditionality_in_loop_id := 2147483647,
                                       if_scope_write_flags := 0,
                                       next_ifelse_nesting_depth := 0,
                                       current_unpaired_if_write_scope := none,
                                       was_written_in_current_else_scope := false },
                                     { last_read_scope := none,
                                       first_read_scope := none,
                                       first_write_scope := none,
                                       first_write := -1,
                                       last_read := -1,
                                       last_write := -1,
                                       first_read := 2147483647,
                                       conditionality_in_loop_id := 2147483647,
                                       if_scope_write_flags := 0,
                                       next_ifelse_nesting_depth := 0,
                                       current_unpaired_if_write_scope := none,
                                       was_written_in_current_else_scope := false }],
                           access_mask := 0,
                           needs_component_tracking := false },
                         { comp := #[{ last_read_scope := none,
                                       first_read_scope := none,
                                       first_write_scope := some 0,
                                       first_write := 0,
                                       last_read := -1,
                                       last_write := 0,
                                       first_read := 2147483647,
                                       conditionality_in_loop_id := 2147483647,
                                       if_scope_write_flags := 0,
                                       next_ifelse_nesting_depth := 0,
                                       current_unpaired_if_write_scope := none,
                                       was_written_in_current_else_scope := false },
                                     { last_read_scope := none,
                                       first_read_scope := none,
                                       first_write_scope := some 0,
                                       first_write := 0,
                                       last_read := -1,
                                       last_write := 0,
                                       first_read := 2147483647,
                                       conditionality_in_loop_id := 2147483647,
                                       if_scope_write_flags := 0,
                                       next_ifelse_nesting_depth := 0,
                                       current_unpaired_if_write_scope := none,
                                       was_written_in_current_else_scope := false },
                                     { last_read_scope := none,
                                       first_read_scope := none,
                                       first_write_scope := some 0,
                                       first_write := 0,
                                       last_read := -1,
                                       last_write := 0,
                                       first_read := 2147483647,
                                       conditionality_in_loop_id := 2147483647,
                                       if_scope_write_flags := 0,
                                       next_ifelse_nesting_depth := 0,
                                       current_unpaired_if_write_scope := none,
                                       was_written_in_current_else_scope := false },
                                     { last_read_scope := none,
                                       first_read_scope := none,
                                       first_write_scope := some 0,
                                       first_write := 0,
                                       last_read := -1,
                                       last_write := 0,
                                       first_read := 2147483647,
                                       conditionality_in_loop_id := 2147483647,
                                       if_scope_write_flags := 0,
                                       next_ifelse_nesting_depth := 0,
                                       current_unpaired_if_write_scope := none,
                                       was_written_in_current_else_scope := false }],
                           access_mask := 15,
                           needs_component_tracking := false }],
                arr := #[] } }

def lbs_st5 : scan_state :=
  { line := 5,
    loop_id := 2,
    if_id := 2,
    switch_id := 0,
    is_at_end := false,
    arena := #[{ scope_type := prog_scope_type.outer_scope,
                 scope_id := 0,
                 scope_nesting_depth := 0,
                 scope_begin := 0,
                 scope_end := -1,
                 break_loop_line := 2147483647,
                 parent_scope := none },
               { scope_type := prog_scope_type.loop_body,
                 scope_id := 1,
                 scope_nesting_depth := 1,
                 scope_begin := 1,
                 scope_end := -1,
                 break_loop_line := 3,
                 parent_scope := some 0 },
               { scope_type := prog_scope_type.if_branch,
                 scope_id := 1,
                 scope_nesting_depth := 2,
                 scope_begin := 3,
                 scope_end := 3,
                 break_loop_line := 2147483647,
                 parent_scope := some 1 }],
    cur_scope := 1,
    access := { acc := #[{ comp := #[{ last_read_scope := none,
                                       first_read_scope := none,
                                       first_write_scope := none,
                                       first_write := -1,
                                       last_read := -1,
                                       last_write := -1,
                                       first_read := 2147483647,
                                       conditionality_in_loop_id := 2147483647,
                                       if_scope_write_flags := 0,
                                       next_ifelse_nesting_depth := 0,
                                       current_unpaired_if_write_scope := none,
                                       was_written_in_current_else_scope := false },
                                     { last_read_scope := none,
                                       first_read_scope := none,
                                       first_write_scope := none,
                                       first_write := -1,
                                       last_read := -1,
                                       last_write := -1,
                                       first_read := 2147483647,
                                       conditionality_in_loop_id := 2147483647,
                                       if_scope_write_flags := 0,
                                       next_ifelse_nesting_depth := 0,
                                       current_unpaired_if_write_scope := none,
                                       was_written_in_current_else_scope := false },
                                     { last_read_scope := none,
                                       first_read_scope := none,
                                       first_write_scope := none,
                                       first_write := -1,
                                       last_read := -1,
                                       last_write := -1,
                                       first_read := 2147483647,
                                       conditionality_in_loop_id := 2147483647,
                                       if_scope_write_flags := 0,
                                       next_ifelse_nesting_depth := 0,
                                       current_unpaired_if_write_scope := none,
                                       was_written_in_current_else_scope := false },
                                     { last_read_scope := none,
                                       first_read_scope := none,
                                       first_write_scope := none,
                                       first_write := -1,
                                       last_read := -1,
                                       last_write := -1,
                                       first_read := 2147483647,
                                       conditionality_in_loop_id := 2147483647,
                                       if_scope_write_flags := 0,
                                       next_ifelse_nesting_depth := 0,
                                       current_unpaired_if_write_scope := none,
                                       was_written_in_current_else_scope := false }],
                           access_mask := 0,
                           needs_component_tracking := false },
                         { comp := #[{ last_read_scope := none,
                                       first_read_scope := none,
                                       first_write_scope := some 0,
                                       first_write := 0,
                                       last_read := -1,
                                       last_write := 0,
                                       first_read := 2147483647,
                                       conditionality_in_loop_id := 2147483647,
                                       if_scope_write_flags := 0,
                                       next_ifelse_nesting_depth := 0,
                                       current_unpaired_if_write_scope := none,
                                       was_written_in_current_else_scope := false },
                                     { last_read_scope := none,
                                       first_read_scope := none,
                                       first_write_scope := some 0,
                                       first_write := 0,
                                       last_read := -1,
                                       last_write := 0,
                                       first_read := 2147483647,
                                       conditionality_in_loop_id := 2147483647,
                                       if_scope_write_flags := 0,
                                       next_ifelse_nesting_depth := 0,
                                       current_unpaired_if_write_scope := none,
                                       was_written_in_current_else_scope := false },
                                     { last_read_scope := none,
                                       first_read_scope := none,
                                       first_write_scope := some 0,
                                       first_write := 0,
                                       last_read := -1,
                                       last_write := 0,
                                       first_read := 2147483647,
                                       conditionality_in_loop_id := 2147483647,
                                       if_scope_write_flags := 0,
                                       next_ifelse_nesting_depth := 0,
                                       current_unpaired_if_write_scope := none,
                                       was_written_in_current_else_scope := false },
                                     { last_read_scope := none,
                                       first_read_scope := none,
                                       first_write_scope := some 0,
                                       first_write := 0,
                                       last_read := -1,
                                       last_write := 0,
                                       first_read := 2147483647,
                                       conditionality_in_loop_id := 2147483647,
                                       if_scope_write_flags := 0,
                                       next_ifelse_nesting_depth := 0,
                                       current_unpaired_if_write_scope := none,
                                       was_written_in_current_else_scope := false }],
                           access_mask := 15,
                           needs_component_tracking := false }],
                arr := #[] } }

def lbs_st6 : scan_state :=
  { line := 6,
    loop_id := 2,
    if_id := 2,
    switch_id := 0,
    is_at_end := false,
    arena := #[{ scope_type := prog_scope_type.outer_scope,
                 scope_id := 0,
                 scope_nesting_depth := 0,
                 scope_begin := 0,
                 scope_end := -1,
                 break_loop_line := 2147483647,
                 parent_scope := none },
               { scope_type := prog_scope_type.loop_body,
                 scope_id := 1,
                 scope_nesting_depth := 1,
                 scope_begin := 1,
                 scope_end := -1,
                 break_loop_line := 3,
                 parent_scope := some 0 },
               { scope_type := prog_scope_type.if_branch,
                 scope_id := 1,
                 scope_nesting_depth := 2,
                 scope_begin := 3,
                 scope_end := 3,
                 break_loop_line := 2147483647,
                 parent_scope := some 1 }],
    cur_scope := 1,
    access := { acc := #[{ comp := #[{ last_read_scope := none,
                                       first_read_scope := none,
                                       first_write_scope := none,
                                       first_write := -1,
                                       last_read := -1,
                                       last_write := -1,
                                       first_read := 2147483647,
                                       conditionality_in_loop_id := 2147483647,
                                       if_scope_write_flags := 0,
                                       next_ifelse_nesting_depth := 0,
                                       current_unpaired_if_write_scope := none,
                                       was_written_in_current_else_scope := false },
                                     { last_read_scope := none,
                                       first_read_scope := none,
                                       first_write_scope := none,
                                       first_write := -1,
                                       last_read := -1,
                                       last_write := -1,
                                       first_read := 2147483647,
                                       conditionality_in_loop_id := 2147483647,
                                       if_scope_write_flags := 0,
                                       next_ifelse_nesting_depth := 0,
                                       current_unpaired_if_write_scope := none,
                                       was_written_in_current_else_scope := false },
                                     { last_read_scope := none,
                                       first_read_scope := none,
                                       first_write_scope := none,
                                       first_write := -1,
                                       last_read := -1,
                                       last_write := -1,
                                       first_read := 2147483647,
                                       conditionality_in_loop_id := 2147483647,
                                       if_scope_write_flags := 0,
                                       next_ifelse_nesting_depth := 0,
                                       current_unpaired_if_write_scope := none,
                                       was_written_in_current_else_scope := false },
                                     { last_read_scope := none,
                                       first_read_scope := none,
                                       first_write_scope := none,
                                       first_write := -1,
                                       last_read := -1,
                                       last_write := -1,
                                       first_read := 2147483647,
                                       conditionality_in_loop_id := 2147483647,
                                       if_scope_write_flags := 0,
                                       next_ifelse_nesting_depth := 0,
                                       current_unpaired_if_write_scope := none,
                                       was_written_in_current_else_scope := false }],
                           access_mask := 0,
                           needs_component_tracking := false },
                         { comp := #[{ last_read_scope := none,
                                       first_read_scope := none,
                                       first_write_scope := some 0,
                                       first_write := 0,
                                       last_read := -1,
                                       last_write := 5,
                                       first_read := 2147483647,
                                       conditionality_in_loop_id := 2147483647,
                                       if_scope_write_flags := 0,
                                       next_ifelse_nesting_depth := 0,
                                       current_unpaired_if_write_scope := none,
                                       was_written_in_current_else_scope := false },
                                     { last_read_scope := none,
                                       first_read_scope := none,
                                       first_write_scope := some 0,
                                       first_write := 0,
                                       last_read := -1,
                                       last_write := 5,
                                       first_read := 2147483647,
                                       conditionality_in_loop_id := 2147483647,
                                       if_scope_write_flags := 0,
                                       next_ifelse_nesting_depth := 0,
                                       current_unpaired_if_write_scope := none,
                                       was_written_in_current_else_scope := false },
                                     { last_read_scope := none,
                                       first_read_scope := none,
                                       first_write_scope := some 0,
                                       first_write := 0,
                                       last_read := -1,
                                       last_write := 5,
                                       first_read := 2147483647,
                                       conditionality_in_loop_id := 2147483647,
                                       if_scope_write_flags := 0,
                                       next_ifelse_nesting_depth := 0,
                                       current_unpaired_if_write_scope := none,
                                       was_written_in_current_else_scope := false },
                                     { last_read_scope := none,
                                       first_read_scope := none,
                                       first_write_scope := some 0,
                                       first_write := 0,
                                       last_read := -1,
                                       last_write := 5,
                                       first_read := 2147483647,
                                       conditionality_in_loop_id := 2147483647,
                                       if_scope_write_flags := 0,
                                       next_ifelse_nesting_depth := 0,
                                       current_unpaired_if_write_scope := none,
                                       was_written_in_current_else_scope := false }],
                           access_mask := 15,
                           needs_component_tracking := false }],
                arr := #[] } }

def lbs_st7 : scan_state :=
  { line := 7,
    loop_id := 2,
    if_id := 2,
    switch_id := 0,
    is_at_end := false,
    arena := #[{ scope_type := prog_scope_type.outer_scope,
                 scope_id := 0,
                 scope_nesting_depth := 0,
                 scope_begin := 0,
                 scope_end := -1,
                 break_loop_line := 2147483647,
                 parent_scope := none },
               { scope_type := prog_scope_type.loop_body,
                 scope_id := 1,
                 scope_nesting_depth := 1,
                 scope_begin := 1,
                 scope_end := 6,
                 break_loop_line := 3,
                 parent_scope := some 0 },
               { scope_type := prog_scope_type.if_branch,
                 scope_id := 1,
                 scope_nesting_depth := 2,
                 scope_begin := 3,
                 scope_end := 3,
                 break_loop_line := 2147483647,
                 parent_scope := some 1 }],
    cur_scope := 0,
    access := { acc := #[{ comp := #[{ last_read_scope := none,
                                       first_read_scope := none,
                                       first_write_scope := none,
                                       first_write := -1,
                                       last_read := -1,
                                       last_write := -1,
                                       first_read := 2147483647,
                                       conditionality_in_loop_id := 2147483647,
                                       if_scope_write_flags := 0,
                                       next_ifelse_nesting_depth := 0,
                                       current_unpaired_if_write_scope := none,
                                       was_written_in_current_else_scope := false },
                                     { last_read_scope := none,
                                       first_read_scope := none,
                                       first_write_scope := none,
                                       first_write := -1,
                                       last_read := -1,
                                       last_write := -1,
                                       first_read := 2147483647,
                                       conditionality_in_loop_id := 2147483647,
                                       if_scope_write_flags := 0,
                                       next_ifelse_nesting_depth := 0,
                                       current_unpaired_if_write_scope := none,
                                       was_written_in_current_else_scope := false },
                                     { last_read_scope := none,
                                       first_read_scope := none,
                                       first_write_scope := none,
                                       first_write := -1,
                                       last_read := -1,
                                       last_write := -1,
                                       first_read := 2147483647,
                                       conditionality_in_loop_id := 2147483647,
                                       if_scope_write_flags := 0,
                                       next_ifelse_nesting_depth := 0,
                                       current_unpaired_if_write_scope := none,
                                       was_written_in_current_else_scope := false },
                                     { last_read_scope := none,
                                       first_read_scope := none,
                                       first_write_scope := none,
                                       first_write := -1,
                                       last_read := -1,
                                       last_write := -1,
                                       first_read := 2147483647,
                                       conditionality_in_loop_id := 2147483647,
                                       if_scope_write_flags := 0,
                                       next_ifelse_nesting_depth := 0,
                                       current_unpaired_if_write_scope := none,
                                       was_written_in_current_else_scope := false }],
                           access_mask := 0,
                           needs_component_tracking := false },
                         { comp := #[{ last_read_scope := none,
                                       first_read_scope := none,
                                       first_write_scope := some 0,
                                       first_write := 0,
                                       last_read := -1,
                                       last_write := 5,
                                       first_read := 2147483647,
                                       conditionality_in_loop_id := 2147483647,
                                       if_scope_write_flags := 0,
                                       next_ifelse_nesting_depth := 0,
                                       current_unpaired_if_write_scope := none,
                                       was_written_in_current_else_scope := false },
                                     { last_read_scope := none,
                                       first_read_scope := none,
                                       first_write_scope := some 0,
                                       first_write := 0,
                                       last_read := -1,
                                       last_write := 5,
                                       first_read := 2147483647,
                                       conditionality_in_loop_id := 2147483647,
                                       if_scope_write_flags := 0,
                                       next_ifelse_nesting_depth := 0,
                                       current_unpaired_if_write_scope := none,
                                       was_written_in_current_else_scope := false },
                                     { last_read_scope := none,
                                       first_read_scope := none,
                                       first_write_scope := some 0,
                                       first_write := 0,
                                       last_read := -1,
                                       last_write := 5,
                                       first_read := 2147483647,
                                       conditionality_in_loop_id := 2147483647,
                                       if_scope_write_flags := 0,
                                       next_ifelse_nesting_depth := 0,
                                       current_unpaired_if_write_scope := none,
                                       was_written_in_current_else_scope := false },
                                     { last_read_scope := none,
                                       first_read_scope := none,
                                       first_write_scope := some 0,
                                       first_write := 0,
                                       last_read := -1,
                                       last_write := 5,
                                       first_read := 2147483647,
                                       conditionality_in_loop_id := 2147483647,
                                       if_scope_write_flags := 0,
                                       next_ifelse_nesting_depth := 0,
                                       current_unpaired_if_write_scope := none,
                                       was_written_in_current_else_scope := false }],
                           access_mask := 15,
                           needs_component_tracking := false }],
                arr := #[] } }

def lbs_st8 : scan_state :=
  { line := 8,
    loop_id := 2,
    if_id := 2,
    switch_id := 0,
    is_at_end := false,
    arena := #[{ scope_type := prog_scope_type.outer_scope,
                 scope_id := 0,
                 scope_nesting_depth := 0,
                 scope_begin := 0,
                 scope_end := -1,
                 break_loop_line := 2147483647,
                 parent_scope := none },
               { scope_type := prog_scope_type.loop_body,
                 scope_id := 1,
                 scope_nesting_depth := 1,
                 scope_begin := 1,
                 scope_end := 6,
                 break_loop_line := 3,
                 parent_scope := some 0 },
               { scope_type := prog_scope_type.if_branch,
                 scope_id := 1,
                 scope_nesting_depth := 2,
                 scope_begin := 3,
                 scope_end := 3,
                 break_loop_line := 2147483647,
                 parent_scope := some 1 }],
    cur_scope := 0,
    access := { acc := #[{ comp := #[{ last_read_scope := none,
                                       first_read_scope := none,
                                       first_write_scope := none,
                                       first_write := -1,
                                       last_read := -1,
                                       last_write := -1,
                                       first_read := 2147483647,
                                       conditionality_in_loop_id := 2147483647,
                                       if_scope_write_flags := 0,
                                       next_ifelse_nesting_depth := 0,
                                       current_unpaired_if_write_scope := none,
                                       was_written_in_current_else_scope := false },
                                     { last_read_scope := none,
                                       first_read_scope := none,
                                       first_write_scope := none,
                                       first_write := -1,
                                       last_read := -1,
                                       last_write := -1,
                                       first_read := 2147483647,
                                       conditionality_in_loop_id := 2147483647,
                                       if_scope_write_flags := 0,
                                       next_ifelse_nesting_depth := 0,
                                       current_unpaired_if_write_scope := none,
                                       was_written_in_current_else_scope := false },
                                     { last_read_scope := none,
                                       first_read_scope := none,
                                       first_write_scope := none,
                                       first_write := -1,
                                       last_read := -1,
                                       last_write := -1,
                                       first_read := 2147483647,
                                       conditionality_in_loop_id := 2147483647,
                                       if_scope_write_flags := 0,
                                       next_ifelse_nesting_depth := 0,
                                       current_unpaired_if_write_scope := none,
                                       was_written_in_current_else_scope := false },
                                     { last_read_scope := none,
                                       first_read_scope := none,
                                       first_write_scope := none,
                                       first_write := -1,
                                       last_read := -1,
                                       last_write := -1,
                                       first_read := 2147483647,
                                       conditionality_in_loop_id := 2147483647,
                                       if_scope_write_flags := 0,
                                       next_ifelse_nesting_depth := 0,
                                       current_unpaired_if_write_scope := none,
                                       was_written_in_current_else_scope := false }],
                           access_mask := 0,
                           needs_component_tracking := false },
                         { comp := #[{ last_read_scope := some 0,
                                       first_read_scope := some 0,
                                       first_write_scope := some 0,
                                       first_write := 0,
                                       last_read := 7,
                                       last_write := 5,
                                       first_read := 7,
                                       conditionality_in_loop_id := 2147483647,
                                       if_scope_write_flags := 0,
                                       next_ifelse_nesting_depth := 0,
                                       current_unpaired_if_write_scope := none,
                                       was_written_in_current_else_scope := false },
                                     { last_read_scope := some 0,
                                       first_read_scope := some 0,
                                       first_write_scope := some 0,
                                       first_write := 0,
                                       last_read := 7,
                                       last_write := 5,
                                       first_read := 7,
                                       conditionality_in_loop_id := 2147483647,
                                       if_scope_write_flags := 0,
                                       next_ifelse_nesting_depth := 0,
                                       current_unpaired_if_write_scope := none,
                                       was_written_in_current_else_scope := false },
                                     { last_read_scope := some 0,
                                       first_read_scope := some 0,
                                       first_write_scope := some 0,
                                       first_write := 0,
                                       last_read := 7,
                                       last_write := 5,
                                       first_read := 7,
                                       conditionality_in_loop_id := 2147483647,
                                       if_scope_write_flags := 0,
                                       next_ifelse_nesting_depth := 0,
                                       current_unpaired_if_write_scope := none,
                                       was_written_in_current_else_scope := false },
                                     { last_read_scope := some 0,
                                       first_read_scope := some 0,
                                       first_write_scope := some 0,
                                       first_write := 0,
                                       last_read := 7,
                                       last_write := 5,
                                       first_read := 7,
                                       conditionality_in_loop_id := 2147483647,
                                       if_scope_write_flags := 0,
                                       next_ifelse_nesting_depth := 0,
                                       current_unpaired_if_write_scope := none,
                                       was_written_in_current_else_scope := false }],
                           access_mask := 15,
                           needs_component_tracking := false }],
                arr := #[] } }

def lbs_st9 : scan_state :=
  { line := 9,
    loop_id := 2,
    if_id := 2,
    switch_id := 0,
    is_at_end := true,
    arena := #[{ scope_type := prog_scope_type.outer_scope,
                 scope_id := 0,
                 scope_nesting_depth := 0,
                 scope_begin := 0,
                 scope_end := 8,
                 break_loop_line := 2147483647,
                 parent_scope := none },
               { scope_type := prog_scope_type.loop_body,
                 scope_id := 1,
                 scope_nesting_depth := 1,
                 scope_begin := 1,
                 scope_end := 6,
                 break_loop_line := 3,
                 parent_scope := some 0 },
               { scope_type := prog_scope_type.if_branch,
                 scope_id := 1,
                 scope_nesting_depth := 2,
                 scope_begin := 3,
                 scope_end := 3,
                 break_loop_line := 2147483647,
                 parent_scope := some 1 }],
    cur_scope := 0,
    access := { acc := #[{ comp := #[{ last_read_scope := none,
                                       first_read_scope := none,
                                       first_write_scope := none,
                                       first_write := -1,
                                       last_read := -1,
                                       last_write := -1,
                                       first_read := 2147483647,
                                       conditionality_in_loop_id := 2147483647,
                                       if_scope_write_flags := 0,
                                       next_ifelse_nesting_depth := 0,
                                       current_unpaired_if_write_scope := none,
                                       was_written_in_current_else_scope := false },
                                     { last_read_scope := none,
                                       first_read_scope := none,
                                       first_write_scope := none,
                                       first_write := -1,
                                       last_read := -1,
                                       last_write := -1,
                                       first_read := 2147483647,
                                       conditionality_in_loop_id := 2147483647,
                                       if_scope_write_flags := 0,
                                       next_ifelse_nesting_depth := 0,
                                       current_unpaired_if_write_scope := none,
                                       was_written_in_current_else_scope := false },
                                     { last_read_scope := none,
                                       first_read_scope := none,
                                       first_write_scope := none,
                                       first_write := -1,
                                       last_read := -1,
                                       last_write := -1,
                                       first_read := 2147483647,
                                       conditionality_in_loop_id := 2147483647,
                                       if_scope_write_flags := 0,
                                       next_ifelse_nesting_depth := 0,
                                       current_unpaired_if_write_scope := none,
                                       was_written_in_current_else_scope := false },
                                     { last_read_scope := none,
                                       first_read_scope := none,
                                       first_write_scope := none,
                                       first_write := -1,
                                       last_read := -1,
                                       last_write := -1,
                                       first_read := 2147483647,
                                       conditionality_in_loop_id := 2147483647,
                                       if_scope_write_flags := 0,
                                       next_ifelse_nesting_depth := 0,
                                       current_unpaired_if_write_scope := none,
                                       was_written_in_current_else_scope := false }],
                           access_mask := 0,
                           needs_component_tracking := false },
                         { comp := #[{ last_read_scope := some 0,
                                       first_read_scope := some 0,
                                       first_write_scope := some 0,
                                       first_write := 0,
                                       last_read := 7,
                                       last_write := 5,
                                       first_read := 7,
                                       conditionality_in_loop_id := 2147483647,
                                       if_scope_write_flags := 0,
                                       next_ifelse_nesting_depth := 0,
                                       current_unpaired_if_write_scope := none,
                                       was_written_in_current_else_scope := false },
                                     { last_read_scope := some 0,
                                       first_read_scope := some 0,
                                       first_write_scope := some 0,
                                       first_write := 0,
                                       last_read := 7,
                                       last_write := 5,
                                       first_read := 7,
                                       conditionality_in_loop_id := 2147483647,
                                       if_scope_write_flags := 0,
                                       next_ifelse_nesting_depth := 0,
                                       current_unpaired_if_write_scope := none,
                                       was_written_in_current_else_scope := false },
                                     { last_read_scope := some 0,
                                       first_read_scope := some 0,
                                       first_write_scope := some 0,
                                       first_write := 0,
                                       last_read := 7,
                                       last_write := 5,
                                       first_read := 7,
                                       conditionality_in_loop_id := 2147483647,
                                       if_scope_write_flags := 0,
                                       next_ifelse_nesting_depth := 0,
                                       current_unpaired_if_write_scope := none,
                                       was_written_in_current_else_scope := false },
                                     { last_read_scope := some 0,
                                       first_read_scope := some 0,
                                       first_write_scope := some 0,
                                       first_write := 0,
                                       last_read := 7,
                                       last_write := 5,
                                       first_read := 7,
                                       conditionality_in_loop_id := 2147483647,
                                       if_scope_write_flags := 0,
                                       next_ifelse_nesting_depth := 0,
                                       current_unpaired_if_write_scope := none,
                                       was_written_in_current_else_scope := false }],
                           access_mask := 15,
                           needs_component_tracking := false }],
                arr := #[] } }

set_option maxHeartbeats 1000000 in
theorem lbs_scan : scan_go lbs_prog lbs_st0 = some lbs_st9 := by
  have e1 : scan_go lbs_prog lbs_st0
      = scan_go (lbs_prog.drop 1) lbs_st1 := rfl
  have e2 : scan_go (lbs_prog.drop 1) lbs_st1
      = scan_go (lbs_prog.drop 2) lbs_st2 := rfl
  have e3 : scan_go (lbs_prog.drop 2) lbs_st2
      = scan_go (lbs_prog.drop 3) lbs_st3 := rfl
  have e4 : scan_go (lbs_prog.drop 3) lbs_st3
      = scan_go (lbs_prog.drop 4) lbs_st4 := rfl
  have e5 : scan_go (lbs_prog.drop 4) lbs_st4
      = scan_go (lbs_prog.drop 5) lbs_st5 := rfl
  have e6 : scan_go (lbs_prog.drop 5) lbs_st5
      = scan_go (lbs_prog.drop 6) lbs_st6 := rfl
  have e7 : scan_go (lbs_prog.drop 6) lbs_st6
      = scan_go (lbs_prog.drop 7) lbs_st7 := rfl
  have e8 : scan_go (lbs_prog.drop 7) lbs_st7
      = scan_go (lbs_prog.drop 8) lbs_st8 := rfl
  have e9 : scan_go (lbs_prog.drop 8) lbs_st8 = some lbs_st9 := rfl
  exact e1.trans (e2.trans (e3.trans (e4.trans (e5.trans (e6.trans
    (e7.trans (e8.trans e9)))))))

set_option maxHeartbeats 1000000 in
theorem lbs_lifetimes : get_temp_registers_required_lifetimes lbs_prog 2 0
    = some (#[⟨-1, -1⟩, ⟨0, 7⟩], #[]) := by
  have hs : scan_go lbs_prog
      { line := 0, loop_id := 1, if_id := 1, switch_id := 0,
        is_at_end := false,
        arena := #[prog_scope.make none prog_scope_type.outer_scope 0 0 0],
        cur_scope := 0,
        access := { acc := Array.mkArray 2 default,
                    arr := Array.mkArray 0 default } } = some lbs_st9 :=
    lbs_scan
  simp only [get_temp_registers_required_lifetimes]
  rw [hs]
  rfl

/-- The same loop without the initial unconditional MOV before it (the
repository's LoopWithWriteAfterBreak shape, lines 0-7). -/
def lbn_prog : List glsl_to_tgsi_instruction :=
  [⟨tgsi_opcode.BGNLOOP, [], [], []⟩,
   ⟨tgsi_opcode.IF, [], [src_input 0], []⟩,
   ⟨tgsi_opcode.BRK, [], [], []⟩,
   ⟨tgsi_opcode.ENDIF, [], [], []⟩,
   ⟨tgsi_opcode.MOV, [dst_temp 1], [src_input 0], []⟩,
   ⟨tgsi_opcode.ENDLOOP, [], [], []⟩,
   ⟨tgsi_opcode.MOV, [dst_out 0], [src_temp 1], []⟩,
   ⟨tgsi_opcode.END, [], [], []⟩]

def lbn_st1 : scan_state :=
  { line := 1,
    loop_id := 2,
    if_id := 1,
    switch_id := 0,
    is_at_end := false,
    arena := #[{ scope_type := prog_scope_type.outer_scope,
                 scope_id := 0,
                 scope_nesting_depth := 0,
                 scope_begin := 0,
                 scope_end := -1,
                 break_loop_line := 2147483647,
                 parent_scope := none },
               { scope_type := prog_scope_type.loop_body,
                 scope_id := 1,
                 scope_nesting_depth := 1,
                 scope_begin := 0,
                 scope_end := -1,
                 break_loop_line := 2147483647,
                 parent_scope := some 0 }],
    cur_scope := 1,
    access := { acc := #[{ comp := #[{ last_read_scope := none,
                                       first_read_scope := none,
                                       first_write_scope := none,
                                       first_write := -1,
                                       last_read := -1,
                                       last_write := -1,
                                       first_read := 2147483647,
                                       conditionality_in_loop_id := 2147483647,
                                       if_scope_write_flags := 0,
                                       next_ifelse_nesting_depth := 0,
                                       current_unpaired_if_write_scope := none,
                                       was_written_in_current_else_scope := false },
                                     { last_read_scope := none,
                                       first_read_scope := none,
                                       first_write_scope := none,
                                       first_write := -1,
                                       last_read := -1,
                                       last_write := -1,
                                       first_read := 2147483647,
                                       conditionality_in_loop_id := 2147483647,
                                       if_scope_write_flags := 0,
                                       next_ifelse_nesting_depth := 0,
                                       current_unpaired_if_write_scope := none,
                                       was_written_in_current_else_scope := false },
                                     { last_read_scope := none,
                                       first_read_scope := none,
                                       first_write_scope := none,
                                       first_write := -1,
                                       last_read := -1,
                                       last_write := -1,
                                       first_read := 2147483647,
                                       conditionality_in_loop_id := 2147483647,
                                       if_scope_write_flags := 0,
                                       next_ifelse_nesting_depth := 0,
                                       current_unpaired_if_write_scope := none,
                                       was_written_in_current_else_scope := false },
                                     { last_read_scope := none,
                                       first_read_scope := none,
                                       first_write_scope := none,
                                       first_write := -1,
                                       last_read := -1,
                                       last_write := -1,
                                       first_read := 2147483647,
                                       conditionality_in_loop_id := 2147483647,
                                       if_scope_write_flags := 0,
                                       next_ifelse_nesting_depth := 0,
                                       current_unpaired_if_write_scope := none,
                                       was_written_in_current_else_scope := false }],
                           access_mask := 0,
                           needs_component_tracking := false },
                         { comp := #[{ last_read_scope := none,
                                       first_read_scope := none,
                                       first_write_scope := none,
                                       first_write := -1,
                                       last_read := -1,
                                       last_write := -1,
                                       first_read := 2147483647,
                                       conditionality_in_loop_id := 2147483647,
                                       if_scope_write_flags := 0,
                                       next_ifelse_nesting_depth := 0,
                                       current_unpaired_if_write_scope := none,
                                       was_written_in_current_else_scope := false },
                                     { last_read_scope := none,
                                       first_read_scope := none,
                                       first_write_scope := none,
                                       first_write := -1,
                                       last_read := -1,
                                       last_write := -1,
                                       first_read := 2147483647,
                                       conditionality_in_loop_id := 2147483647,
                                       if_scope_write_flags := 0,
                                       next_ifelse_nesting_depth := 0,
                                       current_unpaired_if_write_scope := none,
                                       was_written_in_current_else_scope := false },
                                     { last_read_scope := none,
                                       first_read_scope := none,
                                       first_write_scope := none,
                                       first_write := -1,
                                       last_read := -1,
                                       last_write := -1,
                                       first_read := 2147483647,
                                       conditionality_in_loop_id := 2147483647,
                                       if_scope_write_flags := 0,
                                       next_ifelse_nesting_depth := 0,
                                       current_unpaired_if_write_scope := none,
                                       was_written_in_current_else_scope := false },
                                     { last_read_scope := none,
                                       first_read_scope := none,
                                       first_write_scope := none,
                                       first_write := -1,
                                       last_read := -1,
                                       last_write := -1,
                                       first_read := 2147483647,
                                       conditionality_in_loop_id := 2147483647,
                                       if_scope_write_flags := 0,
                                       next_ifelse_nesting_depth := 0,
                                       current_unpaired_if_write_scope := none,
                                       was_written_in_current_else_scope := false }],
                           access_mask := 0,
                           needs_component_tracking := false }],
                arr := #[] } }

def lbn_st2 : scan_state :=
  { line := 2,
    loop_id := 2,
    if_id := 2,
    switch_id := 0,
    is_at_end := false,
    arena := #[{ scope_type := prog_scope_type.outer_scope,
                 scope_id := 0,
                 scope_nesting_depth := 0,
                 scope_begin := 0,
                 scope_end := -1,
                 break_loop_line := 2147483647,
                 parent_scope := none },
               { scope_type := prog_scope_type.loop_body,
                 scope_id := 1,
                 scope_nesting_depth := 1,
                 scope_begin := 0,
                 scope_end := -1,
                 break_loop_line := 2147483647,
                 parent_scope := some 0 },
               { scope_type := prog_scope_type.if_branch,
                 scope_id := 1,
                 scope_nesting_depth := 2,
                 scope_begin := 2,
                 scope_end := -1,
                 break_loop_line := 2147483647,
                 parent_scope := some 1 }],
    cur_scope := 2,
    access := { acc := #[{ comp := #[{ last_read_scope := none,
                                       first_read_scope := none,
                                       first_write_scope := none,
                                       first_write := -1,
                                       last_read := -1,
                                       last_write := -1,
                                       first_read := 2147483647,
                                       conditionality_in_loop_id := 2147483647,
                                       if_scope_write_flags := 0,
                                       next_ifelse_nesting_depth := 0,
                                       current_unpaired_if_write_scope := none,
                                       was_written_in_current_else_scope := false },
                                     { last_read_scope := none,
                                       first_read_scope := none,
                                       first_write_scope := none,
                                       first_write := -1,
                                       last_read := -1,
                                       last_write := -1,
                                       first_read := 2147483647,
                                       conditionality_in_loop_id := 2147483647,
                                       if_scope_write_flags := 0,
                                       next_ifelse_nesting_depth := 0,
                                       current_unpaired_if_write_scope := none,
                                       was_written_in_current_else_scope := false },
                                     { last_read_scope := none,
                                       first_read_scope := none,
                                       first_write_scope := none,
                                       first_write := -1,
                                       last_read := -1,
                                       last_write := -1,
                                       first_read := 2147483647,
                                       conditionality_in_loop_id := 2147483647,
                                       if_scope_write_flags := 0,
                                       next_ifelse_nesting_depth := 0,
                                       current_unpaired_if_write_scope := none,
                                       was_written_in_current_else_scope := false },
                                     { last_read_scope := none,
                                       first_read_scope := none,
                                       first_write_scope := none,
                                       first_write := -1,
                                       last_read := -1,
                                       last_write := -1,
                                       first_read := 2147483647,
                                       conditionality_in_loop_id := 2147483647,
                                       if_scope_write_flags := 0,
                                       next_ifelse_nesting_depth := 0,
                                       current_unpaired_if_write_scope := none,
                                       was_written_in_current_else_scope := false }],
                           access_mask := 0,
                           needs_component_tracking := false },
                         { comp := #[{ last_read_scope := none,
                                       first_read_scope := none,
                                       first_write_scope := none,
                                       first_write := -1,
                                       last_read := -1,
                                       last_write := -1,
                                       first_read := 2147483647,
                                       conditionality_in_loop_id := 2147483647,
                                       if_scope_write_flags := 0,
                                       next_ifelse_nesting_depth := 0,
                                       current_unpaired_if_write_scope := none,
                                       was_written_in_current_else_scope := false },
                                     { last_read_scope := none,
                                       first_read_scope := none,
                                       first_write_scope := none,
                                       first_write := -1,
                                       last_read := -1,
                                       last_write := -1,
                                       first_read := 2147483647,
                                       conditionality_in_loop_id := 2147483647,
                                       if_scope_write_flags := 0,
                                       next_ifelse_nesting_depth := 0,
                                       current_unpaired_if_write_scope := none,
                                       was_written_in_current_else_scope := false },
                                     { last_read_scope := none,
                                       first_read_scope := none,
                                       first_write_scope := none,
                                       first_write := -1,
                                       last_read := -1,
                                       last_write := -1,
                                       first_read := 2147483647,
                                       conditionality_in_loop_id := 2147483647,
                                       if_scope_write_flags := 0,
                                       next_ifelse_nesting_depth := 0,
                                       current_unpaired_if_write_scope := none,
                                       was_written_in_current_else_scope := false },
                                     { last_read_scope := none,
                                       first_read_scope := none,
                                       first_write_scope := none,
                                       first_write := -1,
                                       last_read := -1,
                                       last_write := -1,
                                       first_read := 2147483647,
                                       conditionality_in_loop_id := 2147483647,
                                       if_scope_write_flags := 0,
                                       next_ifelse_nesting_depth := 0,
                                       current_unpaired_if_write_scope := none,
                                       was_written_in_current_else_scope := false }],
                           access_mask := 0,
                           needs_component_tracking := false }],
                arr := #[] } }

def lbn_st3 : scan_state :=
  { line := 3,
    loop_id := 2,
    if_id := 2,
    switch_id := 0,
    is_at_end := false,
    arena := #[{ scope_type := prog_scope_type.outer_scope,
                 scope_id := 0,
                 scope_nesting_depth := 0,
                 scope_begin := 0,
                 scope_end := -1,
                 break_loop_line := 2147483647,
                 parent_scope := none },
               { scope_type := prog_scope_type.loop_body,
                 scope_id := 1,
                 scope_nesting_depth := 1,
                 scope_begin := 0,
                 scope_end := -1,
                 break_loop_line := 2,
                 parent_scope := some 0 },
               { scope_type := prog_scope_type.if_branch,
                 scope_id := 1,
                 scope_nesting_depth := 2,
                 scope_begin := 2,
                 scope_end := -1,
                 break_loop_line := 2147483647,
                 parent_scope := some 1 }],
    cur_scope := 2,
    access := { acc := #[{ comp := #[{ last_read_scope := none,
                                       first_read_scope := none,
                                       first_write_scope := none,
                                       first_write := -1,
                                       last_read := -1,
                                       last_write := -1,
                                       first_read := 2147483647,
                                       conditionality_in_loop_id := 2147483647,
                                       if_scope_write_flags := 0,
                                       next_ifelse_nesting_depth := 0,
                                       current_unpaired_if_write_scope := none,
                                       was_written_in_current_else_scope := false },
                                     { last_read_scope := none,
                                       first_read_scope := none,
                                       first_write_scope := none,
                                       first_write := -1,
                                       last_read := -1,
                                       last_write := -1,
                                       first_read := 2147483647,
                                       conditionality_in_loop_id := 2147483647,
                                       if_scope_write_flags := 0,
                                       next_ifelse_nesting_depth := 0,
                                       current_unpaired_if_write_scope := none,
                                       was_written_in_current_else_scope := false },
                                     { last_read_scope := none,
                                       first_read_scope := none,
                                       first_write_scope := none,
                                       first_write := -1,
                                       last_read := -1,
                                       last_write := -1,
                                       first_read := 2147483647,
                                       conditionality_in_loop_id := 2147483647,
                                       if_scope_write_flags := 0,
                                       next_ifelse_nesting_depth := 0,
                                       current_unpaired_if_write_scope := none,
                                       was_written_in_current_else_scope := false },
                                     { last_read_scope := none,
                                       first_read_scope := none,
                                       first_write_scope := none,
                                       first_write := -1,
                                       last_read := -1,
                                       last_write := -1,
                                       first_read := 2147483647,
                                       conditionality_in_loop_id := 2147483647,
                                       if_scope_write_flags := 0,
                                       next_ifelse_nesting_depth := 0,
                                       current_unpaired_if_write_scope := none,
                                       was_written_in_current_else_scope := false }],
                           access_mask := 0,
                           needs_component_tracking := false },
                         { comp := #[{ last_read_scope := none,
                                       first_read_scope := none,
                                       first_write_scope := none,
                                       first_write := -1,
                                       last_read := -1,
                                       last_write := -1,
                                       first_read := 2147483647,
                                       conditionality_in_loop_id := 2147483647,
                                       if_scope_write_flags := 0,
                                       next_ifelse_nesting_depth := 0,
                                       current_unpaired_if_write_scope := none,
                                       was_written_in_current_else_scope := false },
                                     { last_read_scope := none,
                                       first_read_scope := none,
                                       first_write_scope := none,
                                       first_write := -1,
                                       last_read := -1,
                                       last_write := -1,
                                       first_read := 2147483647,
                                       conditionality_in_loop_id := 2147483647,
                                       if_scope_write_flags := 0,
                                       next_ifelse_nesting_depth := 0,
                                       current_unpaired_if_write_scope := none,
                                       was_written_in_current_else_scope := false },
                                     { last_read_scope := none,
                                       first_read_scope := none,
                                       first_write_scope := none,
                                       first_write := -1,
                                       last_read := -1,
                                       last_write := -1,
                                       first_read := 2147483647,
                                       conditionality_in_loop_id := 2147483647,
                                       if_scope_write_flags := 0,
                                       next_ifelse_nesting_depth := 0,
                                       current_unpaired_if_write_scope := none,
                                       was_written_in_current_else_scope := false },
                                     { last_read_scope := none,
                                       first_read_scope := none,
                                       first_write_scope := none,
                                       first_write := -1,
                                       last_read := -1,
                                       last_write := -1,
                                       first_read := 2147483647,
                                       conditionality_in_loop_id := 2147483647,
                                       if_scope_write_flags := 0,
                                       next_ifelse_nesting_depth := 0,
                                       current_unpaired_if_write_scope := none,
                                       was_written_in_current_else_scope := false }],
                           access_mask := 0,
                           needs_component_tracking := false }],
                arr := #[] } }

def lbn_st4 : scan_state :=
  { line := 4,
    loop_id := 2,
    if_id := 2,
    switch_id := 0,
    is_at_end := false,
    arena := #[{ scope_type := prog_scope_type.outer_scope,
                 scope_id := 0,
                 scope_nesting_depth := 0,
                 scope_begin := 0,
                 scope_end := -1,
                 break_loop_line := 2147483647,
                 parent_scope := none },
               { scope_type := prog_scope_type.loop_body,
                 scope_id := 1,
                 scope_nesting_depth := 1,
                 scope_begin := 0,
                 scope_end := -1,
                 break_loop_line := 2,
                 parent_scope := some 0 },
               { scope_type := prog_scope_type.if_branch,
                 scope_id := 1,
                 scope_nesting_depth := 2,
                 scope_begin := 2,
                 scope_end := 2,
                 break_loop_line := 2147483647,
                 parent_scope := some 1 }],
    cur_scope := 1,
    access := { acc := #[{ comp := #[{ last_read_scope := none,
                                       first_read_scope := none,
                                       first_write_scope := none,
                                       first_write := -1,
                                       last_read := -1,
                                       last_write := -1,
                                       first_read := 2147483647,
                                       conditionality_in_loop_id := 2147483647,
                                       if_scope_write_flags := 0,
                                       next_ifelse_nesting_depth := 0,
                                       current_unpaired_if_write_scope := none,
                                       was_written_in_current_else_scope := false },
                                     { last_read_scope := none,
                                       first_read_scope := none,
                                       first_write_scope := none,
                                       first_write := -1,
                                       last_read := -1,
                                       last_write := -1,
                                       first_read := 2147483647,
                                       conditionality_in_loop_id := 2147483647,
                                       if_scope_write_flags := 0,
                                       next_ifelse_nesting_depth := 0,
                                       current_unpaired_if_write_scope := none,
                                       was_written_in_current_else_scope := false },
                                     { last_read_scope := none,
                                       first_read_scope := none,
                                       first_write_scope := none,
                                       first_write := -1,
                                       last_read := -1,
                                       last_write := -1,
                                       first_read := 2147483647,
                                       conditionality_in_loop_id := 2147483647,
                                       if_scope_write_flags := 0,
                                       next_ifelse_nesting_depth := 0,
                                       current_unpaired_if_write_scope := none,
                                       was_written_in_current_else_scope := false },
                                     { last_read_scope := none,
                                       first_read_scope := none,
                                       first_write_scope := none,
                                       first_write := -1,
                                       last_read := -1,
                                       last_write := -1,
                                       first_read := 2147483647,
                                       conditionality_in_loop_id := 2147483647,
                                       if_scope_write_flags := 0,
                                       next_ifelse_nesting_depth := 0,
                                       current_unpaired_if_write_scope := none,
                                       was_written_in_current_else_scope := false }],
                           access_mask := 0,
                           needs_component_tracking := false },
                         { comp := #[{ last_read_scope := none,
                                       first_read_scope := none,
                                       first_write_scope := none,
                                       first_write := -1,
                                       last_read := -1,
                                       last_write := -1,
                                       first_read := 2147483647,
                                       conditionality_in_loop_id := 2147483647,
                                       if_scope_write_flags := 0,
                                       next_ifelse_nesting_depth := 0,
                                       current_unpaired_if_write_scope := none,
                                       was_written_in_current_else_scope := false },
                                     { last_read_scope := none,
                                       first_read_scope := none,
                                       first_write_scope := none,
                                       first_write := -1,
                                       last_read := -1,
                                       last_write := -1,
                                       first_read := 2147483647,
                                       conditionality_in_loop_id := 2147483647,
                                       if_scope_write_flags := 0,
                                       next_ifelse_nesting_depth := 0,
                                       current_unpaired_if_write_scope := none,
                                       was_written_in_current_else_scope := false },
                                     { last_read_scope := none,
                                       first_read_scope := none,
                                       first_write_scope := none,
                                       first_write := -1,
                                       last_read := -1,
                                       last_write := -1,
                                       first_read := 2147483647,
                                       conditionality_in_loop_id := 2147483647,
                                       if_scope_write_flags := 0,
                                       next_ifelse_nesting_depth := 0,
                                       current_unpaired_if_write_scope := none,
                                       was_written_in_current_else_scope := false },
                                     { last_read_scope := none,
                                       first_read_scope := none,
                                       first_write_scope := none,
                                       first_write := -1,
                                       last_read := -1,
                                       last_write := -1,
                                       first_read := 2147483647,
                                       conditionality_in_loop_id := 2147483647,
                                       if_scope_write_flags := 0,
                                       next_ifelse_nesting_depth := 0,
                                       current_unpaired_if_write_scope := none,
                                       was_written_in_current_else_scope := false }],
                           access_mask := 0,
                           needs_component_tracking := false }],
                arr := #[] } }

def lbn_st5 : scan_state :=
  { line := 5,
    loop_id := 2,
    if_id := 2,
    switch_id := 0,
    is_at_end := false,
    arena := #[{ scope_type := prog_scope_type.outer_scope,
                 scope_id := 0,
                 scope_nesting_depth := 0,
                 scope_begin := 0,
                 scope_end := -1,
                 break_loop_line := 2147483647,
                 parent_scope := none },
               { scope_type := prog_scope_type.loop_body,
                 scope_id := 1,
                 scope_nesting_depth := 1,
                 scope_begin := 0,
                 scope_end := -1,
                 break_loop_line := 2,
                 parent_scope := some 0 },
               { scope_type := prog_scope_type.if_branch,
                 scope_id := 1,
                 scope_nesting_depth := 2,
                 scope_begin := 2,
                 scope_end := 2,
                 break_loop_line := 2147483647,
                 parent_scope := some 1 }],
    cur_scope := 1,
    access := { acc := #[{ comp := #[{ last_read_scope := none,
                                       first_read_scope := none,
                                       first_write_scope := none,
                                       first_write := -1,
                                       last_read := -1,
                                       last_write := -1,
                                       first_read := 2147483647,
                                       conditionality_in_loop_id := 2147483647,
                                       if_scope_write_flags := 0,
                                       next_ifelse_nesting_depth := 0,
                                       current_unpaired_if_write_scope := none,
                                       was_written_in_current_else_scope := false },
                                     { last_read_scope := none,
                                       first_read_scope := none,
                                       first_write_scope := none,
                                       first_write := -1,
                                       last_read := -1,
                                       last_write := -1,
                                       first_read := 2147483647,
                                       conditionality_in_loop_id := 2147483647,
                                       if_scope_write_flags := 0,
                                       next_ifelse_nesting_depth := 0,
                                       current_unpaired_if_write_scope := none,
                                       was_written_in_current_else_scope := false },
                                     { last_read_scope := none,
                                       first_read_scope := none,
                                       first_write_scope := none,
                                       first_write := -1,
                                       last_read := -1,
                                       last_write := -1,
                                       first_read := 2147483647,
                                       conditionality_in_loop_id := 2147483647,
                                       if_scope_write_flags := 0,
                                       next_ifelse_nesting_depth := 0,
                                       current_unpaired_if_write_scope := none,
                                       was_written_in_current_else_scope := false },
                                     { last_read_scope := none,
                                       first_read_scope := none,
                                       first_write_scope := none,
                                       first_write := -1,
                                       last_read := -1,
                                       last_write := -1,
                                       first_read := 2147483647,
                                       conditionality_in_loop_id := 2147483647,
                                       if_scope_write_flags := 0,
                                       next_ifelse_nesting_depth := 0,
                                       current_unpaired_if_write_scope := none,
                                       was_written_in_current_else_scope := false }],
                           access_mask := 0,
                           needs_component_tracking := false },
                         { comp := #[{ last_read_scope := none,
                                       first_read_scope := none,
                                       first_write_scope := some 1,
                                       first_write := 4,
                                       last_read := -1,
                                       last_write := 4,
                                       first_read := 2147483647,
                                       conditionality_in_loop_id := 2147483647,
                                       if_scope_write_flags := 0,
                                       next_ifelse_nesting_depth := 0,
                                       current_unpaired_if_write_scope := none,
                                       was_written_in_current_else_scope := false },
                                     { last_read_scope := none,
                                       first_read_scope := none,
                                       first_write_scope := some 1,
                                       first_write := 4,
                                       last_read := -1,
                                       last_write := 4,
                                       first_read := 2147483647,
                                       conditionality_in_loop_id := 2147483647,
                                       if_scope_write_flags := 0,
                                       next_ifelse_nesting_depth := 0,
                                       current_unpaired_if_write_scope := none,
                                       was_written_in_current_else_scope := false },
                                     { last_read_scope := none,
                                       first_read_scope := none,
                                       first_write_scope := some 1,
                                       first_write := 4,
                                       last_read := -1,
                                       last_write := 4,
                                       first_read := 2147483647,
                                       conditionality_in_loop_id := 2147483647,
                                       if_scope_write_flags := 0,
                                       next_ifelse_nesting_depth := 0,
                                       current_unpaired_if_write_scope := none,
                                       was_written_in_current_else_scope := false },
                                     { last_read_scope := none,
                                       first_read_scope := none,
                                       first_write_scope := some 1,
                                       first_write := 4,
                                       last_read := -1,
                                       last_write := 4,
                                       first_read := 2147483647,
                                       conditionality_in_loop_id := 2147483647,
                                       if_scope_write_flags := 0,
                                       next_ifelse_nesting_depth := 0,
                                       current_unpaired_if_write_scope := none,
                                       was_written_in_current_else_scope := false }],
                           access_mask := 15,
                           needs_component_tracking := false }],
                arr := #[] } }

def lbn_st6 : scan_state :=
  { line := 6,
    loop_id := 2,
    if_id := 2,
    switch_id := 0,
    is_at_end := false,
    arena := #[{ scope_type := prog_scope_type.outer_scope,
                 scope_id := 0,
                 scope_nesting_depth := 0,
                 scope_begin := 0,
                 scope_end := -1,
                 break_loop_line := 2147483647,
                 parent_scope := none },
               { scope_type := prog_scope_type.loop_body,
                 scope_id := 1,
                 scope_nesting_depth := 1,
                 scope_begin := 0,
                 scope_end := 5,
                 break_loop_line := 2,
                 parent_scope := some 0 },
               { scope_type := prog_scope_type.if_branch,
                 scope_id := 1,
                 scope_nesting_depth := 2,
                 scope_begin := 2,
                 scope_end := 2,
                 break_loop_line := 2147483647,
                 parent_scope := some 1 }],
    cur_scope := 0,
    access := { acc := #[{ comp := #[{ last_read_scope := none,
                                       first_read_scope := none,
                                       first_write_scope := none,
                                       first_write := -1,
                                       last_read := -1,
                                       last_write := -1,
                                       first_read := 2147483647,
                                       conditionality_in_loop_id := 2147483647,
                                       if_scope_write_flags := 0,
                                       next_ifelse_nesting_depth := 0,
                                       current_unpaired_if_write_scope := none,
                                       was_written_in_current_else_scope := false },
                                     { last_read_scope := none,
                                       first_read_scope := none,
                                       first_write_scope := none,
                                       first_write := -1,
                                       last_read := -1,
                                       last_write := -1,
                                       first_read := 2147483647,
                                       conditionality_in_loop_id := 2147483647,
                                       if_scope_write_flags := 0,
                                       next_ifelse_nesting_depth := 0,
                                       current_unpaired_if_write_scope := none,
                                       was_written_in_current_else_scope := false },
                                     { last_read_scope := none,
                                       first_read_scope := none,
                                       first_write_scope := none,
                                       first_write := -1,
                                       last_read := -1,
                                       last_write := -1,
                                       first_read := 2147483647,
                                       conditionality_in_loop_id := 2147483647,
                                       if_scope_write_flags := 0,
                                       next_ifelse_nesting_depth := 0,
                                       current_unpaired_if_write_scope := none,
                                       was_written_in_current_else_scope := false },
                                     { last_read_scope := none,
                                       first_read_scope := none,
                                       first_write_scope := none,
                                       first_write := -1,
                                       last_read := -1,
                                       last_write := -1,
                                       first_read := 2147483647,
                                       conditionality_in_loop_id := 2147483647,
                                       if_scope_write_flags := 0,
                                       next_ifelse_nesting_depth := 0,
                                       current_unpaired_if_write_scope := none,
                                       was_written_in_current_else_scope := false }],
                           access_mask := 0,
                           needs_component_tracking := false },
                         { comp := #[{ last_read_scope := none,
                                       first_read_scope := none,
                                       first_write_scope := some 1,
                                       first_write := 4,
                                       last_read := -1,
                                       last_write := 4,
                                       first_read := 2147483647,
                                       conditionality_in_loop_id := 2147483647,
                                       if_scope_write_flags := 0,
                                       next_ifelse_nesting_depth := 0,
                                       current_unpaired_if_write_scope := none,
                                       was_written_in_current_else_scope := false },
                                     { last_read_scope := none,
                                       first_read_scope := none,
                                       first_write_scope := some 1,
                                       first_write := 4,
                                       last_read := -1,
                                       last_write := 4,
                                       first_read := 2147483647,
                                       conditionality_in_loop_id := 2147483647,
                                       if_scope_write_flags := 0,
                                       next_ifelse_nesting_depth := 0,
                                       current_unpaired_if_write_scope := none,
                                       was_written_in_current_else_scope := false },
                                     { last_read_scope := none,
                                       first_read_scope := none,
                                       first_write_scope := some 1,
                                       first_write := 4,
                                       last_read := -1,
                                       last_write := 4,
                                       first_read := 2147483647,
                                       conditionality_in_loop_id := 2147483647,
                                       if_scope_write_flags := 0,
                                       next_ifelse_nesting_depth := 0,
                                       current_unpaired_if_write_scope := none,
                                       was_written_in_current_else_scope := false },
                                     { last_read_scope := none,
                                       first_read_scope := none,
                                       first_write_scope := some 1,
                                       first_write := 4,
                                       last_read := -1,
                                       last_write := 4,
                                       first_read := 2147483647,
                                       conditionality_in_loop_id := 2147483647,
                                       if_scope_write_flags := 0,
                                       next_ifelse_nesting_depth := 0,
                                       current_unpaired_if_write_scope := none,
                                       was_written_in_current_else_scope := false }],
                           access_mask := 15,
                           needs_component_tracking := false }],
                arr := #[] } }

def lbn_st7 : scan_state :=
  { line := 7,
    loop_id := 2,
    if_id := 2,
    switch_id := 0,
    is_at_end := false,
    arena := #[{ scope_type := prog_scope_type.outer_scope,
                 scope_id := 0,
                 scope_nesting_depth := 0,
                 scope_begin := 0,
                 scope_end := -1,
                 break_loop_line := 2147483647,
                 parent_scope := none },
               { scope_type := prog_scope_type.loop_body,
                 scope_id := 1,
                 scope_nesting_depth := 1,
                 scope_begin := 0,
                 scope_end := 5,
                 break_loop_line := 2,
                 parent_scope := some 0 },
               { scope_type := prog_scope_type.if_branch,
                 scope_id := 1,
                 scope_nesting_depth := 2,
                 scope_begin := 2,
                 scope_end := 2,
                 break_loop_line := 2147483647,
                 parent_scope := some 1 }],
    cur_scope := 0,
    access := { acc := #[{ comp := #[{ last_read_scope := none,
                                       first_read_scope := none,
                                       first_write_scope := none,
                                       first_write := -1,
                                       last_read := -1,
                                       last_write := -1,
                                       first_read := 2147483647,
                                       conditionality_in_loop_id := 2147483647,
                                       if_scope_write_flags := 0,
                                       next_ifelse_nesting_depth := 0,
                                       current_unpaired_if_write_scope := none,
                                       was_written_in_current_else_scope := false },
                                     { last_read_scope := none,
                                       first_read_scope := none,
                                       first_write_scope := none,
                                       first_write := -1,
                                       last_read := -1,
                                       last_write := -1,
                                       first_read := 2147483647,
                                       conditionality_in_loop_id := 2147483647,
                                       if_scope_write_flags := 0,
                                       next_ifelse_nesting_depth := 0,
                                       current_unpaired_if_write_scope := none,
                                       was_written_in_current_else_scope := false },
                                     { last_read_scope := none,
                                       first_read_scope := none,
                                       first_write_scope := none,
                                       first_write := -1,
                                       last_read := -1,
                                       last_write := -1,
                                       first_read := 2147483647,
                                       conditionality_in_loop_id := 2147483647,
                                       if_scope_write_flags := 0,
                                       next_ifelse_nesting_depth := 0,
                                       current_unpaired_if_write_scope := none,
                                       was_written_in_current_else_scope := false },
                                     { last_read_scope := none,
                                       first_read_scope := none,
                                       first_write_scope := none,
                                       first_write := -1,
                                       last_read := -1,
                                       last_write := -1,
                                       first_read := 2147483647,
                                       conditionality_in_loop_id := 2147483647,
                                       if_scope_write_flags := 0,
                                       next_ifelse_nesting_depth := 0,
                                       current_unpaired_if_write_scope := none,
                                       was_written_in_current_else_scope := false }],
                           access_mask := 0,
                           needs_component_tracking := false },
                         { comp := #[{ last_read_scope := some 0,
                                       first_read_scope := some 0,
                                       first_write_scope := some 1,
                                       first_write := 4,
                                       last_read := 6,
                                       last_write := 4,
                                       first_read := 6,
                                       conditionality_in_loop_id := 2147483647,
                                       if_scope_write_flags := 0,
                                       next_ifelse_nesting_depth := 0,
                                       current_unpaired_if_write_scope := none,
                                       was_written_in_current_else_scope := false },
                                     { last_read_scope := some 0,
                                       first_read_scope := some 0,
                                       first_write_scope := some 1,
                                       first_write := 4,
                                       last_read := 6,
                                       last_write := 4,
                                       first_read := 6,
                                       conditionality_in_loop_id := 2147483647,
                                       if_scope_write_flags := 0,
                                       next_ifelse_nesting_depth := 0,
                                       current_unpaired_if_write_scope := none,
                                       was_written_in_current_else_scope := false },
                                     { last_read_scope := some 0,
                                       first_read_scope := some 0,
                                       first_write_scope := some 1,
                                       first_write := 4,
                                       last_read := 6,
                                       last_write := 4,
                                       first_read := 6,
                                       conditionality_in_loop_id := 2147483647,
                                       if_scope_write_flags := 0,
                                       next_ifelse_nesting_depth := 0,
                                       current_unpaired_if_write_scope := none,
                                       was_written_in_current_else_scope := false },
                                     { last_read_scope := some 0,
                                       first_read_scope := some 0,
                                       first_write_scope := some 1,
                                       first_write := 4,
                                       last_read := 6,
                                       last_write := 4,
                                       first_read := 6,
                                       conditionality_in_loop_id := 2147483647,
                                       if_scope_write_flags := 0,
                                       next_ifelse_nesting_depth := 0,
                                       current_unpaired_if_write_scope := none,
                                       was_written_in_current_else_scope := false }],
                           access_mask := 15,
                           needs_component_tracking := false }],
                arr := #[] } }

def lbn_st8 : scan_state :=
  { line := 8,
    loop_id := 2,
    if_id := 2,
    switch_id := 0,
    is_at_end := true,
    arena := #[{ scope_type := prog_scope_type.outer_scope,
                 scope_id := 0,
                 scope_nesting_depth := 0,
                 scope_begin := 0,
                 scope_end := 7,
                 break_loop_line := 2147483647,
                 parent_scope := none },
               { scope_type := prog_scope_type.loop_body,
                 scope_id := 1,
                 scope_nesting_depth := 1,
                 scope_begin := 0,
                 scope_end := 5,
                 break_loop_line := 2,
                 parent_scope := some 0 },
               { scope_type := prog_scope_type.if_branch,
                 scope_id := 1,
                 scope_nesting_depth := 2,
                 scope_begin := 2,
                 scope_end := 2,
                 break_loop_line := 2147483647,
                 parent_scope := some 1 }],
    cur_scope := 0,
    access := { acc := #[{ comp := #[{ last_read_scope := none,
                                       first_read_scope := none,
                                       first_write_scope := none,
                                       first_write := -1,
                                       last_read := -1,
                                       last_write := -1,
                                       first_read := 2147483647,
                                       conditionality_in_loop_id := 2147483647,
                                       if_scope_write_flags := 0,
                                       next_ifelse_nesting_depth := 0,
                                       current_unpaired_if_write_scope := none,
                                       was_written_in_current_else_scope := false },
                                     { last_read_scope := none,
                                       first_read_scope := none,
                                       first_write_scope := none,
                                       first_write := -1,
                                       last_read := -1,
                                       last_write := -1,
                                       first_read := 2147483647,
                                       conditionality_in_loop_id := 2147483647,
                                       if_scope_write_flags := 0,
                                       next_ifelse_nesting_depth := 0,
                                       current_unpaired_if_write_scope := none,
                                       was_written_in_current_else_scope := false },
                                     { last_read_scope := none,
                                       first_read_scope := none,
                                       first_write_scope := none,
                                       first_write := -1,
                                       last_read := -1,
                                       last_write := -1,
                                       first_read := 2147483647,
                                       conditionality_in_loop_id := 2147483647,
                                       if_scope_write_flags := 0,
                                       next_ifelse_nesting_depth := 0,
                                       current_unpaired_if_write_scope := none,
                                       was_written_in_current_else_scope := false },
                                     { last_read_scope := none,
                                       first_read_scope := none,
                                       first_write_scope := none,
                                       first_write := -1,
                                       last_read := -1,
                                       last_write := -1,
                                       first_read := 2147483647,
                                       conditionality_in_loop_id := 2147483647,
                                       if_scope_write_flags := 0,
                                       next_ifelse_nesting_depth := 0,
                                       current_unpaired_if_write_scope := none,
                                       was_written_in_current_else_scope := false }],
                           access_mask := 0,
                           needs_component_tracking := false },
                         { comp := #[{ last_read_scope := some 0,
                                       first_read_scope := some 0,
                                       first_write_scope := some 1,
                                       first_write := 4,
                                       last_read := 6,
                                       last_write := 4,
                                       first_read := 6,
                                       conditionality_in_loop_id := 2147483647,
                                       if_scope_write_flags := 0,
                                       next_ifelse_nesting_depth := 0,
                                       current_unpaired_if_write_scope := none,
                                       was_written_in_current_else_scope := false },
                                     { last_read_scope := some 0,
                                       first_read_scope := some 0,
                                       first_write_scope := some 1,
                                       first_write := 4,
                                       last_read := 6,
                                       last_write := 4,
                                       first_read := 6,
                                       conditionality_in_loop_id := 2147483647,
                                       if_scope_write_flags := 0,
                                       next_ifelse_nesting_depth := 0,
                                       current_unpaired_if_write_scope := none,
                                       was_written_in_current_else_scope := false },
                                     { last_read_scope := some 0,
                                       first_read_scope := some 0,
                                       first_write_scope := some 1,
                                       first_write := 4,
                                       last_read := 6,
                                       last_write := 4,
                                       first_read := 6,
                                       conditionality_in_loop_id := 2147483647,
                                       if_scope_write_flags := 0,
                                       next_ifelse_nesting_depth := 0,
                                       current_unpaired_if_write_scope := none,
                                       was_written_in_current_else_scope := false },
                                     { last_read_scope := some 0,
                                       first_read_scope := some 0,
                                       first_write_scope := some 1,
                                       first_write := 4,
                                       last_read := 6,
                                       last_write := 4,
                                       first_read := 6,
                                       conditionality_in_loop_id := 2147483647,
                                       if_scope_write_flags := 0,
                                       next_ifelse_nesting_depth := 0,
                                       current_unpaired_if_write_scope := none,
                                       was_written_in_current_else_scope := false }],
                           access_mask := 15,
                           needs_component_tracking := false }],
                arr := #[] } }

set_option maxHeartbeats 1000000 in
theorem lbn_scan : scan_go lbn_prog lbs_st0 = some lbn_st8 := by
  have e1 : scan_go lbn_prog lbs_st0
      = scan_go (lbn_prog.drop 1) lbn_st1 := rfl
  have e2 : scan_go (lbn_prog.drop 1) lbn_st1
      = scan_go (lbn_prog.drop 2) lbn_st2 := rfl
  have e3 : scan_go (lbn_prog.drop 2) lbn_st2
      = scan_go (lbn_prog.drop 3) lbn_st3 := rfl
  have e4 : scan_go (lbn_prog.drop 3) lbn_st3
      = scan_go (lbn_prog.drop 4) lbn_st4 := rfl
  have e5 : scan_go (lbn_prog.drop 4) lbn_st4
      = scan_go (lbn_prog.drop 5) lbn_st5 := rfl
  have e6 : scan_go (lbn_prog.drop 5) lbn_st5
      = scan_go (lbn_prog.drop 6) lbn_st6 := rfl
  have e7 : scan_go (lbn_prog.drop 6) lbn_st6
      = scan_go (lbn_prog.drop 7) lbn_st7 := rfl
  have e8 : scan_go (lbn_prog.drop 7) lbn_st7 = some lbn_st8 := rfl
  exact e1.trans (e2.trans (e3.trans (e4.trans (e5.trans (e6.trans
    (e7.trans e8))))))

set_option maxHeartbeats 1000000 in
theorem lbn_lifetimes : get_temp_registers_required_lifetimes lbn_prog 2 0
    = some (#[⟨-1, -1⟩, ⟨0, 6⟩], #[]) := by
  have hs : scan_go lbn_prog
      { line := 0, loop_id := 1, if_id := 1, switch_id := 0,
        is_at_end := false,
        arena := #[prog_scope.make none prog_scope_type.outer_scope 0 0 0],
        cur_scope := 0,
        access := { acc := Array.mkArray 2 default,
                    arr := Array.mkArray 0 default } } = some lbn_st8 :=
    lbn_scan
  simp only [get_temp_registers_required_lifetimes]
  rw [hs]
  rfl

/-- C6 counterexample: in the claimed program the computed lifetime of t1
begins at line 0 (the unconditional MOV before the loop), not at the loop's
start line 1: the break-line promotion in get_required_lifetime never runs
because the first write scope is already the outer scope. -/
theorem loop_break_scenario_starts_before_loop :
    (get_temp_registers_required_lifetimes lbs_prog 2 0).map
        (fun r => (r.1.getD 1 default).rbegin) = some 0 ∧
    ¬ (get_temp_registers_required_lifetimes lbs_prog 2 0).map
        (fun r => (r.1.getD 1 default).rbegin) = some 1 := by
  have h : (get_temp_registers_required_lifetimes lbs_prog 2 0).map
      (fun r => (r.1.getD 1 default).rbegin) = some 0 := by
    rw [lbs_lifetimes]
    rfl
  exact ⟨h, by rw [h]; simp⟩

/-- C6 amended: the lifetime of t1 in the claimed program is (0, 7) - from
the unconditional write before the loop to the final MOV out0, t1. Without
the leading write the break does promote the lifetime to the whole loop:
the variant starting at BGNLOOP yields (0, 6), from the loop start line to
the final read. -/
theorem loop_break_scenario_lifetime :
    (get_temp_registers_required_lifetimes lbs_prog 2 0).map
        (fun r => ((r.1.getD 1 default).rbegin, (r.1.getD 1 default).rend))
      = some (0, 7) ∧
    (get_temp_registers_required_lifetimes lbn_prog 2 0).map
        (fun r => ((r.1.getD 1 default).rbegin, (r.1.getD 1 default).rend))
      = some (0, 6) := by
  constructor
  · rw [lbs_lifetimes]
    rfl
  · rw [lbn_lifetimes]
    rfl
